import Mathlib

/-!
# LastExpress sound entries (engines/lastexpress/sound/entry.cpp)

A shallow embedding of `SoundEntry`, of the part of `SoundQueue` it talks to, and of
the persistence record written by `SoundEntry::saveLoadWithSerializer`.

Conventions of the embedding:

* 32-bit machine integers are natural numbers; where the source wraps, the wrap is
  written out as `% 2 ^ 32`.
* Pointers to pool entries are positions in the pool list; an absent pointer is `none`.
* Calls into collaborators (streams, the streaming handle, save points, graphics) are
  recorded as a list of `Effect`s, in call order.
* The enumerators of `SoundFlag`, `SoundType` and `EntityIndex` are declared in a header
  that is not part of the sources at hand; they are taken as a parameter
  (`SoundConstants`), so that every statement holds for whatever values the header gives.
-/

namespace LastExpress

/-! ## Constants -/

/-- The enumerators the code refers to by name (declared in `shared.h`). -/
structure SoundConstants where
  kSoundVolumeMask : Nat
  kVolumeNone : Nat
  kSoundFlagPlayRequested : Nat
  kSoundFlagMuteRequested : Nat
  kSoundFlagCloseRequested : Nat
  kSoundFlagClosed : Nat
  kSoundFlagCloseOnDataEnd : Nat
  kSoundFlagLooped : Nat
  kSoundFlagDelayedActivate : Nat
  kSoundFlagHasSubtitles : Nat
  kSoundFlagFixedVolume : Nat
  kSoundFlagVolumeChanging : Nat
  kSoundFlagFading : Nat
  kSoundTypeMask : Nat
  kSoundTypeNormal : Nat
  kSoundTypeAmbient : Nat
  kSoundTypeWalla : Nat
  kSoundTypeLink : Nat
  kSoundTypeNIS : Nat
  kSoundTypeIntro : Nat
  kSoundTypeMenu : Nat
  kSoundTypeNone : Nat
  kSoundType1 : Nat
  kSoundType2 : Nat
  kSoundType3 : Nat
  kSoundType4 : Nat
  kSoundType5 : Nat
  kSoundType7 : Nat
  kSoundType8 : Nat
  kSoundType9 : Nat
  kSoundType10 : Nat
  kSoundType11 : Nat
  kSoundType13 : Nat
  kSoundType14 : Nat
  kEntityPlayer : Nat
  kEntitySteam : Nat
  kEntityTrain : Nat
  kActionEndSound : Nat

/-- The `case` labels of the `switch` in `SoundEntry::setType`, in source order. -/
def SoundConstants.caseLabels (K : SoundConstants) : List Nat :=
  [K.kSoundTypeNormal, K.kSoundTypeAmbient, K.kSoundTypeWalla, K.kSoundTypeLink,
   K.kSoundTypeNIS, K.kSoundTypeIntro, K.kSoundTypeMenu]

/-- A `switch` only compiles when its `case` labels are pairwise different. -/
def SoundConstants.LabelsDistinct (K : SoundConstants) : Prop :=
  K.caseLabels.Nodup

instance (K : SoundConstants) : Decidable K.LabelsDistinct := by
  unfold SoundConstants.LabelsDistinct
  infer_instance

/-- The enumerators of `SoundType` the code names. -/
def SoundConstants.soundTypes (K : SoundConstants) : List Nat :=
  [K.kSoundTypeNone, K.kSoundType1, K.kSoundType2, K.kSoundType3, K.kSoundType4,
   K.kSoundType5, K.kSoundType7, K.kSoundType8, K.kSoundType9, K.kSoundType10,
   K.kSoundType11, K.kSoundType13, K.kSoundType14]

/-- Different enumerators of `SoundType` have different values. -/
def SoundConstants.TypesDistinct (K : SoundConstants) : Prop :=
  K.soundTypes.Nodup

instance (K : SoundConstants) : Decidable K.TypesDistinct := by
  unfold SoundConstants.TypesDistinct
  infer_instance

/-- One assignment of the enumerators: volume in the five low bits, one bit per status
flag, the category in bits 24 to 26, types and entities numbered in order. It is used
to run the definitions on concrete inputs. -/
def sampleConstants : SoundConstants where
  kSoundVolumeMask := 0x1F
  kVolumeNone := 0
  kSoundFlagPlayRequested := 0x20
  kSoundFlagMuteRequested := 0x80
  kSoundFlagCloseRequested := 0x200
  kSoundFlagClosed := 0x400
  kSoundFlagCloseOnDataEnd := 0x800
  kSoundFlagLooped := 0x1000
  kSoundFlagDelayedActivate := 0x8000
  kSoundFlagHasSubtitles := 0x20000
  kSoundFlagFixedVolume := 0x80000
  kSoundFlagVolumeChanging := 0x100000
  kSoundFlagFading := 0x200000
  kSoundTypeMask := 0x7000000
  kSoundTypeNormal := 0
  kSoundTypeAmbient := 0x1000000
  kSoundTypeWalla := 0x2000000
  kSoundTypeLink := 0x3000000
  kSoundTypeNIS := 0x4000000
  kSoundTypeIntro := 0x5000000
  kSoundTypeMenu := 0x7000000
  kSoundTypeNone := 0
  kSoundType1 := 1
  kSoundType2 := 2
  kSoundType3 := 3
  kSoundType4 := 4
  kSoundType5 := 5
  kSoundType7 := 7
  kSoundType8 := 8
  kSoundType9 := 9
  kSoundType10 := 10
  kSoundType11 := 11
  kSoundType13 := 13
  kSoundType14 := 14
  kEntityPlayer := 0
  kEntitySteam := 38
  kEntityTrain := 39
  kActionEndSound := 2

/-! ## Data model -/

/-- Calls into collaborator modules, recorded in call order. -/
inductive Effect where
  | streamSeek (stream : Nat) (pos : Nat)
  | soundStreamLoad (stream : Nat) (filterId : Nat)
  | soundStreamSetFilterId (filterId : Nat)
  | soundStreamStop
  | deleteStream (stream : Nat)
  | deleteSoundStream
  | playLoopingSound (id : Nat)
  | savePointsPush (sender : Nat) (target : Nat) (action : Nat)
  | graphicsDraw (subtitle : Nat)
  deriving DecidableEq, Repr

/-- The fields of `SubtitleEntry`; `addr` stands for the object's address (`this`),
`_data` for whether caption data has been loaded. -/
structure SubtitleEntry where
  addr : Nat
  _status : Nat
  _filename : List Nat
  _sound : Option Nat
  _data : Bool
  deriving DecidableEq, Repr

/-- The fields of `SoundEntry`. `_stream` is the handle of the raw stream (`none` for
`NULL`), `_soundStream` tells whether the streaming handle exists. Names are byte
strings. `_field_3C` and `_variant` are the `int` fields `update` assigns from its
`int value2` and its `uint val`; the other integer fields hold 32-bit patterns. -/
structure SoundEntry where
  _status : Nat
  _type : Nat
  _blockCount : Nat
  _time : Nat
  _stream : Option Nat
  _field_34 : Nat
  _field_38 : Nat
  _field_3C : Int
  _variant : Int
  _entity : Nat
  _field_48 : Nat
  _priority : Nat
  _name1 : List Nat
  _name2 : List Nat
  _subtitle : Option SubtitleEntry
  _soundStream : Bool
  _queued : Bool
  deriving DecidableEq, Repr

/-- The part of `SoundQueue` that `SoundEntry` and `SubtitleEntry` read and write:
the pool, the cycling type counter, the flag word and the subtitle bookkeeping
(subtitles are referred to by address). -/
structure SoundQueue where
  _soundList : List SoundEntry
  _currentType : Nat
  _flag : Nat
  _subtitlesFlag : Nat
  _subtitles : List Nat
  _currentSubtitle : Option Nat
  deriving DecidableEq, Repr

/-- The constructor `SoundEntry::SoundEntry`. -/
def SoundEntry.new (K : SoundConstants) : SoundEntry where
  _status := 0
  _type := K.kSoundTypeNone
  _blockCount := 0
  _time := 0
  _stream := none
  _field_34 := 0
  _field_38 := 0
  _field_3C := 0
  _variant := 0
  _entity := K.kEntityPlayer
  _field_48 := 0
  _priority := 0
  _name1 := []
  _name2 := []
  _subtitle := none
  _soundStream := false
  _queued := false

/-! ## The coordinator's lookups -/

/-- Position of the first element satisfying `p`. -/
def firstIndex {α : Type} (p : α → Bool) : List α → Option Nat
  | [] => none
  | x :: xs => if p x then some 0 else (firstIndex p xs).map (· + 1)

/-- Apply `f` to the element at position `i` (a write through a pointer). -/
def modifyAt {α : Type} (f : α → α) : Nat → List α → List α
  | _, [] => []
  | 0, x :: xs => f x :: xs
  | i + 1, x :: xs => x :: modifyAt f i xs

/-- Modelled from the spec: `SoundQueue::getEntry(SoundType)` (queue.cpp is not among
the sources), the lookup-by-type "linear scan, first match"; the result is the position
of the entry in the pool. -/
def SoundQueue.getEntry (q : SoundQueue) (type : Nat) : Option Nat :=
  firstIndex (fun e => e._type == type) q._soundList

/-- A write to the pool entry a pointer returned by `getEntry` refers to. -/
def SoundQueue.modifyEntry (q : SoundQueue) (i : Nat) (f : SoundEntry → SoundEntry) :
    SoundQueue :=
  { q with _soundList := modifyAt f i q._soundList }

/-! ## SoundEntry: type and status -/

/-- The value an `int` holds after a `uint` is stored in it: the low 32 bits read in
two's complement. -/
def toInt32 (v : Nat) : Int :=
  if v % 2 ^ 32 < 2 ^ 31 then ((v % 2 ^ 32 : Nat) : Int)
  else ((v % 2 ^ 32 : Nat) : Int) - 2 ^ 32

/-- `SoundEntry::update(uint val)`; `queueFlag` is `getSoundQueue()->getFlag()`. The
local `int value2` starts as `val` and becomes the 32-bit `val * 2 + 1` in variant mode;
`_variant` and `_field_3C` receive their values as `int`. -/
def SoundEntry.update (K : SoundConstants) (queueFlag : Nat) (e : SoundEntry) (val : Nat) :
    SoundEntry :=
  if e._status &&& K.kSoundFlagFading ≠ 0 then e
  else
    let value2 : Int := toInt32 val
    let e1 := { e with _status := e._status ||| K.kSoundFlagVolumeChanging }
    if val ≠ 0 then
      if queueFlag &&& 32 ≠ 0 then
        { e1 with _variant := toInt32 val, _field_3C := toInt32 ((val * 2 + 1) % 2 ^ 32) }
      else
        { e1 with _field_3C := value2 }
    else
      { e1 with _field_3C := 0, _status := e1._status ||| K.kSoundFlagFading }

/-- Modelled from the spec: the accessor `setType(SoundType)` of entry.h (not among the
sources), which the calls `previous->setType(kSoundType2)` resolve to since their
argument is a `SoundType`: the entry is demoted "to the category's paired inactive
type", a plain assignment of `_type`. -/
def SoundEntry.setTypeTo (e : SoundEntry) (type : Nat) : SoundEntry :=
  { e with _type := type }

/-- The first statement of the ambient `case` of `setType`: the entry holding
`kSoundType2`, if there is one, gets `update(0)`. -/
def SoundQueue.ambientFirst (K : SoundConstants) (q : SoundQueue) : SoundQueue :=
  match q.getEntry K.kSoundType2 with
  | some previous2 => q.modifyEntry previous2 (fun p => p.update K q._flag 0)
  | none => q

/-- The body shared by the `case`s of `setType` that look up `active` and, if an entry
holds it, demote that entry to `inactive` (and call `update(0)` on it when `upd`). -/
def SoundQueue.demote (K : SoundConstants) (q : SoundQueue) (active inactive : Nat)
    (upd : Bool) : SoundQueue :=
  match q.getEntry active with
  | some previous =>
    q.modifyEntry previous (fun p =>
      let p1 := p.setTypeTo inactive
      if upd then p1.update K q._flag 0 else p1)
  | none => q

/-- `SoundEntry::setType(SoundFlag flag)`, for an entry `self` that is not (yet) in the
pool. The result is the coordinator after the call and the entry after the call. The
counter `(SoundType)(_type + 1)` is kept in the 32 bits of the field. -/
def SoundEntry.setType (K : SoundConstants) (q : SoundQueue) (self : SoundEntry)
    (flag : Nat) : SoundQueue × SoundEntry :=
  let sel := flag &&& K.kSoundTypeMask
  if sel = K.kSoundTypeAmbient then
    ((q.ambientFirst K).demote K K.kSoundType1 K.kSoundType2 true,
      { self with _type := K.kSoundType1 })
  else if sel = K.kSoundTypeWalla then
    (q.demote K K.kSoundType3 K.kSoundType4 true, { self with _type := K.kSoundType11 })
  else if sel = K.kSoundTypeLink then
    (q.demote K K.kSoundType7 K.kSoundType8 false, { self with _type := K.kSoundType7 })
  else if sel = K.kSoundTypeNIS then
    (q.demote K K.kSoundType9 K.kSoundType10 false, { self with _type := K.kSoundType9 })
  else if sel = K.kSoundTypeIntro then
    (q.demote K K.kSoundType11 K.kSoundType14 false, { self with _type := K.kSoundType11 })
  else if sel = K.kSoundTypeMenu then
    (q.demote K K.kSoundType13 K.kSoundType14 false, { self with _type := K.kSoundType13 })
  else
    ({ q with _currentType := (q._currentType + 1) % 2 ^ 32 },
      { self with _type := q._currentType })

/-- `SoundEntry::setupStatus(SoundFlag flag)`. -/
def SoundEntry.setupStatus (K : SoundConstants) (e : SoundEntry) (flag : Nat) : SoundEntry :=
  let s0 := flag
  let s1 := if s0 &&& K.kSoundVolumeMask = K.kVolumeNone
    then s0 ||| K.kSoundFlagMuteRequested else s0
  let s2 := if s1 &&& K.kSoundFlagLooped = 0 then s1 ||| K.kSoundFlagCloseOnDataEnd else s1
  { e with _status := s2 }

/-- `SoundEntry::loadStream(Common::String name)`; `getArchive` is the archive loader. -/
def SoundEntry.loadStream (K : SoundConstants) (getArchive : List Nat → Option Nat)
    (defaultSnd : List Nat) (e : SoundEntry) (name : List Nat) : SoundEntry :=
  let e1 := { e with _name2 := name, _stream := getArchive name }
  let e2 := if e1._stream.isNone then { e1 with _stream := getArchive defaultSnd } else e1
  if e2._stream.isNone then { e2 with _status := K.kSoundFlagCloseRequested } else e2

/-- The bytes of the literal "DEFAULT.SND". -/
def defaultSndName : List Nat := [68, 69, 70, 65, 85, 76, 84, 46, 83, 78, 68]

/-- `SoundEntry::open(Common::String name, SoundFlag flag, int priority)`. -/
def SoundEntry.open (K : SoundConstants) (getArchive : List Nat → Option Nat)
    (q : SoundQueue) (self : SoundEntry) (name : List Nat) (flag : Nat) (priority : Nat) :
    SoundQueue × SoundEntry :=
  let e0 := { self with _priority := priority }
  let (q1, e1) := e0.setType K q flag
  let e2 := e1.setupStatus K flag
  (q1, e2.loadStream K getArchive defaultSndName name)

/-- Modelled from the spec: how entries reach the pool (the caller in sound.cpp and
`SoundQueue::addToQueue` are not among the sources): "SoundEntry created by an open
request (name + category flags + priority)"; a new entry is constructed, opened against
the current pool and appended to it. -/
def SoundQueue.openEntry (K : SoundConstants) (getArchive : List Nat → Option Nat)
    (q : SoundQueue) (name : List Nat) (flag : Nat) (priority : Nat) : SoundQueue :=
  let r := (SoundEntry.new K).open K getArchive q name flag priority
  { r.1 with _soundList := r.1._soundList ++ [r.2] }

/-- A request to open a sound: name, flag and priority. -/
structure OpenRequest where
  name : List Nat
  flag : Nat
  priority : Nat
  deriving DecidableEq, Repr

/-- The pool after a sequence of open requests, served in order. -/
def SoundQueue.openAll (K : SoundConstants) (getArchive : List Nat → Option Nat) :
    SoundQueue → List OpenRequest → SoundQueue
  | q, [] => q
  | q, r :: rs => (q.openEntry K getArchive r.name r.flag r.priority).openAll K getArchive rs

/-- A coordinator with an empty pool and no subtitles. -/
def SoundQueue.empty (currentType flag : Nat) : SoundQueue where
  _soundList := []
  _currentType := currentType
  _flag := flag
  _subtitlesFlag := 0
  _subtitles := []
  _currentSubtitle := none

/-! ## SoundEntry: playback -/

/-- `SoundEntry::play()`. `error(...)` does not return: the call yields the message and
nothing else happens. -/
def SoundEntry.play (K : SoundConstants) (e : SoundEntry) :
    Except String (SoundEntry × List Effect) :=
  match e._stream with
  | none => .error "[SoundEntry::play] stream has been disposed"
  | some stream =>
    let e1 := { e with _soundStream := true }
    let filterId := e1._status &&& K.kSoundVolumeMask
    if e1._queued then
      .ok (e1, [Effect.soundStreamSetFilterId filterId])
    else
      .ok ({ e1 with _queued := true },
        [Effect.streamSeek stream 0, Effect.soundStreamLoad stream filterId])

/-- `SoundEntry::isFinished()`; `streamFinished` is the answer of
`_soundStream->isFinished()`. -/
def SoundEntry.isFinished (e : SoundEntry) (streamFinished : Bool) : Bool :=
  if e._stream.isNone then true
  else if !e._soundStream || !e._queued then false
  else streamFinished

/-- `SoundEntry::reset()`. -/
def SoundEntry.reset (K : SoundConstants) (e : SoundEntry) : SoundEntry × List Effect :=
  let e1 := { e with _status := e._status ||| K.kSoundFlagCloseRequested,
                     _entity := K.kEntityPlayer }
  match e1._stream with
  | some stream =>
    if !e1._soundStream then
      ({ e1 with _stream := none }, [Effect.deleteStream stream])
    else
      ({ e1 with _soundStream := false, _stream := none },
        [Effect.soundStreamStop, Effect.deleteSoundStream])
  | none => (e1, [])

/-- A number of `play()` calls in a row: the outcome of the last call reached and the
calls made on the collaborators up to there. -/
def SoundEntry.playTimes (K : SoundConstants) :
    Nat → SoundEntry → Except String SoundEntry × List Effect
  | 0, e => (.ok e, [])
  | n + 1, e =>
    match e.play K with
    | .error msg => (.error msg, [])
    | .ok (e1, fx) =>
      let r := SoundEntry.playTimes K n e1
      (r.1, fx ++ r.2)

/-! ## Subtitles (the part `close` needs) -/

/-- Modelled from the spec: `SoundQueue::removeSubtitle` (queue.h is not among the
sources), "remove from active list": every reference to the subtitle is dropped. -/
def SoundQueue.removeSubtitle (q : SoundQueue) (addr : Nat) : SoundQueue :=
  { q with _subtitles := q._subtitles.filter (fun a => a != addr) }

/-- `SubtitleEntry::drawOnScreen()`; `& -2` clears bit 0 of the 32-bit flag word. -/
def SubtitleEntry.drawOnScreen (sub : SubtitleEntry) (q : SoundQueue) :
    SoundQueue × List Effect :=
  if !sub._data then (q, [])
  else ({ q with _subtitlesFlag := q._subtitlesFlag &&& 0xFFFFFFFE },
        [Effect.graphicsDraw sub.addr])

/-- `SubtitleEntry::draw()`. -/
def SubtitleEntry.draw (sub : SubtitleEntry) (q : SoundQueue) : SoundQueue × List Effect :=
  let q1 := q.removeSubtitle sub.addr
  if q1._currentSubtitle = some sub.addr then
    let r := sub.drawOnScreen q1
    ({ r.1 with _currentSubtitle := none, _subtitlesFlag := 0 }, r.2)
  else (q1, [])

/-- `SoundEntry::close()`. The calls `playLoopingSound(2)` and `getSavePoints()->push`
go to collaborators and are recorded, not followed. -/
def SoundEntry.close (K : SoundConstants) (q : SoundQueue) (e : SoundEntry) :
    SoundQueue × SoundEntry × List Effect :=
  let e1 := { e with _status := e._status ||| K.kSoundFlagCloseRequested }
  let r : SoundQueue × SoundEntry × List Effect :=
    match e1._subtitle with
    | some sub => let d := sub.draw q; (d.1, { e1 with _subtitle := none }, d.2)
    | none => (q, e1, [])
  let e2 := r.2.1
  let fx : List Effect :=
    if e2._entity ≠ 0 then
      if e2._entity = K.kEntitySteam then [Effect.playLoopingSound 2]
      else if e2._entity ≠ K.kEntityTrain then
        [Effect.savePointsPush K.kEntityPlayer e2._entity K.kActionEndSound]
      else []
    else []
  (r.1, e2, r.2.2 ++ fx)

/-- The two ways an entry is shut down. -/
inductive EntryOp where
  | close
  | reset
  deriving DecidableEq, Repr

/-- A sequence of `close()` and `reset()` calls on one entry, with the collaborator
calls they make. -/
def SoundEntry.runOps (K : SoundConstants) :
    List EntryOp → SoundQueue → SoundEntry → SoundQueue × SoundEntry × List Effect
  | [], q, e => (q, e, [])
  | EntryOp.close :: ops, q, e =>
    let r := e.close K q
    let t := SoundEntry.runOps K ops r.1 r.2.1
    (t.1, t.2.1, r.2.2 ++ t.2.2)
  | EntryOp.reset :: ops, q, e =>
    let r := e.reset K
    let t := SoundEntry.runOps K ops q r.1
    (t.1, t.2.1, r.2 ++ t.2.2)

/-- Whether a collaborator call releases the raw stream, directly or by releasing the
streaming handle that owns it. -/
def Effect.releasesStream : Effect → Bool
  | Effect.deleteStream _ => true
  | Effect.deleteSoundStream => true
  | _ => false

/-- Whether a collaborator call is `StreamedSound::load`. -/
def Effect.isLoad : Effect → Bool
  | Effect.soundStreamLoad _ _ => true
  | _ => false

/-- Whether a collaborator call is a seek on the raw stream. -/
def Effect.isSeek : Effect → Bool
  | Effect.streamSeek _ _ => true
  | _ => false

/-! ## Persistence -/

/-- Modelled from the spec: `Common::Serializer` (common/serializer.h is not among the
sources): one object that either writes to a save stream or reads from a load stream.
`bytes` is what has been written so far when saving, what is left to read when loading. -/
structure Serializer where
  isLoading : Bool
  bytes : List Nat
  deriving DecidableEq, Repr

/-- The four bytes of a 32-bit value, least significant first. -/
def uint32LE (v : Nat) : List Nat :=
  [v % 256, v / 256 % 256, v / 65536 % 256, v / 16777216 % 256]

/-- The 32-bit value held by the first four bytes (missing bytes read as 0). -/
def readUint32LE (bs : List Nat) : Nat :=
  bs.getD 0 0 + 256 * bs.getD 1 0 + 65536 * bs.getD 2 0 + 16777216 * bs.getD 3 0

/-- Modelled from the spec: `Serializer::syncAsUint32LE`, "a 4-byte little-endian
unsigned integer": written when saving, read into the variable when loading. -/
def Serializer.syncAsUint32LE (s : Serializer) (val : Nat) : Serializer × Nat :=
  if s.isLoading then ({ s with bytes := s.bytes.drop 4 }, readUint32LE s.bytes)
  else ({ s with bytes := s.bytes ++ uint32LE val }, val)

/-- Modelled from the spec: `Serializer::syncBytes`, a fixed-width byte array: the first
`size` bytes of the buffer are written when saving, replaced when loading. -/
def Serializer.syncBytes (s : Serializer) (buf : List Nat) (size : Nat) :
    Serializer × List Nat :=
  if s.isLoading then
    ({ s with bytes := s.bytes.drop size }, s.bytes.take size ++ buf.drop size)
  else ({ s with bytes := s.bytes ++ buf.take size }, buf)

/-- The C string a `Common::String` hands out: its bytes up to the first NUL. -/
def cstr (s : List Nat) : List Nat :=
  s.takeWhile (fun b => b != 0)

/-- `strcpy(dst, src)`: the bytes of `src` and a terminating NUL over the start of
`dst`. -/
def strcpy (dst : List Nat) (src : List Nat) : List Nat :=
  cstr src ++ [0] ++ dst.drop ((cstr src).length + 1)

/-- A local `char[16]` array: automatic storage is not initialised, so its 16 bytes are
whatever `stack` holds there (bytes `stack` does not give read as 0). -/
def charArray16 (stack : List Nat) : List Nat :=
  (List.range 16).map (fun i => stack.getD i 0)

/-- The bytes of the template "NISSND?". -/
def nisSndTemplate : List Nat := [78, 73, 83, 83, 78, 68, 63]

/-- Modelled from the spec: `Common::String::matchString` (common/str.cpp is not among
the sources) for a template of literal characters and the wildcard `?` (byte 63), which
stands for exactly one character. -/
def matchString : List Nat → List Nat → Bool
  | [], [] => true
  | c :: str, p :: pat => (p == 63 || p == c) && matchString str pat
  | _, _ => false

/-- The local `delta` of `saveLoadWithSerializer`: the 32-bit difference
`(uint32)_field_48 - getSound()->getData2()`, replaced by 0 when above `0x8000000`. -/
def persistedDelta (field_48 data2 : Nat) : Nat :=
  let delta := (field_48 % 2 ^ 32 + 2 ^ 32 - data2 % 2 ^ 32) % 2 ^ 32
  if delta > 0x8000000 then 0 else delta

/-- `SoundEntry::saveLoadWithSerializer(Common::Serializer &s)`. `data2` is
`getSound()->getData2()`, `stack1` and `stack2` are the contents of the local arrays
`name1` and `name2` before `strcpy` fills them. A failed `assert` ends the call with an
error. So does a `strcpy` of a name whose C string has 16 bytes: with its terminator it
writes 17 bytes into the 16-byte array, which is undefined. -/
def SoundEntry.saveLoadWithSerializer (K : SoundConstants) (data2 : Nat)
    (stack1 stack2 : List Nat) (e : SoundEntry) (s : Serializer) :
    Except String (SoundEntry × Serializer) :=
  if ¬ e._name1.length ≤ 16 then .error "assert(_name1.size() <= 16)"
  else if ¬ e._name2.length ≤ 16 then .error "assert(_name2.size() <= 16)"
  else if matchString (cstr e._name2) nisSndTemplate
      && (e._status &&& K.kSoundTypeMask != K.kSoundTypeMenu) then
    let r1 := s.syncAsUint32LE e._status
    let r2 := r1.1.syncAsUint32LE e._type
    let r3 := r2.1.syncAsUint32LE e._blockCount
    let r4 := r3.1.syncAsUint32LE e._time
    let r5 := r4.1.syncAsUint32LE e._field_34
    let r6 := r5.1.syncAsUint32LE e._field_38
    let r7 := r6.1.syncAsUint32LE e._entity
    let r8 := r7.1.syncAsUint32LE (persistedDelta e._field_48 data2)
    let r9 := r8.1.syncAsUint32LE e._priority
    if ¬ (cstr e._name1).length < 16 then .error "strcpy: 17 bytes into char name1[16]"
    else
      let name1 := strcpy (charArray16 stack1) e._name1
      let r10 := r9.1.syncBytes name1 16
      if ¬ (cstr e._name2).length < 16 then .error "strcpy: 17 bytes into char name2[16]"
      else
        let name2 := strcpy (charArray16 stack2) e._name2
        let r11 := r10.1.syncBytes name2 16
        .ok ({ e with _status := r1.2, _type := r2.2, _blockCount := r3.2, _time := r4.2,
                      _field_34 := r5.2, _field_38 := r6.2, _entity := r7.2,
                      _priority := r9.2 }, r11.1)
  else .ok (e, s)

/-! ## SoundEntry: volume updates, subtitles and the tick -/

/-- A call of `close()` on the pool entry at position `i`; the entry stays in the pool
(the source leaves its removal to the loop that iterates over the pool). -/
def SoundQueue.closeEntry (K : SoundConstants) (q : SoundQueue) (i : Nat) :
    SoundQueue × List Effect :=
  match q._soundList[i]? with
  | some e =>
    let r := e.close K q
    (r.1.modifyEntry i (fun _ => r.2.1), r.2.2)
  | none => (q, [])

/-- The operator `~` on a 32-bit word. -/
def bitNot32 (x : Nat) : Nat :=
  0xFFFFFFFF ^^^ x

/-- `SoundEntry::updateEntryFlag(SoundFlag flag)`; `queueFlag` is
`getSoundQueue()->getFlag()`. -/
def SoundEntry.updateEntryFlag (K : SoundConstants) (queueFlag : Nat) (e : SoundEntry)
    (flag : Nat) : SoundEntry :=
  if flag ≠ 0 then
    if queueFlag &&& 0x20 ≠ 0 ∧ e._type ≠ K.kSoundType9 ∧ e._type ≠ K.kSoundType7 then
      e.update K queueFlag flag
    else
      { e with _status := (flag + (e._status &&& bitNot32 K.kSoundVolumeMask)) % 2 ^ 32 }
  else
    { e with
      _variant := 0
      _status := (e._status ||| K.kSoundFlagMuteRequested)
        &&& bitNot32 (K.kSoundFlagVolumeChanging ||| K.kSoundVolumeMask) }

/-- The constructor `SubtitleEntry::SubtitleEntry`, for an object allocated at `addr`. -/
def SubtitleEntry.new (addr : Nat) : SubtitleEntry where
  addr := addr
  _status := 0
  _filename := []
  _sound := none
  _data := false

/-- Modelled from the spec: `SoundQueue::addSubtitle` (queue.h is not among the sources),
"add to the active list": the subtitle is appended to the list. -/
def SoundQueue.addSubtitle (q : SoundQueue) (addr : Nat) : SoundQueue :=
  { q with _subtitles := q._subtitles ++ [addr] }

/-- The bytes of the literal ".SBE". -/
def sbeSuffix : List Nat := [46, 83, 66, 69]

/-- `SubtitleEntry::loadData()`. -/
def SubtitleEntry.loadData (sub : SubtitleEntry) (q : SoundQueue) :
    SubtitleEntry × SoundQueue :=
  ({ sub with _data := true },
   { q with _subtitlesFlag := q._subtitlesFlag ||| 2, _currentSubtitle := some sub.addr })

/-- `SubtitleEntry::load(Common::String filename, SoundEntry *soundEntry)`; `hasFile` is
the resource manager's `hasFile`, `soundEntry` the address of the owning entry. -/
def SubtitleEntry.load (K : SoundConstants) (hasFile : List Nat → Bool)
    (sub : SubtitleEntry) (q : SoundQueue) (filename : List Nat) (soundEntry : Nat) :
    SubtitleEntry × SoundQueue :=
  let q1 := q.addSubtitle sub.addr
  let sub1 := { sub with _filename := filename ++ sbeSuffix, _sound := some soundEntry }
  if hasFile sub1._filename then
    if q1._subtitlesFlag &&& 2 ≠ 0 then (sub1, q1)
    else sub1.loadData q1
  else ({ sub1 with _status := K.kSoundFlagClosed }, q1)

/-- `SoundEntry::showSubtitle(Common::String filename)`; `subAddr` is the address `new`
gives the subtitle, `thisAddr` the address of the entry itself. -/
def SoundEntry.showSubtitle (K : SoundConstants) (hasFile : List Nat → Bool)
    (subAddr thisAddr : Nat) (q : SoundQueue) (e : SoundEntry) (filename : List Nat) :
    SoundQueue × SoundEntry × List Effect :=
  let r := (SubtitleEntry.new subAddr).load K hasFile q filename thisAddr
  if r.1._status &&& 0x400 ≠ 0 then
    let d := r.1.draw r.2
    (d.1, { e with _subtitle := none }, d.2)
  else
    (r.2, { e with _subtitle := some r.1, _status := e._status ||| K.kSoundFlagHasSubtitles },
      [])

/-- The name `updateSound` passes to `showSubtitle`: the secondary name copied into the
local `sub`, cut four characters before its end when it has more than four. -/
def subtitleStem (name2 : List Nat) : List Nat :=
  let sub := cstr name2
  let l := sub.length + 1
  if l - 1 > 4 then sub.take (l - (1 + 4)) else sub

/-- The two status updates `updateSound` makes when the delayed activation is due:
`_status |= kSoundFlagPlayRequested; _status &= ~kSoundFlagDelayedActivate`. -/
def SoundEntry.activate (K : SoundConstants) (e : SoundEntry) : SoundEntry :=
  let e1 := { e with _status := e._status ||| K.kSoundFlagPlayRequested }
  { e1 with _status := e1._status &&& bitNot32 K.kSoundFlagDelayedActivate }

/-- `SoundEntry::updateSound()`. `data2` is `getSound()->getData2()`, `getSoundFlag` is
`getSound()->getSoundFlag`. A failed `assert` ends the call with an error, and so does
the `strcpy` of a name whose C string has 16 bytes into the local `char sub[16]`, which
writes 17 bytes. The result is the returned flag, the coordinator, the entry and the
collaborator calls. -/
def SoundEntry.updateSound (K : SoundConstants) (data2 : Nat) (getSoundFlag : Nat → Nat)
    (hasFile : List Nat → Bool) (subAddr thisAddr : Nat) (q : SoundQueue) (e : SoundEntry) :
    Except String (Bool × SoundQueue × SoundEntry × List Effect) :=
  if ¬ e._name2.length ≤ 16 then .error "assert(_name2.size() <= 16)"
  else if e._status &&& K.kSoundFlagClosed ≠ 0 then .ok (false, q, e, [])
  else if e._status &&& K.kSoundFlagDelayedActivate ≠ 0 then
    if e._field_48 ≤ data2 then
      let e1 := e.activate K
      if ¬ (cstr e1._name2).length < 16 then .error "strcpy: 17 bytes into char sub[16]"
      else .ok (true, e1.showSubtitle K hasFile subAddr thisAddr q (subtitleStem e1._name2))
    else .ok (true, q, e, [])
  else if q._flag &&& 0x20 = 0 then
    if e._status &&& K.kSoundFlagFixedVolume = 0 then
      if e._entity ≠ 0 then
        if e._entity < 0x80 then
          .ok (true, q, e.updateEntryFlag K q._flag (getSoundFlag e._entity), [])
        else .ok (true, q, e, [])
      else .ok (true, q, e, [])
    else .ok (true, q, e, [])
  else .ok (true, q, e, [])

end LastExpress

/-! # Illusions menu system (engines/illusions/menusystem.cpp)

Menus are objects reached through pointers: the embedding keeps them in a list
(`menus`) and a `BaseMenu *` is a position in it, `none` standing for a null pointer.
Following a null or dangling pointer ends a call with an error. Calls that only reach
the screen text layers, the cursor and the actors (`removeText`, `setMousePos`,
`placeActor318`, ...) do not touch the fields of the menu system and are left out; the
answer of `ScreenText::insertText` is a parameter. -/

namespace Illusions

/-- The four kinds of `BaseMenuAction`. -/
inductive MenuAction where
  | enterMenu (menuId : Nat)
  | leaveMenu
  | returnChoice (choiceIndex : Nat)
  | enterQueryMenu (menuId : Nat) (confirmationChoiceIndex : Nat)
  deriving DecidableEq, Repr

/-- The fields of `MenuItem`. -/
structure MenuItem where
  _text : List Nat
  _action : MenuAction
  deriving DecidableEq, Repr

/-- The fields of `BaseMenu`. -/
structure BaseMenu where
  _fontId : Nat
  _field8 : Nat
  _fieldA : Nat
  _fieldC : Nat
  _fieldE : Nat
  _defaultMenuItemIndex : Nat
  _text : List (List Nat)
  _menuItems : List MenuItem
  _field2C18 : Nat
  deriving DecidableEq, Repr

/-- The fields of `BaseMenuSystem` and the menu objects it points to. The top of
`_menuStack` is the head of the list. `_menuChoiceOffset` is the cell the pointer of that
name refers to (`none` for a null pointer). -/
structure BaseMenuSystem where
  menus : List BaseMenu
  _isActive : Bool
  _menuStack : List (Option Nat)
  _activeMenu : Option Nat
  _menuLinesCount : Nat
  _hoveredMenuItemIndex : Nat
  _hoveredMenuItemIndex2 : Nat
  _hoveredMenuItemIndex3 : Nat
  _field54 : Nat
  _menuItemCount : Nat
  _isTimeOutEnabled : Bool
  _isTimeOutReached : Bool
  _timeOutDuration : Nat
  _timeOutMenuChoiceIndex : Nat
  _timeOutStartTime : Nat
  _timeOutEndTime : Nat
  _menuCallerThreadId : Nat
  _menuChoiceOffsets : List Nat
  _menuChoiceOffset : Option Nat
  _queryConfirmationChoiceIndex : Nat
  deriving DecidableEq, Repr

/-- The menu a pointer refers to, if it refers to one. -/
def BaseMenuSystem.deref (s : BaseMenuSystem) (menu : Option Nat) : Option BaseMenu :=
  match menu with
  | some i => s.menus[i]?
  | none => none

/-- `BaseMenu::getHeaderLinesCount()`. -/
def BaseMenu.getHeaderLinesCount (menu : BaseMenu) : Nat :=
  menu._text.length

/-- `BaseMenu::getMenuItemsCount()`. -/
def BaseMenu.getMenuItemsCount (menu : BaseMenu) : Nat :=
  menu._menuItems.length

/-- The first loop of `drawMenuText`: every header line followed by a new line (13). -/
def headerText (menu : BaseMenu) : List Nat :=
  (menu._text.map (fun line => line ++ [13])).flatten

/-- The second loop of `drawMenuText`, over the item numbers `is`: the text appended and
the number of lines counted. `getMenuItem(i - 1)` outside the item list is an error. -/
def itemText (menu : BaseMenu) : List Nat → Except String (List Nat × Nat)
  | [] => .ok ([], 0)
  | i :: is =>
    if i = 0 then .error "getMenuItem: index out of range"
    else
      match menu._menuItems[i - 1]? with
      | none => .error "getMenuItem: index out of range"
      | some item =>
        match itemText menu is with
        | .error msg => .error msg
        | .ok (text, lineCount) =>
          .ok (item._text ++ (if i + 1 ≤ menu.getMenuItemsCount then [13] else []) ++ text,
            lineCount + 1)

/-- The number of occurrences of the character 13 in the text `insertText` left over. -/
def countReturns (rest : List Nat) : Nat :=
  rest.count 13

/-- `BaseMenuSystem::drawMenuText(BaseMenu *menu)`. `insertText` is
`ScreenText::insertText`: given the text and the font it answers `none` when it
returns true, and the text `outTextPtr` points to when it returns false. -/
def BaseMenuSystem.drawMenuText (insertText : List Nat → Nat → Option (List Nat))
    (s : BaseMenuSystem) (menu : BaseMenu) : Except String Nat :=
  match itemText menu
      (List.range' s._hoveredMenuItemIndex3 (s._field54 + 1 - s._hoveredMenuItemIndex3)) with
  | .error msg => .error msg
  | .ok (items, lineCount) =>
    match insertText (headerText menu ++ items ++ [0]) menu._fontId with
    | none => .ok lineCount
    | some rest => .ok ((lineCount + (2 ^ 32 - 1) * (1 + countReturns rest)) % 2 ^ 32)

/-- `BaseMenuSystem::activateMenu(BaseMenu *menu)`. -/
def BaseMenuSystem.activateMenu (insertText : List Nat → Nat → Option (List Nat))
    (s : BaseMenuSystem) (menu : Option Nat) : Except String BaseMenuSystem :=
  match menu, s.deref menu with
  | some i, some m =>
    let m1 := { m with _field2C18 := m.getMenuItemsCount }
    let s1 := { s with
      menus := s.menus.set i m1
      _activeMenu := menu
      _menuLinesCount := m.getHeaderLinesCount
      _hoveredMenuItemIndex3 := 1
      _field54 := m1._field2C18 }
    match s1.drawMenuText insertText m1 with
    | .error msg => .error msg
    | .ok v2 =>
      .ok { s1 with _menuItemCount := if m1._field2C18 ≤ v2 then m1._field2C18 else v2 }
  | _, _ => .error "activateMenu: null menu"

/-- `BaseMenuSystem::openMenu(BaseMenu *menu)`. -/
def BaseMenuSystem.openMenu (insertText : List Nat → Nat → Option (List Nat))
    (s : BaseMenuSystem) (menu : Option Nat) : Except String BaseMenuSystem :=
  match ({ s with _isActive := true, _menuStack := [] }).activateMenu insertText menu with
  | .error msg => .error msg
  | .ok s1 =>
    .ok { s1 with
      _hoveredMenuItemIndex := s1._hoveredMenuItemIndex3
      _hoveredMenuItemIndex2 := s1._hoveredMenuItemIndex3 }

/-- `BaseMenuSystem::closeMenu()`. -/
def BaseMenuSystem.closeMenu (s : BaseMenuSystem) : BaseMenuSystem :=
  { s with _menuStack := [], _isActive := false }

/-- `BaseMenuSystem::enterSubMenu(BaseMenu *menu)`. -/
def BaseMenuSystem.enterSubMenu (insertText : List Nat → Nat → Option (List Nat))
    (s : BaseMenuSystem) (menu : Option Nat) : Except String BaseMenuSystem :=
  match ({ s with _menuStack := s._activeMenu :: s._menuStack }).activateMenu
      insertText menu with
  | .error msg => .error msg
  | .ok s1 =>
    .ok { s1 with
      _hoveredMenuItemIndex := s1._hoveredMenuItemIndex3
      _hoveredMenuItemIndex2 := s1._hoveredMenuItemIndex3 }

/-- `BaseMenuSystem::leaveSubMenu()`. -/
def BaseMenuSystem.leaveSubMenu (insertText : List Nat → Nat → Option (List Nat))
    (s : BaseMenuSystem) : Except String BaseMenuSystem :=
  match s._menuStack with
  | [] => .error "leaveSubMenu: pop on an empty stack"
  | top :: rest =>
    let s1 := { s with _activeMenu := top, _menuStack := rest }
    match s1.deref top with
    | none => .error "leaveSubMenu: null menu"
    | some m =>
      let s2 := { s1 with
        _field54 := m._field2C18
        _menuLinesCount := m.getHeaderLinesCount
        _hoveredMenuItemIndex := 1 }
      match s2.activateMenu insertText s2._activeMenu with
      | .error msg => .error msg
      | .ok s3 =>
        .ok { s3 with
          _hoveredMenuItemIndex := s3._hoveredMenuItemIndex3
          _hoveredMenuItemIndex2 := s3._hoveredMenuItemIndex3 }

/-- `BaseMenuSystem::leaveMenu()`. -/
def BaseMenuSystem.leaveMenu (insertText : List Nat → Nat → Option (List Nat))
    (s : BaseMenuSystem) : Except String BaseMenuSystem :=
  if s._menuStack ≠ [] then s.leaveSubMenu insertText
  else .ok s.closeMenu

/-- Calls of the menu system into the thread list. -/
inductive MenuEffect where
  | notifyId (threadId : Nat)
  deriving DecidableEq, Repr

/-- `BaseMenuSystem::setTimeOutDuration(uint32 duration, uint timeOutMenuChoiceIndex)`;
`now` is `getCurrentTime()`. -/
def BaseMenuSystem.setTimeOutDuration (now : Nat) (s : BaseMenuSystem) (duration : Nat)
    (timeOutMenuChoiceIndex : Nat) : BaseMenuSystem :=
  if duration > 0 then
    { s with
      _isTimeOutEnabled := true
      _isTimeOutReached := false
      _timeOutDuration := duration
      _timeOutMenuChoiceIndex := timeOutMenuChoiceIndex
      _timeOutStartTime := now
      _timeOutEndTime := (duration + now) % 2 ^ 32 }
  else
    { s with _isTimeOutEnabled := false }

/-- `BaseMenuSystem::selectMenuChoiceIndex(uint choiceIndex)`. Reading
`_menuChoiceOffsets` outside the array is an error. -/
def BaseMenuSystem.selectMenuChoiceIndex (s : BaseMenuSystem) (choiceIndex : Nat) :
    Except String (BaseMenuSystem × List MenuEffect) :=
  let notify := [MenuEffect.notifyId s._menuCallerThreadId]
  if choiceIndex > 0 ∧ s._menuChoiceOffset.isSome then
    match s._menuChoiceOffsets[choiceIndex - 1]? with
    | none => .error "_menuChoiceOffsets: index out of range"
    | some offset =>
      .ok (({ s with _menuChoiceOffset := some offset, _menuCallerThreadId := 0 } :
        BaseMenuSystem).closeMenu, notify)
  else
    .ok (({ s with _menuCallerThreadId := 0 } : BaseMenuSystem).closeMenu, notify)

/-- `BaseMenuSystem::updateTimeOut(bool resetTimeOut)`; `now` is `getCurrentTime()`,
`isTimerExpired` the timer test of the same name. -/
def BaseMenuSystem.updateTimeOut (now : Nat) (isTimerExpired : Nat → Nat → Bool)
    (s : BaseMenuSystem) (resetTimeOut : Bool) :
    Except String (BaseMenuSystem × List MenuEffect) :=
  if !s._isTimeOutEnabled then .ok (s, [])
  else
    let r : BaseMenuSystem × Bool :=
      if s._menuStack.isEmpty then
        if s._isTimeOutReached then ({ s with _isTimeOutReached := false }, true)
        else (s, resetTimeOut)
      else if !s._isTimeOutReached then ({ s with _isTimeOutReached := true }, resetTimeOut)
      else (s, resetTimeOut)
    let s1 := r.1
    if !s1._isTimeOutReached then
      if r.2 then
        .ok ({ s1 with
          _timeOutStartTime := now
          _timeOutEndTime := (s1._timeOutDuration + now) % 2 ^ 32 }, [])
      else if isTimerExpired s1._timeOutStartTime s1._timeOutEndTime then
        ({ s1 with _isTimeOutEnabled := false } : BaseMenuSystem).selectMenuChoiceIndex
          s1._timeOutMenuChoiceIndex
      else .ok (s1, [])
    else .ok (s1, [])

/-- A value stored in an `int16`. -/
def wrap16 (v : Int) : Int :=
  (v + 32768) % 65536 - 32768

/-- The fields of `WRect`: two points with `int16` coordinates. -/
structure WRect where
  topLeftX : Int
  topLeftY : Int
  bottomRightX : Int
  bottomRightY : Int
  deriving DecidableEq, Repr

/-- `BaseMenuSystem::calcMenuItemRect(uint menuItemIndex, WRect &rect)`. `charHeight`
gives `font->getCharHeight() + font->getLineIncr()` for a font id, `textPos` and
`textWidth` are what `getTextInfoPosition` and `getTextInfoDimensions` answer. The
additions are made in wider types and stored into `int16` fields. -/
def BaseMenuSystem.calcMenuItemRect (charHeight : Nat → Int) (textPos : Int × Int)
    (textWidth : Int) (s : BaseMenuSystem) (menuItemIndex : Nat) : Except String WRect :=
  match s.deref s._activeMenu with
  | none => .error "calcMenuItemRect: null menu"
  | some m =>
    let ch := charHeight m._fontId
    let x := wrap16 textPos.1
    let y := wrap16 (wrap16 textPos.2
      + ch * ((menuItemIndex : Int) + (s._menuLinesCount : Int) - 1))
    .ok { topLeftX := x, topLeftY := y,
          bottomRightX := wrap16 (x + textWidth), bottomRightY := wrap16 (y + ch) }

/-- `BaseMenuSystem::calcMenuItemIndexAtPoint(Common::Point pt, uint &menuItemIndex)`:
`some index` when it returns true and stores `index`, `none` when it returns false.
The quotient is the truncating division of `int`, added to a `uint`; a row of height 0
makes the division an error. -/
def BaseMenuSystem.calcMenuItemIndexAtPoint (charHeight : Nat → Int) (textPos : Int × Int)
    (textWidth : Int) (s : BaseMenuSystem) (pt : Int × Int) : Except String (Option Nat) :=
  match s.calcMenuItemRect charHeight textPos textWidth 1 with
  | .error msg => .error msg
  | .ok rect =>
    if rect.bottomRightY - rect.topLeftY = 0 then .error "division by zero"
    else
      let index : Nat :=
        (((s._hoveredMenuItemIndex3 : Int)
          + (pt.2 - rect.topLeftY).tdiv (rect.bottomRightY - rect.topLeftY)) % 2 ^ 32).toNat
      if pt.2 < rect.topLeftY ∨ pt.1 < rect.topLeftX ∨ pt.1 > rect.bottomRightX
          ∨ index > s._field54
          ∨ index > (s._hoveredMenuItemIndex3 + s._menuItemCount + (2 ^ 32 - 1)) % 2 ^ 32 then
        .ok none
      else .ok (some index)

/-- `BaseMenuSystem::enterSubMenuById(int menuId)`; `getMenuById` is the lookup the
derived menu system provides. -/
def BaseMenuSystem.enterSubMenuById (getMenuById : Nat → Option Nat)
    (insertText : List Nat → Nat → Option (List Nat)) (s : BaseMenuSystem) (menuId : Nat) :
    Except String BaseMenuSystem :=
  s.enterSubMenu insertText (getMenuById menuId)

/-- `MenuItem::executeAction()`: the `execute` of the four action classes. -/
def MenuItem.executeAction (getMenuById : Nat → Option Nat)
    (insertText : List Nat → Nat → Option (List Nat)) (s : BaseMenuSystem)
    (item : MenuItem) : Except String (BaseMenuSystem × List MenuEffect) :=
  match item._action with
  | MenuAction.enterMenu menuId =>
    match s.enterSubMenuById getMenuById insertText menuId with
    | .error msg => .error msg
    | .ok s1 => .ok (s1, [])
  | MenuAction.leaveMenu =>
    match s.leaveMenu insertText with
    | .error msg => .error msg
    | .ok s1 => .ok (s1, [])
  | MenuAction.returnChoice choiceIndex => s.selectMenuChoiceIndex choiceIndex
  | MenuAction.enterQueryMenu menuId confirmationChoiceIndex =>
    match ({ s with _queryConfirmationChoiceIndex := confirmationChoiceIndex } :
        BaseMenuSystem).enterSubMenuById getMenuById insertText menuId with
    | .error msg => .error msg
    | .ok s1 => .ok (s1, [])

/-- `BaseMenuSystem::handleClick(uint menuItemIndex, const Common::Point &mousePos)`.
`getMenuItem(menuItemIndex - 1)` outside the item list is an error. -/
def BaseMenuSystem.handleClick (getMenuById : Nat → Option Nat)
    (insertText : List Nat → Nat → Option (List Nat)) (s : BaseMenuSystem)
    (menuItemIndex : Nat) : Except String (BaseMenuSystem × List MenuEffect) :=
  if menuItemIndex = 0 then .ok (s, [])
  else
    match s.deref s._activeMenu with
    | none => .error "handleClick: null menu"
    | some m =>
      match m._menuItems[menuItemIndex - 1]? with
      | none => .error "getMenuItem: index out of range"
      | some item => item.executeAction getMenuById insertText s

/-- A text layer that always has room: `insertText` returns true. -/
def sampleInsertText : List Nat → Nat → Option (List Nat) :=
  fun _ _ => none

/-- A root menu with two items, the first of which enters menu 1, and a submenu with one
item that leaves it. -/
def sampleMenus : List BaseMenu :=
  [{ _fontId := 1, _field8 := 0, _fieldA := 0, _fieldC := 0, _fieldE := 0,
     _defaultMenuItemIndex := 2, _text := [[77]],
     _menuItems := [⟨[65], MenuAction.enterMenu 1⟩, ⟨[66], MenuAction.returnChoice 1⟩],
     _field2C18 := 2 },
   { _fontId := 1, _field8 := 0, _fieldA := 0, _fieldC := 0, _fieldE := 0,
     _defaultMenuItemIndex := 1, _text := [],
     _menuItems := [⟨[67], MenuAction.leaveMenu⟩],
     _field2C18 := 0 }]

/-- An open menu system showing the root menu, with an empty menu stack. -/
def sampleMenuSystem : BaseMenuSystem where
  menus := sampleMenus
  _isActive := true
  _menuStack := []
  _activeMenu := some 0
  _menuLinesCount := 1
  _hoveredMenuItemIndex := 1
  _hoveredMenuItemIndex2 := 1
  _hoveredMenuItemIndex3 := 1
  _field54 := 2
  _menuItemCount := 2
  _isTimeOutEnabled := false
  _isTimeOutReached := false
  _timeOutDuration := 0
  _timeOutMenuChoiceIndex := 0
  _timeOutStartTime := 0
  _timeOutEndTime := 0
  _menuCallerThreadId := 0
  _menuChoiceOffsets := []
  _menuChoiceOffset := none
  _queryConfirmationChoiceIndex := 0

/-- The sample menu system after `activateMenu` of its root menu. -/
def sampleActivatedSystem : BaseMenuSystem :=
  match sampleMenuSystem.activateMenu sampleInsertText (some 0) with
  | .ok s => s
  | .error _ => sampleMenuSystem

/-- The sample menu system inside a submenu, with a timeout of 100 ticks running. -/
def sampleTimedSubMenuSystem : BaseMenuSystem :=
  { sampleMenuSystem with
    _menuStack := [some 0]
    _activeMenu := some 1
    _isTimeOutEnabled := true
    _timeOutDuration := 100
    _timeOutMenuChoiceIndex := 1
    _timeOutStartTime := 0
    _timeOutEndTime := 100 }

/-- A font 10 pixels high per row. -/
def sampleCharHeight : Nat → Int :=
  fun _ => 10

end Illusions

namespace LastExpress

/-! ## Sample inputs -/

/-- An archive holding "A" (stream 7) and "NISSND1" (stream 9) and nothing else. -/
def sampleArchive : List Nat → Option Nat :=
  fun name => if name = [65] then some 7
    else if name = [78, 73, 83, 83, 78, 68, 49] then some 9 else none

/-- A request for the walla sound "A" at full volume. -/
def sampleWallaRequest : OpenRequest where
  name := [65]
  flag := 0x2000010
  priority := 30

/-- A request for the ambient sound "A" at full volume. -/
def sampleAmbientRequest : OpenRequest where
  name := [65]
  flag := 0x1000010
  priority := 30

/-- An entry that is fading while its pending-volume field still holds 5. -/
def sampleFadingEntry : SoundEntry :=
  { SoundEntry.new sampleConstants with _status := 0x200000, _field_3C := 5 }

/-- An entry of the NIS category named "NISSND1" with primary name "A". -/
def sampleNisEntry : SoundEntry :=
  { SoundEntry.new sampleConstants with
    _status := 0x4000810
    _type := 9
    _time := 100
    _stream := some 9
    _entity := 3
    _field_48 := 50
    _priority := 30
    _name1 := [65]
    _name2 := [78, 73, 83, 83, 78, 68, 49] }

/-- Sixteen bytes 0xCC, standing for a stack region that was used before the call. -/
def sampleStack : List Nat := List.replicate 16 0xCC

/-- An entry holding stream 7 that has not been played. -/
def sampleLoadedEntry : SoundEntry :=
  { SoundEntry.new sampleConstants with
    _status := 0x810
    _stream := some 7
    _name2 := [65]
    _entity := 3 }

/-- A request for the ambient sound "B" at full volume. -/
def sampleAmbientRequestB : OpenRequest where
  name := [66]
  flag := 0x1000010
  priority := 30

/-- A pool of one entry that holds kSoundType7 (the link slot) and is not fading. -/
def sampleLinkQueue : SoundQueue :=
  { SoundQueue.empty 16 0 with
    _soundList := [{ SoundEntry.new sampleConstants with _type := 7, _status := 0x3000810 }] }

/-- A pool of one entry that holds kSoundType2, is not fading and has a pending volume. -/
def sampleDemotedAmbientQueue : SoundQueue :=
  { SoundQueue.empty 16 0 with
    _soundList := [{ SoundEntry.new sampleConstants with
      _type := 2
      _status := 0x1000810
      _field_3C := 5 }] }

/-- An entry named "AB" whose activation is delayed until clock value 0. -/
def sampleDelayedEntry : SoundEntry :=
  { SoundEntry.new sampleConstants with
    _status := 0x8010
    _stream := some 7
    _name2 := [65, 66] }

/-- An entry named "NISSND1.SND" whose activation is delayed until clock value 0. -/
def sampleDelayedNisEntry : SoundEntry :=
  { SoundEntry.new sampleConstants with
    _status := 0x8010
    _stream := some 9
    _name2 := [78, 73, 83, 83, 78, 68, 49, 46, 83, 78, 68] }

/-- An entry of the player category (entity 0) playing "A" at volume 0x10. -/
def samplePlayerEntry : SoundEntry :=
  { SoundEntry.new sampleConstants with
    _status := 0x810
    _stream := some 7
    _name2 := [65] }

/-- An entry of category 3 playing "A" at volume 0x10. -/
def sampleEntityEntry : SoundEntry :=
  { samplePlayerEntry with _entity := 3 }

/-- An entry of category 3 whose secondary name has 17 bytes. -/
def sampleOverlongEntry : SoundEntry :=
  { sampleEntityEntry with
    _name2 := [65, 66, 67, 68, 69, 70, 71, 72, 73, 74, 75, 76, 77, 78, 79, 80, 81] }

/-- A subtitle at address 100 with caption data loaded. -/
def sampleSubtitle : SubtitleEntry where
  addr := 100
  _status := 0
  _filename := [65, 46, 83, 66, 69]
  _sound := some 200
  _data := true

/-- A coordinator whose active list holds the subtitles 100 and 101, with 100 recorded as
the current subtitle and subtitle flag 3. -/
def sampleSubtitleQueue : SoundQueue :=
  { SoundQueue.empty 16 0 with
    _subtitlesFlag := 3
    _subtitles := [100, 101]
    _currentSubtitle := some 100 }

/-- An entry of the steam category (entity 38) playing "A". -/
def sampleSteamEntry : SoundEntry :=
  { samplePlayerEntry with _entity := 38 }

/-- A resource manager that has the file "A.SBE" and no other. -/
def sampleHasFile : List Nat → Bool :=
  fun name => name == [65, 46, 83, 66, 69]

/-! ## Lemmas on the pool -/

theorem firstIndex_spec {α : Type} (p : α → Bool) :
    ∀ (l : List α) (i : Nat), firstIndex p l = some i →
      ∃ x, l[i]? = some x ∧ p x = true ∧
        ∀ j, j < i → ∀ y, l[j]? = some y → p y = false := by
  intro l
  induction l with
  | nil => intro i h; simp [firstIndex] at h
  | cons a l ih =>
    intro i h
    by_cases hp : p a = true
    · simp [firstIndex, hp] at h
      subst h
      exact ⟨a, by simp, hp, by intro j hj; omega⟩
    · cases hk : firstIndex p l with
      | none => simp [firstIndex, hp, hk] at h
      | some k =>
      simp [firstIndex, hp, hk] at h
      subst h
      obtain ⟨x, hx, hpx, hlt⟩ := ih k hk
      refine ⟨x, by simpa using hx, hpx, ?_⟩
      intro j hj y hy
      cases j with
      | zero =>
        simp at hy
        subst hy
        simpa using hp
      | succ j =>
        simp at hy
        exact hlt j (by omega) y hy

theorem firstIndex_of_mem {α : Type} (p : α → Bool) :
    ∀ (l : List α), (∃ x, x ∈ l ∧ p x = true) → ∃ i, firstIndex p l = some i := by
  intro l
  induction l with
  | nil => rintro ⟨x, hx, _⟩; simp at hx
  | cons a l ih =>
    rintro ⟨x, hx, hpx⟩
    by_cases hp : p a = true
    · exact ⟨0, by simp [firstIndex, hp]⟩
    · have hx2 : x ∈ l := by
        rcases List.mem_cons.mp hx with h | h
        · subst h; exact absurd hpx hp
        · exact h
      obtain ⟨i, hi⟩ := ih ⟨x, hx2, hpx⟩
      exact ⟨i + 1, by simp [firstIndex, hp, hi]⟩

theorem firstIndex_none {α : Type} (p : α → Bool) :
    ∀ (l : List α), (∀ x, x ∈ l → p x = false) → firstIndex p l = none := by
  intro l
  induction l with
  | nil => intro _; rfl
  | cons a l ih =>
    intro h
    have ha : p a = false := h a (by simp)
    have hl : firstIndex p l = none := ih (fun x hx => h x (by simp [hx]))
    simp [firstIndex, ha, hl]

theorem modifyAt_length {α : Type} (f : α → α) :
    ∀ (i : Nat) (l : List α), (modifyAt f i l).length = l.length := by
  intro i l
  induction l generalizing i with
  | nil => cases i <;> rfl
  | cons a l ih =>
    cases i with
    | zero => rfl
    | succ i => simp [modifyAt, ih]

theorem modifyAt_getElem? {α : Type} (f : α → α) :
    ∀ (i : Nat) (l : List α) (j : Nat),
      (modifyAt f i l)[j]? = if j = i then (l[j]?).map f else l[j]? := by
  intro i l
  induction l generalizing i with
  | nil => intro j; cases i <;> simp [modifyAt]
  | cons a l ih =>
    intro j
    cases i with
    | zero =>
      cases j with
      | zero => simp [modifyAt]
      | succ j => simp [modifyAt]
    | succ i =>
      cases j with
      | zero => simp [modifyAt]
      | succ j => simp [modifyAt, ih]

theorem modifyAt_map_of_preserved {α β : Type} (f : α → α) (g : α → β)
    (h : ∀ x, g (f x) = g x) :
    ∀ (i : Nat) (l : List α), (modifyAt f i l).map g = l.map g := by
  intro i l
  induction l generalizing i with
  | nil => cases i <;> rfl
  | cons a l ih =>
    cases i with
    | zero => simp [modifyAt, h]
    | succ i => simp [modifyAt, ih]

theorem firstIndex_map {α β : Type} (g : α → β) (p : β → Bool) :
    ∀ (l : List α), firstIndex (fun x => p (g x)) l = firstIndex p (l.map g) := by
  intro l
  induction l with
  | nil => rfl
  | cons a l ih => simp [firstIndex, ih]

theorem SoundEntry.update_type (K : SoundConstants) (fl : Nat) (e : SoundEntry) (v : Nat) :
    (e.update K fl v)._type = e._type := by
  unfold SoundEntry.update
  split_ifs <;> rfl

theorem SoundQueue.getEntry_congr (q1 q2 : SoundQueue)
    (h : q1._soundList.map (·._type) = q2._soundList.map (·._type)) (t : Nat) :
    q1.getEntry t = q2.getEntry t := by
  unfold SoundQueue.getEntry
  rw [firstIndex_map (fun e : SoundEntry => e._type) (fun x => x == t),
      firstIndex_map (fun e : SoundEntry => e._type) (fun x => x == t), h]

/-- What `demote` does to the types in the pool when a holder of `active` exists. -/
theorem SoundQueue.demote_types_of_some (K : SoundConstants) (q : SoundQueue)
    (active inactive : Nat) (upd : Bool) (i : Nat) (hi : q.getEntry active = some i)
    (j : Nat) :
    (((q.demote K active inactive upd)._soundList)[j]?).map (·._type)
      = if j = i then ((q._soundList)[j]?).map (fun _ => inactive)
        else ((q._soundList)[j]?).map (·._type) := by
  unfold SoundQueue.demote
  rw [hi]
  simp only [SoundQueue.modifyEntry, modifyAt_getElem?]
  by_cases hj : j = i
  · simp only [hj, if_true, Option.map_map]
    congr 1
    funext p
    cases upd <;> simp [SoundEntry.setTypeTo, SoundEntry.update_type]
  · simp [hj]

theorem SoundQueue.demote_of_none (K : SoundConstants) (q : SoundQueue)
    (active inactive : Nat) (upd : Bool) (hi : q.getEntry active = none) :
    q.demote K active inactive upd = q := by
  unfold SoundQueue.demote
  rw [hi]

theorem SoundQueue.demote_length (K : SoundConstants) (q : SoundQueue)
    (active inactive : Nat) (upd : Bool) :
    (q.demote K active inactive upd)._soundList.length = q._soundList.length := by
  unfold SoundQueue.demote
  cases q.getEntry active <;> simp [SoundQueue.modifyEntry, modifyAt_length]

theorem SoundQueue.ambientFirst_types (K : SoundConstants) (q : SoundQueue) :
    (q.ambientFirst K)._soundList.map (·._type) = q._soundList.map (·._type) := by
  unfold SoundQueue.ambientFirst
  cases q.getEntry K.kSoundType2 with
  | none => rfl
  | some i =>
    exact modifyAt_map_of_preserved _ _ (fun x => SoundEntry.update_type K _ x 0) i _

theorem SoundQueue.ambientFirst_getElem?_type (K : SoundConstants) (q : SoundQueue) (j : Nat) :
    (((q.ambientFirst K)._soundList)[j]?).map (·._type)
      = ((q._soundList)[j]?).map (·._type) := by
  have h := congrArg (fun l => l[j]?) (SoundQueue.ambientFirst_types K q)
  simpa [List.getElem?_map] using h

theorem SoundEntry.open_queue (K : SoundConstants) (getArchive : List Nat → Option Nat)
    (q : SoundQueue) (self : SoundEntry) (name : List Nat) (flag priority : Nat) :
    (self.open K getArchive q name flag priority).1
      = ({ self with _priority := priority }.setType K q flag).1 := by
  rfl

/-! ## The cases of `setType` -/

theorem SoundConstants.labels_ne (K : SoundConstants) (hK : K.LabelsDistinct) :
    (K.kSoundTypeAmbient ≠ K.kSoundTypeWalla ∧ K.kSoundTypeAmbient ≠ K.kSoundTypeLink ∧
      K.kSoundTypeAmbient ≠ K.kSoundTypeNIS ∧ K.kSoundTypeAmbient ≠ K.kSoundTypeIntro ∧
      K.kSoundTypeAmbient ≠ K.kSoundTypeMenu) ∧
    (K.kSoundTypeWalla ≠ K.kSoundTypeLink ∧ K.kSoundTypeWalla ≠ K.kSoundTypeNIS ∧
      K.kSoundTypeWalla ≠ K.kSoundTypeIntro ∧ K.kSoundTypeWalla ≠ K.kSoundTypeMenu) ∧
    (K.kSoundTypeLink ≠ K.kSoundTypeNIS ∧ K.kSoundTypeLink ≠ K.kSoundTypeIntro ∧
      K.kSoundTypeLink ≠ K.kSoundTypeMenu) ∧
    (K.kSoundTypeNIS ≠ K.kSoundTypeIntro ∧ K.kSoundTypeNIS ≠ K.kSoundTypeMenu) ∧
    K.kSoundTypeIntro ≠ K.kSoundTypeMenu := by
  simp only [SoundConstants.LabelsDistinct, SoundConstants.caseLabels, List.nodup_cons,
    List.mem_cons, List.mem_singleton, not_or, List.not_mem_nil, not_false_eq_true,
    List.nodup_nil, and_true] at hK
  tauto

theorem SoundEntry.setType_ambient (K : SoundConstants) (q : SoundQueue) (self : SoundEntry)
    (flag : Nat) (h : flag &&& K.kSoundTypeMask = K.kSoundTypeAmbient) :
    self.setType K q flag
      = ((q.ambientFirst K).demote K K.kSoundType1 K.kSoundType2 true,
          { self with _type := K.kSoundType1 }) := by
  simp [SoundEntry.setType, h]

theorem SoundEntry.setType_walla (K : SoundConstants) (hK : K.LabelsDistinct)
    (q : SoundQueue) (self : SoundEntry)
    (flag : Nat) (h : flag &&& K.kSoundTypeMask = K.kSoundTypeWalla) :
    self.setType K q flag
      = (q.demote K K.kSoundType3 K.kSoundType4 true,
          { self with _type := K.kSoundType11 }) := by
  obtain ⟨⟨a1, _, _, _, _⟩, _⟩ := K.labels_ne hK
  simp [SoundEntry.setType, h, Ne.symm a1]

theorem SoundEntry.setType_link (K : SoundConstants) (hK : K.LabelsDistinct)
    (q : SoundQueue) (self : SoundEntry)
    (flag : Nat) (h : flag &&& K.kSoundTypeMask = K.kSoundTypeLink) :
    self.setType K q flag
      = (q.demote K K.kSoundType7 K.kSoundType8 false,
          { self with _type := K.kSoundType7 }) := by
  obtain ⟨⟨_, a2, _, _, _⟩, ⟨b1, _, _, _⟩, _⟩ := K.labels_ne hK
  simp [SoundEntry.setType, h, Ne.symm a2, Ne.symm b1]

theorem SoundEntry.setType_nis (K : SoundConstants) (hK : K.LabelsDistinct)
    (q : SoundQueue) (self : SoundEntry)
    (flag : Nat) (h : flag &&& K.kSoundTypeMask = K.kSoundTypeNIS) :
    self.setType K q flag
      = (q.demote K K.kSoundType9 K.kSoundType10 false,
          { self with _type := K.kSoundType9 }) := by
  obtain ⟨⟨_, _, a3, _, _⟩, ⟨_, b2, _, _⟩, ⟨c1, _, _⟩, _⟩ := K.labels_ne hK
  simp [SoundEntry.setType, h, Ne.symm a3, Ne.symm b2, Ne.symm c1]

theorem SoundEntry.setType_intro (K : SoundConstants) (hK : K.LabelsDistinct)
    (q : SoundQueue) (self : SoundEntry)
    (flag : Nat) (h : flag &&& K.kSoundTypeMask = K.kSoundTypeIntro) :
    self.setType K q flag
      = (q.demote K K.kSoundType11 K.kSoundType14 false,
          { self with _type := K.kSoundType11 }) := by
  obtain ⟨⟨_, _, _, a4, _⟩, ⟨_, _, b3, _⟩, ⟨_, c2, _⟩, ⟨d1, _⟩, _⟩ := K.labels_ne hK
  simp [SoundEntry.setType, h, Ne.symm a4, Ne.symm b3, Ne.symm c2, Ne.symm d1]

theorem SoundEntry.setType_menu (K : SoundConstants) (hK : K.LabelsDistinct)
    (q : SoundQueue) (self : SoundEntry)
    (flag : Nat) (h : flag &&& K.kSoundTypeMask = K.kSoundTypeMenu) :
    self.setType K q flag
      = (q.demote K K.kSoundType13 K.kSoundType14 false,
          { self with _type := K.kSoundType13 }) := by
  obtain ⟨⟨_, _, _, _, a5⟩, ⟨_, _, _, b4⟩, ⟨_, _, c3⟩, ⟨_, d2⟩, e1⟩ := K.labels_ne hK
  simp [SoundEntry.setType, h, Ne.symm a5, Ne.symm b4, Ne.symm c3, Ne.symm d2, Ne.symm e1]

/-- The effect of a demotion on the pool, stated entry by entry. -/
theorem SoundQueue.demote_first_holder (K : SoundConstants) (q : SoundQueue)
    (active inactive : Nat) (upd : Bool)
    (hold : ∃ p, p ∈ q._soundList ∧ p._type = active) :
    ∃ i : Nat,
      ((q._soundList)[i]?).map (·._type) = some active ∧
      (∀ j : Nat, j < i → ((q._soundList)[j]?).map (·._type) ≠ some active) ∧
      (((q.demote K active inactive upd)._soundList)[i]?).map (·._type) = some inactive ∧
      (∀ j : Nat, j ≠ i → (((q.demote K active inactive upd)._soundList)[j]?).map (·._type)
          = ((q._soundList)[j]?).map (·._type)) ∧
      (q.demote K active inactive upd)._soundList.length = q._soundList.length := by
  obtain ⟨p0, hp0, ht0⟩ := hold
  obtain ⟨i, hi⟩ := firstIndex_of_mem (fun e : SoundEntry => e._type == active)
    q._soundList ⟨p0, hp0, by simp [ht0]⟩
  obtain ⟨x, hx, hpx, hlt⟩ := firstIndex_spec _ _ _ hi
  have hxt : x._type = active := by simpa using hpx
  refine ⟨i, by simp [hx, hxt], ?_, ?_, ?_, SoundQueue.demote_length K q _ _ _⟩
  · intro j hj
    cases hy : (q._soundList)[j]? with
    | none => simp
    | some y =>
      have := hlt j hj y hy
      simpa using this
  · rw [SoundQueue.demote_types_of_some K q active inactive upd i hi i]
    simp [hx]
  · intro j hj
    rw [SoundQueue.demote_types_of_some K q active inactive upd i hi j]
    simp [hj]

theorem SoundQueue.ambientFirst_length (K : SoundConstants) (q : SoundQueue) :
    (q.ambientFirst K)._soundList.length = q._soundList.length := by
  have h := congrArg List.length (SoundQueue.ambientFirst_types K q)
  simpa using h

theorem SoundQueue.ambientFirst_holder (K : SoundConstants) (q : SoundQueue) (t : Nat)
    (hold : ∃ p, p ∈ q._soundList ∧ p._type = t) :
    ∃ p, p ∈ (q.ambientFirst K)._soundList ∧ p._type = t := by
  obtain ⟨p, hp, ht⟩ := hold
  have h1 : t ∈ q._soundList.map (·._type) := List.mem_map.mpr ⟨p, hp, ht⟩
  rw [← SoundQueue.ambientFirst_types K q] at h1
  obtain ⟨p2, hp2, ht2⟩ := List.mem_map.mp h1
  exact ⟨p2, hp2, ht2⟩

/-! ## Lemmas on `open`, `play`, `reset` and `close` -/

theorem SoundEntry.open_entry_type (K : SoundConstants) (getArchive : List Nat → Option Nat)
    (q : SoundQueue) (self : SoundEntry) (name : List Nat) (flag priority : Nat) :
    (self.open K getArchive q name flag priority).2._type
      = ({ self with _priority := priority }.setType K q flag).2._type := by
  simp only [SoundEntry.open, SoundEntry.loadStream, SoundEntry.setupStatus]
  split_ifs <;> rfl

theorem SoundEntry.play_queued_stays (K : SoundConstants) (e e1 : SoundEntry)
    (fx : List Effect) (h : e.play K = .ok (e1, fx)) :
    e1._queued = true ∧ (e._queued = true → fx.countP Effect.isLoad = 0
      ∧ fx.countP Effect.isSeek = 0) ∧
    fx.countP Effect.isLoad ≤ 1 ∧ fx.countP Effect.isSeek ≤ 1 := by
  unfold SoundEntry.play at h
  cases hs : e._stream with
  | none => simp [hs] at h
  | some st =>
    simp only [hs] at h
    by_cases hq : e._queued = true
    · simp only [hq, if_true, Except.ok.injEq, Prod.mk.injEq] at h
      obtain ⟨rfl, rfl⟩ := h
      simp [hq, Effect.isLoad, Effect.isSeek]
    · simp only [hq, Bool.false_eq_true, if_false, Except.ok.injEq, Prod.mk.injEq] at h
      obtain ⟨rfl, rfl⟩ := h
      simp [hq, Effect.isLoad, Effect.isSeek, List.countP_cons]

theorem SoundEntry.playTimes_queued (K : SoundConstants) :
    ∀ (n : Nat) (e : SoundEntry), e._queued = true →
      (e.playTimes K n).2.countP Effect.isLoad = 0
        ∧ (e.playTimes K n).2.countP Effect.isSeek = 0 := by
  intro n
  induction n with
  | zero => intro e _; simp [SoundEntry.playTimes]
  | succ n ih =>
    intro e hq
    unfold SoundEntry.playTimes
    cases hp : e.play K with
    | error msg => simp
    | ok r =>
      obtain ⟨e1, fx⟩ := r
      obtain ⟨h1, h2, _, _⟩ := SoundEntry.play_queued_stays K e e1 fx hp
      obtain ⟨i1, i2⟩ := ih e1 h1
      obtain ⟨j1, j2⟩ := h2 hq
      simp [List.countP_append, i1, i2, j1, j2]

theorem SoundEntry.playTimes_loads (K : SoundConstants) (n : Nat) (e : SoundEntry) :
    (e.playTimes K n).2.countP Effect.isLoad ≤ 1
      ∧ (e.playTimes K n).2.countP Effect.isSeek ≤ 1 := by
  cases n with
  | zero => simp [SoundEntry.playTimes]
  | succ n =>
    unfold SoundEntry.playTimes
    cases hp : e.play K with
    | error msg => simp
    | ok r =>
      obtain ⟨e1, fx⟩ := r
      obtain ⟨h1, _, h3, h4⟩ := SoundEntry.play_queued_stays K e e1 fx hp
      obtain ⟨i1, i2⟩ := SoundEntry.playTimes_queued K n e1 h1
      simp only [List.countP_append, i1, i2, Nat.add_zero]
      exact ⟨h3, h4⟩

theorem SoundEntry.reset_stream (K : SoundConstants) (e : SoundEntry) :
    (e.reset K).1._stream = none := by
  unfold SoundEntry.reset
  cases hs : e._stream with
  | none => simp [hs]
  | some st =>
    by_cases hq : e._soundStream = true <;> simp [hs, hq]

theorem SoundEntry.reset_of_no_stream (K : SoundConstants) (e : SoundEntry)
    (h : e._stream = none) : (e.reset K).2 = [] := by
  unfold SoundEntry.reset
  simp [h]

theorem SoundEntry.reset_reset (K : SoundConstants) (e : SoundEntry) :
    (e.reset K).1.reset K = ((e.reset K).1, []) := by
  unfold SoundEntry.reset
  cases hs : e._stream with
  | none => simp [hs, Nat.or_assoc]
  | some st =>
    by_cases hq : e._soundStream = true <;> simp [hs, hq, Nat.or_assoc]

theorem SoundEntry.reset_counts (K : SoundConstants) (e : SoundEntry) :
    (e.reset K).2.countP Effect.releasesStream ≤ 1
      ∧ (e.reset K).2.count Effect.soundStreamStop ≤ 1
      ∧ (e.reset K).2.count Effect.deleteSoundStream ≤ 1 := by
  unfold SoundEntry.reset
  cases hs : e._stream with
  | none => simp [hs]
  | some st =>
    by_cases hq : e._soundStream = true <;>
      simp [hs, hq, List.countP_cons, List.count_cons, Effect.releasesStream]

theorem SubtitleEntry.draw_effects (sub : SubtitleEntry) (q : SoundQueue) :
    ∀ x, x ∈ (sub.draw q).2 → x = Effect.graphicsDraw sub.addr := by
  intro x hx
  unfold SubtitleEntry.draw SubtitleEntry.drawOnScreen at hx
  by_cases hc : (q.removeSubtitle sub.addr)._currentSubtitle = some sub.addr
  · by_cases hd : sub._data = true
    · simpa [hc, hd] using hx
    · simp [hc, hd] at hx
  · simp [hc] at hx

/-- The collaborator calls `close()` can make. -/
theorem SoundEntry.close_effects (K : SoundConstants) (q : SoundQueue) (e : SoundEntry) :
    ∀ x, x ∈ (e.close K q).2.2 →
      (∃ a, x = Effect.graphicsDraw a) ∨ x = Effect.playLoopingSound 2
        ∨ ∃ a b c, x = Effect.savePointsPush a b c := by
  intro x hx
  unfold SoundEntry.close at hx
  simp only [List.mem_append] at hx
  rcases hx with hx | hx
  · left
    cases hsub : e._subtitle with
    | none => simp [hsub] at hx
    | some sub =>
      simp only [hsub] at hx
      exact ⟨sub.addr, SubtitleEntry.draw_effects sub q x hx⟩
  · right
    split_ifs at hx
    · left; simpa using hx
    · right; exact ⟨_, _, _, by simpa using hx⟩
    · simp at hx
    · simp at hx

theorem SoundEntry.close_counts (K : SoundConstants) (q : SoundQueue) (e : SoundEntry) :
    (e.close K q).2.2.countP Effect.releasesStream = 0
      ∧ (e.close K q).2.2.count Effect.soundStreamStop = 0
      ∧ (e.close K q).2.2.count Effect.deleteSoundStream = 0 := by
  have h := SoundEntry.close_effects K q e
  refine ⟨?_, ?_, ?_⟩
  · rw [List.countP_eq_zero]
    intro x hx
    rcases h x hx with ⟨a, rfl⟩ | rfl | ⟨a, b, c, rfl⟩ <;> simp [Effect.releasesStream]
  · rw [List.count_eq_zero]
    intro hx
    rcases h _ hx with ⟨a, ha⟩ | ha | ⟨a, b, c, ha⟩ <;> cases ha
  · rw [List.count_eq_zero]
    intro hx
    rcases h _ hx with ⟨a, ha⟩ | ha | ⟨a, b, c, ha⟩ <;> cases ha

theorem SoundEntry.close_stream (K : SoundConstants) (q : SoundQueue) (e : SoundEntry) :
    (e.close K q).2.1._stream = e._stream := by
  unfold SoundEntry.close
  cases hsub : e._subtitle <;> simp [hsub]

theorem SoundEntry.runOps_no_stream (K : SoundConstants) :
    ∀ (ops : List EntryOp) (q : SoundQueue) (e : SoundEntry), e._stream = none →
      (SoundEntry.runOps K ops q e).2.2.countP Effect.releasesStream = 0
      ∧ (SoundEntry.runOps K ops q e).2.2.count Effect.soundStreamStop = 0
      ∧ (SoundEntry.runOps K ops q e).2.2.count Effect.deleteSoundStream = 0 := by
  intro ops
  induction ops with
  | nil => intro q e _; simp [SoundEntry.runOps]
  | cons op ops ih =>
    intro q e hs
    cases op with
    | close =>
      obtain ⟨c1, c2, c3⟩ := SoundEntry.close_counts K q e
      obtain ⟨i1, i2, i3⟩ := ih (e.close K q).1 (e.close K q).2.1
        (by rw [SoundEntry.close_stream]; exact hs)
      simp only [SoundEntry.runOps, List.countP_append, List.count_append]
      omega
    | reset =>
      obtain ⟨i1, i2, i3⟩ := ih q (e.reset K).1 (SoundEntry.reset_stream K e)
      simp only [SoundEntry.runOps, List.countP_append, List.count_append,
        SoundEntry.reset_of_no_stream K e hs]
      simp [i1, i2, i3]

theorem SoundEntry.runOps_counts (K : SoundConstants) :
    ∀ (ops : List EntryOp) (q : SoundQueue) (e : SoundEntry),
      (SoundEntry.runOps K ops q e).2.2.countP Effect.releasesStream ≤ 1
      ∧ (SoundEntry.runOps K ops q e).2.2.count Effect.soundStreamStop ≤ 1
      ∧ (SoundEntry.runOps K ops q e).2.2.count Effect.deleteSoundStream ≤ 1 := by
  intro ops
  induction ops with
  | nil => intro q e; simp [SoundEntry.runOps]
  | cons op ops ih =>
    intro q e
    cases op with
    | close =>
      obtain ⟨c1, c2, c3⟩ := SoundEntry.close_counts K q e
      obtain ⟨i1, i2, i3⟩ := ih (e.close K q).1 (e.close K q).2.1
      simp only [SoundEntry.runOps, List.countP_append, List.count_append]
      omega
    | reset =>
      obtain ⟨r1, r2, r3⟩ := SoundEntry.reset_counts K e
      obtain ⟨i1, i2, i3⟩ := SoundEntry.runOps_no_stream K ops q (e.reset K).1
        (SoundEntry.reset_stream K e)
      simp only [SoundEntry.runOps, List.countP_append, List.count_append]
      omega

theorem or_and_right_self (a f : Nat) : (a ||| f) &&& f = f := by
  apply Nat.eq_of_testBit_eq
  intro i
  simp only [Nat.testBit_and, Nat.testBit_or]
  cases a.testBit i <;> cases f.testBit i <;> rfl

theorem SoundEntry.update_of_fading (K : SoundConstants) (fl : Nat) (e : SoundEntry) (v : Nat)
    (h : e._status &&& K.kSoundFlagFading ≠ 0) : e.update K fl v = e := by
  unfold SoundEntry.update
  simp [h]

theorem SoundEntry.update_zero_of_clear (K : SoundConstants) (fl : Nat) (e : SoundEntry)
    (h : e._status &&& K.kSoundFlagFading = 0) :
    e.update K fl 0
      = { e with _field_3C := 0,
                 _status := e._status ||| K.kSoundFlagVolumeChanging ||| K.kSoundFlagFading } := by
  unfold SoundEntry.update
  simp [h]

/-- A walla open in a pool without a holder of `kSoundType3` appends an entry of type
`kSoundType11` and leaves the types of the pool as they are. -/
theorem SoundQueue.openEntry_walla_types (K : SoundConstants) (hK : K.LabelsDistinct)
    (getArchive : List Nat → Option Nat) (q : SoundQueue) (name : List Nat)
    (flag priority : Nat) (hflag : flag &&& K.kSoundTypeMask = K.kSoundTypeWalla)
    (hnone : q.getEntry K.kSoundType3 = none) :
    (q.openEntry K getArchive name flag priority)._soundList.map (·._type)
      = q._soundList.map (·._type) ++ [K.kSoundType11] := by
  unfold SoundQueue.openEntry
  simp only [List.map_append, List.map_cons, List.map_nil]
  rw [SoundEntry.open_entry_type, SoundEntry.open_queue,
    SoundEntry.setType_walla K hK q _ flag hflag, SoundQueue.demote_of_none K q _ _ _ hnone]

/-! ## Lemmas on persistence -/

theorem uint32LE_length (v : Nat) : (uint32LE v).length = 4 := rfl

theorem charArray16_length (stack : List Nat) : (charArray16 stack).length = 16 := by
  simp [charArray16]

theorem cstr_length_le (s : List Nat) : (cstr s).length ≤ s.length := by
  unfold cstr
  exact (List.takeWhile_sublist _).length_le

/-- The 16 bytes a name leaves in its local array: name, terminator, old contents. -/
theorem strcpy_take_length (stack name : List Nat) (h : name.length ≤ 16) :
    ((strcpy (charArray16 stack) name).take 16).length = 16 := by
  have hc := cstr_length_le name
  simp only [strcpy, List.length_take, List.length_append, List.length_cons, List.length_nil,
    List.length_drop, charArray16_length]
  omega

/-- The template "NISSND?" matches exactly the seven-byte strings starting "NISSND". -/
theorem matchString_nisSnd (n : List Nat) :
    matchString n nisSndTemplate = true
      ↔ n.length = 7 ∧ n.take 6 = [78, 73, 83, 83, 78, 68] := by
  rcases n with _ | ⟨a, _ | ⟨b, _ | ⟨c, _ | ⟨d, _ | ⟨e, _ | ⟨f, _ | ⟨g, _ | ⟨h, t⟩⟩⟩⟩⟩⟩⟩⟩ <;>
    first
      | (simp [matchString, nisSndTemplate]; done)
      | (simp [matchString, nisSndTemplate]; omega)

/-- Save mode on an entry that passes both asserts and the filter and whose primary
name fits its array. -/
theorem SoundEntry.save_matching (K : SoundConstants) (data2 : Nat) (stack1 stack2 : List Nat)
    (e : SoundEntry) (out : List Nat)
    (h1 : e._name1.length ≤ 16) (h2 : e._name2.length ≤ 16)
    (h1c : (cstr e._name1).length < 16)
    (hm : matchString (cstr e._name2) nisSndTemplate = true)
    (hs : e._status &&& K.kSoundTypeMask ≠ K.kSoundTypeMenu) :
    e.saveLoadWithSerializer K data2 stack1 stack2 ⟨false, out⟩
      = .ok (e, ⟨false, out ++ (uint32LE e._status ++ uint32LE e._type
          ++ uint32LE e._blockCount ++ uint32LE e._time ++ uint32LE e._field_34
          ++ uint32LE e._field_38 ++ uint32LE e._entity
          ++ uint32LE (persistedDelta e._field_48 data2) ++ uint32LE e._priority
          ++ (strcpy (charArray16 stack1) e._name1).take 16
          ++ (strcpy (charArray16 stack2) e._name2).take 16)⟩) := by
  have h2c : (cstr e._name2).length < 16 := by
    have := ((matchString_nisSnd _).mp hm).1
    omega
  simp [SoundEntry.saveLoadWithSerializer, h1, h2, h1c, h2c, hm, hs,
    Serializer.syncAsUint32LE, Serializer.syncBytes, List.append_assoc]

/-- An entry that passes the asserts and not the filter is passed over, in both modes. -/
theorem SoundEntry.saveLoad_not_matching (K : SoundConstants) (data2 : Nat)
    (stack1 stack2 : List Nat) (e : SoundEntry) (s : Serializer)
    (h1 : e._name1.length ≤ 16) (h2 : e._name2.length ≤ 16)
    (hm : ¬ (matchString (cstr e._name2) nisSndTemplate = true
      ∧ e._status &&& K.kSoundTypeMask ≠ K.kSoundTypeMenu)) :
    e.saveLoadWithSerializer K data2 stack1 stack2 s = .ok (e, s) := by
  unfold SoundEntry.saveLoadWithSerializer
  have hc : (matchString (cstr e._name2) nisSndTemplate
      && (e._status &&& K.kSoundTypeMask != K.kSoundTypeMenu)) = false := by
    by_cases hm1 : matchString (cstr e._name2) nisSndTemplate = true
    · have : e._status &&& K.kSoundTypeMask = K.kSoundTypeMenu := by
        by_contra hne
        exact hm ⟨hm1, hne⟩
      simp [this]
    · simp [hm1]
  simp [h1, h2, hc]

/-- A newly constructed entry has an empty secondary name, so the filter turns it away:
load mode reads nothing into it. -/
theorem SoundEntry.saveLoad_new (K : SoundConstants) (data2 : Nat) (stack1 stack2 : List Nat)
    (s : Serializer) :
    (SoundEntry.new K).saveLoadWithSerializer K data2 stack1 stack2 s
      = .ok (SoundEntry.new K, s) := by
  apply SoundEntry.saveLoad_not_matching <;> simp [SoundEntry.new, cstr, matchString]

/-! ## Lemmas for the second group of claims -/

theorem firstIndex_append_of_none {α : Type} (p : α → Bool) :
    ∀ (l r : List α), (∀ x, x ∈ l → p x = false) →
      firstIndex p (l ++ r) = (firstIndex p r).map (· + l.length) := by
  intro l
  induction l with
  | nil =>
    intro r _
    rw [List.nil_append]
    cases firstIndex p r <;> simp
  | cons a l ih =>
    intro r h
    have ha : p a = false := h a (by simp)
    have hl := ih r (fun x hx => h x (by simp [hx]))
    rw [List.cons_append,
      show firstIndex p (a :: (l ++ r))
        = (if p a then some 0 else (firstIndex p (l ++ r)).map (· + 1)) from rfl, hl]
    cases firstIndex p r <;> simp [ha, Nat.add_assoc]

theorem firstIndex_eq_none_iff {α : Type} (p : α → Bool) :
    ∀ (l : List α), firstIndex p l = none ↔ ∀ x, x ∈ l → p x = false := by
  intro l
  constructor
  · intro h x hx
    by_contra hp
    obtain ⟨i, hi⟩ := firstIndex_of_mem p l ⟨x, hx, by simpa using hp⟩
    rw [h] at hi
    cases hi
  · exact firstIndex_none p l

theorem SoundEntry.setupStatus_fields (K : SoundConstants) (e : SoundEntry) (flag : Nat) :
    (e.setupStatus K flag)._type = e._type ∧ (e.setupStatus K flag)._name2 = e._name2
      ∧ (e.setupStatus K flag)._stream = e._stream := by
  simp [SoundEntry.setupStatus]

/-- What `loadStream` leaves in the entry, by what the archive holds. -/
theorem SoundEntry.loadStream_spec (K : SoundConstants) (getArchive : List Nat → Option Nat)
    (e : SoundEntry) (name : List Nat) :
    (e.loadStream K getArchive defaultSndName name)._name2 = name ∧
    (∀ st, getArchive name = some st →
      (e.loadStream K getArchive defaultSndName name)._stream = some st
        ∧ (e.loadStream K getArchive defaultSndName name)._status = e._status) ∧
    (∀ st, getArchive name = none → getArchive defaultSndName = some st →
      (e.loadStream K getArchive defaultSndName name)._stream = some st
        ∧ (e.loadStream K getArchive defaultSndName name)._status = e._status) ∧
    (getArchive name = none → getArchive defaultSndName = none →
      (e.loadStream K getArchive defaultSndName name)._stream = none
        ∧ (e.loadStream K getArchive defaultSndName name)._status
            = K.kSoundFlagCloseRequested) := by
  unfold SoundEntry.loadStream
  refine ⟨?_, ?_, ?_, ?_⟩
  · cases h1 : getArchive name <;> cases h2 : getArchive defaultSndName <;> simp [h1, h2]
  · intro st h1
    simp [h1]
  · intro st h1 h2
    simp [h1, h2]
  · intro h1 h2
    simp [h1, h2]

theorem SoundEntry.open_entry (K : SoundConstants) (getArchive : List Nat → Option Nat)
    (q : SoundQueue) (self : SoundEntry) (name : List Nat) (flag priority : Nat) :
    (self.open K getArchive q name flag priority).2
      = ((({ self with _priority := priority }.setType K q flag).2.setupStatus K flag).loadStream
          K getArchive defaultSndName name) := by
  rfl

/-- The types in the pool after a demotion that finds a holder. -/
theorem SoundQueue.demote_types_list (K : SoundConstants) (q : SoundQueue)
    (active inactive : Nat) (upd : Bool) (i : Nat) (hi : q.getEntry active = some i) :
    (q.demote K active inactive upd)._soundList.map (·._type)
      = (q._soundList.map (·._type)).set i inactive := by
  apply List.ext_getElem?
  intro j
  have h := SoundQueue.demote_types_of_some K q active inactive upd i hi j
  rw [List.getElem?_map, h, List.getElem?_set]
  by_cases hj : j = i
  · subst hj
    by_cases hlt : j < q._soundList.length
    · simp [hlt, List.getElem?_eq_getElem hlt]
    · have : (q._soundList)[j]? = none := List.getElem?_eq_none (by omega)
      simp [hlt, this]
  · have hne : ¬ i = j := fun h => hj h.symm
    simp [hj, hne, List.getElem?_map]

/-- The types in the pool after an ambient open. -/
theorem SoundQueue.openEntry_ambient_types (K : SoundConstants)
    (getArchive : List Nat → Option Nat) (q : SoundQueue) (name : List Nat)
    (flag priority : Nat) (hflag : flag &&& K.kSoundTypeMask = K.kSoundTypeAmbient) :
    (q.openEntry K getArchive name flag priority)._soundList.map (·._type)
      = (match q.getEntry K.kSoundType1 with
          | some i => (q._soundList.map (·._type)).set i K.kSoundType2
          | none => q._soundList.map (·._type)) ++ [K.kSoundType1] := by
  unfold SoundQueue.openEntry
  simp only [List.map_append, List.map_cons, List.map_nil]
  rw [SoundEntry.open_entry_type, SoundEntry.open_queue,
    SoundEntry.setType_ambient K q _ flag hflag]
  have hg : (q.ambientFirst K).getEntry K.kSoundType1 = q.getEntry K.kSoundType1 :=
    SoundQueue.getEntry_congr _ _ (SoundQueue.ambientFirst_types K q) _
  cases hq : q.getEntry K.kSoundType1 with
  | none =>
    rw [SoundQueue.demote_of_none K _ _ _ _ (hg.trans hq), SoundQueue.ambientFirst_types]
  | some i =>
    rw [SoundQueue.demote_types_list K _ _ _ _ i (hg.trans hq),
      SoundQueue.ambientFirst_types]

theorem SubtitleEntry.draw_soundList (sub : SubtitleEntry) (q : SoundQueue) :
    (sub.draw q).1._soundList = q._soundList := by
  unfold SubtitleEntry.draw SubtitleEntry.drawOnScreen SoundQueue.removeSubtitle
  by_cases hc : q._currentSubtitle = some sub.addr <;> by_cases hd : sub._data = true <;>
    simp [hc, hd]

theorem SoundEntry.close_fields (K : SoundConstants) (q : SoundQueue) (e : SoundEntry) :
    (e.close K q).2.1._type = e._type
      ∧ (e.close K q).2.1._status = e._status ||| K.kSoundFlagCloseRequested
      ∧ (e.close K q).1._soundList = q._soundList := by
  unfold SoundEntry.close
  cases hsub : e._subtitle with
  | none => simp
  | some sub => simp [SubtitleEntry.draw_soundList]

/-- A `close()` on a pool entry keeps every entry in the pool, with its type. -/
theorem SoundQueue.closeEntry_spec (K : SoundConstants) (q : SoundQueue) (i : Nat) :
    (q.closeEntry K i).1._soundList.map (·._type) = q._soundList.map (·._type) ∧
    ∀ e, (q._soundList)[i]? = some e →
      ((q.closeEntry K i).1._soundList)[i]?
        = some { (e.close K q).2.1 with
            _status := e._status ||| K.kSoundFlagCloseRequested, _type := e._type } := by
  unfold SoundQueue.closeEntry
  cases he : (q._soundList)[i]? with
  | none => simp
  | some e =>
    obtain ⟨h1, h2, h3⟩ := SoundEntry.close_fields K q e
    constructor
    · simp only [SoundQueue.modifyEntry, h3]
      apply List.ext_getElem?
      intro j
      rw [List.getElem?_map, modifyAt_getElem?, List.getElem?_map]
      by_cases hj : j = i
      · subst hj
        simp [he, h1]
      · simp [hj]
    · intro e2 he2
      cases he2
      simp only [SoundQueue.modifyEntry, h3, modifyAt_getElem?, if_true, he, Option.map_some']
      congr 1
      rw [← h1, ← h2]

theorem SoundQueue.getEntry_types (q : SoundQueue) (t : Nat) :
    q.getEntry t = firstIndex (fun x => x == t) (q._soundList.map (·._type)) := by
  unfold SoundQueue.getEntry
  rw [firstIndex_map (fun e : SoundEntry => e._type) (fun x => x == t)]

theorem List.set_length_append_singleton {α : Type} (l : List α) (a b : α) :
    (l ++ [a]).set l.length b = l ++ [b] := by
  induction l with
  | nil => rfl
  | cons x l ih => simp [ih]

theorem persistedDelta_cases (t c : Nat) (ht : t < 2 ^ 32) (hc : c < 2 ^ 32) :
    (t < c → c - t < 0xF8000000 → persistedDelta t c = 0) ∧
    (t < c → 0xF8000000 ≤ c - t → persistedDelta t c = t + 2 ^ 32 - c) ∧
    (c ≤ t → t - c ≤ 0x8000000 → persistedDelta t c = t - c) ∧
    (c ≤ t → 0x8000000 < t - c → persistedDelta t c = 0) ∧
    persistedDelta t c ≤ 0x8000000 := by
  simp only [persistedDelta, Nat.mod_eq_of_lt ht, Nat.mod_eq_of_lt hc]
  refine ⟨?_, ?_, ?_, ?_, ?_⟩
  · intro h1 h2
    split_ifs <;> omega
  · intro h1 h2
    split_ifs <;> omega
  · intro h1 h2
    split_ifs <;> omega
  · intro h1 h2
    split_ifs <;> omega
  · split_ifs <;> omega

theorem SoundEntry.update_zero_sets_fading (K : SoundConstants)
    (hF : K.kSoundFlagFading ≠ 0) (queueFlag : Nat) (e : SoundEntry) :
    (e.update K queueFlag 0)._status &&& K.kSoundFlagFading ≠ 0 := by
  by_cases h : e._status &&& K.kSoundFlagFading = 0
  · rw [SoundEntry.update_zero_of_clear K queueFlag e h]
    simp only []
    rw [or_and_right_self]
    exact hF
  · rw [SoundEntry.update_of_fading K queueFlag e 0 h]
    exact h

/-- The pool after a demotion that finds a holder, entry by entry. -/
theorem SoundQueue.demote_getElem?_of_some (K : SoundConstants) (q : SoundQueue)
    (active inactive : Nat) (upd : Bool) (i : Nat) (hi : q.getEntry active = some i)
    (j : Nat) :
    ((q.demote K active inactive upd)._soundList)[j]?
      = if j = i then
          ((q._soundList)[j]?).map (fun p =>
            if upd then (p.setTypeTo inactive).update K q._flag 0 else p.setTypeTo inactive)
        else (q._soundList)[j]? := by
  unfold SoundQueue.demote
  rw [hi]
  simp only [SoundQueue.modifyEntry, modifyAt_getElem?]

theorem SoundQueue.getEntry_some_getElem? (q : SoundQueue) (t i : Nat)
    (hi : q.getEntry t = some i) :
    ∃ p : SoundEntry, (q._soundList)[i]? = some p ∧ p._type = t := by
  obtain ⟨x, hx, hpx, _⟩ := firstIndex_spec _ _ _ hi
  exact ⟨x, hx, by simpa using hpx⟩

theorem SoundQueue.ambientFirst_flag (K : SoundConstants) (q : SoundQueue) :
    (q.ambientFirst K)._flag = q._flag := by
  unfold SoundQueue.ambientFirst
  cases q.getEntry K.kSoundType2 <;> rfl

theorem SoundQueue.ambientFirst_getElem? (K : SoundConstants) (q : SoundQueue) (j : Nat) :
    ((q.ambientFirst K)._soundList)[j]?
      = match q.getEntry K.kSoundType2 with
        | some i =>
          if j = i then ((q._soundList)[j]?).map (fun p => p.update K q._flag 0)
          else (q._soundList)[j]?
        | none => (q._soundList)[j]? := by
  unfold SoundQueue.ambientFirst
  cases q.getEntry K.kSoundType2 with
  | none => rfl
  | some i => simp only [SoundQueue.modifyEntry, modifyAt_getElem?]

/-! ## Lemmas on status bits -/

theorem add_eq_or_of_and_eq_zero : ∀ (a b : Nat), a &&& b = 0 → a + b = a ||| b := by
  intro a
  induction a using Nat.strong_induction_on with
  | _ a ih =>
    intro b h
    by_cases ha : a = 0
    · subst ha; simp
    · have hd : a / 2 &&& b / 2 = 0 := by rw [← Nat.and_div_two, h]
      have hm : ¬ (a % 2 = 1 ∧ b % 2 = 1) := by
        intro hc
        have := Nat.and_mod_two_eq_one.mpr hc
        rw [h] at this
        omega
      have i1 := ih (a / 2) (by omega) (b / 2) hd
      have h1 : (a ||| b) / 2 = a / 2 + b / 2 := by rw [Nat.or_div_two, i1]
      have h2 : (a ||| b) % 2 = 1 ↔ a % 2 = 1 ∨ b % 2 = 1 := Nat.or_mod_two_eq_one
      omega

theorem testBit_bitNot32 (x i : Nat) :
    (bitNot32 x).testBit i = (decide (i < 32) ^^ x.testBit i) := by
  unfold bitNot32
  rw [Nat.testBit_xor, show (0xFFFFFFFF : Nat) = 2 ^ 32 - 1 from rfl,
    Nat.testBit_two_pow_sub_one]

theorem testBit_of_lt_32 (x i : Nat) (hx : x < 2 ^ 32) (hi : ¬ i < 32) :
    x.testBit i = false := by
  apply Nat.testBit_lt_two_pow
  calc x < 2 ^ 32 := hx
    _ ≤ 2 ^ i := Nat.pow_le_pow_right (by decide) (by omega)

/-- Writing a volume `f` over the volume bits `m` of a 32-bit status `s`. -/
theorem volume_overwrite (f s m : Nat) (hf : f < 2 ^ 32) (hs : s < 2 ^ 32)
    (hfit : f &&& bitNot32 m = 0) :
    (f + (s &&& bitNot32 m)) % 2 ^ 32 = f ||| (s &&& bitNot32 m) ∧
    (f ||| (s &&& bitNot32 m)) &&& m = f ∧
    (f ||| (s &&& bitNot32 m)) &&& bitNot32 m = s &&& bitNot32 m := by
  have hdis : f &&& (s &&& bitNot32 m) = 0 := by
    rw [← Nat.and_assoc, Nat.and_comm f s, Nat.and_assoc, hfit, Nat.and_zero]
  have hbit : ∀ i, (f.testBit i && (decide (i < 32) ^^ m.testBit i)) = false := by
    intro i
    have := congrArg (fun x => x.testBit i) hfit
    simpa [Nat.testBit_and, testBit_bitNot32] using this
  refine ⟨?_, ?_, ?_⟩
  · rw [add_eq_or_of_and_eq_zero _ _ hdis]
    apply Nat.mod_eq_of_lt
    exact Nat.or_lt_two_pow hf (lt_of_le_of_lt Nat.and_le_left hs)
  · apply Nat.eq_of_testBit_eq
    intro i
    have h1 := hbit i
    simp only [Nat.testBit_and, Nat.testBit_or, testBit_bitNot32]
    by_cases hi : i < 32
    · simp only [hi, decide_True] at h1 ⊢
      revert h1
      cases f.testBit i <;> cases s.testBit i <;> cases m.testBit i <;> simp
    · rw [testBit_of_lt_32 f i hf hi, testBit_of_lt_32 s i hs hi]
      simp
  · apply Nat.eq_of_testBit_eq
    intro i
    have h1 := hbit i
    simp only [Nat.testBit_and, Nat.testBit_or, testBit_bitNot32]
    by_cases hi : i < 32
    · simp only [hi, decide_True] at h1 ⊢
      revert h1
      cases f.testBit i <;> cases s.testBit i <;> cases m.testBit i <;> simp
    · rw [testBit_of_lt_32 f i hf hi, testBit_of_lt_32 s i hs hi]
      simp

/-- Setting the bits `a` and then clearing the bits `d` of a status, for two flags that
share no bit. -/
theorem set_then_clear (s a d : Nat) (ha : a < 2 ^ 32) (hd : d < 2 ^ 32)
    (hdis : a &&& d = 0) :
    ((s ||| a) &&& bitNot32 d) &&& d = 0 ∧ ((s ||| a) &&& bitNot32 d) &&& a = a := by
  have hbit : ∀ i, (a.testBit i && d.testBit i) = false := by
    intro i
    have := congrArg (fun x => x.testBit i) hdis
    simpa [Nat.testBit_and] using this
  constructor
  · apply Nat.eq_of_testBit_eq
    intro i
    simp only [Nat.testBit_and, Nat.testBit_or, testBit_bitNot32, Nat.zero_testBit]
    by_cases hi : i < 32
    · simp only [hi, decide_True]
      cases s.testBit i <;> cases a.testBit i <;> cases d.testBit i <;> simp
    · rw [testBit_of_lt_32 d i hd hi]
      simp
  · apply Nat.eq_of_testBit_eq
    intro i
    have h1 := hbit i
    simp only [Nat.testBit_and, Nat.testBit_or, testBit_bitNot32]
    by_cases hi : i < 32
    · simp only [hi, decide_True]
      revert h1
      cases s.testBit i <;> cases a.testBit i <;> cases d.testBit i <;> simp
    · rw [testBit_of_lt_32 a i ha hi]
      simp

theorem or_and_of_and_eq_zero (s h d : Nat) (hs : s &&& d = 0) (hh : h &&& d = 0) :
    (s ||| h) &&& d = 0 := by
  apply Nat.eq_of_testBit_eq
  intro i
  have h1 := congrArg (fun x => x.testBit i) hs
  have h2 := congrArg (fun x => x.testBit i) hh
  simp only [Nat.testBit_and, Nat.zero_testBit] at h1 h2
  simp only [Nat.testBit_and, Nat.testBit_or, Nat.zero_testBit]
  revert h1 h2
  cases s.testBit i <;> cases h.testBit i <;> cases d.testBit i <;> simp

theorem or_and_of_and_eq (s h a : Nat) (hs : s &&& a = a) : (s ||| h) &&& a = a := by
  apply Nat.eq_of_testBit_eq
  intro i
  have h1 := congrArg (fun x => x.testBit i) hs
  simp only [Nat.testBit_and] at h1
  simp only [Nat.testBit_and, Nat.testBit_or]
  revert h1
  cases s.testBit i <;> cases h.testBit i <;> cases a.testBit i <;> simp

/-! ## Lemmas on `showSubtitle` and `updateSound` -/

theorem SoundEntry.showSubtitle_status (K : SoundConstants) (hasFile : List Nat → Bool)
    (subAddr thisAddr : Nat) (q : SoundQueue) (e : SoundEntry) (filename : List Nat) :
    (e.showSubtitle K hasFile subAddr thisAddr q filename).2.1._status = e._status ∨
    (e.showSubtitle K hasFile subAddr thisAddr q filename).2.1._status
      = e._status ||| K.kSoundFlagHasSubtitles := by
  unfold SoundEntry.showSubtitle
  by_cases h : ((SubtitleEntry.new subAddr).load K hasFile q filename thisAddr).1._status
      &&& 0x400 ≠ 0
  · left
    simp only []
    rw [if_pos h]
  · right
    simp only []
    rw [if_neg h]

theorem subtitleStem_eq (name2 : List Nat) :
    subtitleStem name2
      = if 4 < (cstr name2).length then (cstr name2).take ((cstr name2).length - 4)
        else cstr name2 := by
  unfold subtitleStem
  simp only [Nat.add_sub_cancel, gt_iff_lt]
  split_ifs
  · congr 1
  · rfl

/-- The branch of `updateSound` taken when a delayed activation is due. -/
theorem SoundEntry.updateSound_delayed (K : SoundConstants) (data2 : Nat)
    (getSoundFlag : Nat → Nat) (hasFile : List Nat → Bool) (subAddr thisAddr : Nat)
    (q : SoundQueue) (e : SoundEntry) (hn : e._name2.length ≤ 16)
    (hfit : (cstr e._name2).length < 16)
    (hclosed : e._status &&& K.kSoundFlagClosed = 0)
    (hdelayed : e._status &&& K.kSoundFlagDelayedActivate ≠ 0)
    (hclock : e._field_48 ≤ data2) :
    e.updateSound K data2 getSoundFlag hasFile subAddr thisAddr q
      = .ok (true, ((e.activate K).showSubtitle K hasFile subAddr thisAddr q
          (if 4 < (cstr e._name2).length
            then (cstr e._name2).take ((cstr e._name2).length - 4)
            else cstr e._name2)).1,
          ((e.activate K).showSubtitle K hasFile subAddr thisAddr q
          (if 4 < (cstr e._name2).length
            then (cstr e._name2).take ((cstr e._name2).length - 4)
            else cstr e._name2)).2.1,
          ((e.activate K).showSubtitle K hasFile subAddr thisAddr q
          (if 4 < (cstr e._name2).length
            then (cstr e._name2).take ((cstr e._name2).length - 4)
            else cstr e._name2)).2.2) := by
  have hname : (e.activate K)._name2 = e._name2 := rfl
  unfold SoundEntry.updateSound
  simp only [hn, not_true_eq_false, if_false, hclosed, ne_eq, hdelayed,
    not_false_eq_true, if_true, hclock, subtitleStem_eq, hname, hfit]

/-! ## Lemmas for the third group of claims -/

theorem SubtitleEntry.load_missing (K : SoundConstants) (hasFile : List Nat → Bool)
    (sub : SubtitleEntry) (q : SoundQueue) (filename : List Nat) (soundEntry : Nat)
    (h : hasFile (filename ++ sbeSuffix) = false) :
    sub.load K hasFile q filename soundEntry
      = ({ sub with _filename := filename ++ sbeSuffix, _sound := some soundEntry,
                    _status := K.kSoundFlagClosed }, q.addSubtitle sub.addr) := by
  simp [SubtitleEntry.load, h]

theorem SubtitleEntry.load_present_busy (K : SoundConstants) (hasFile : List Nat → Bool)
    (sub : SubtitleEntry) (q : SoundQueue) (filename : List Nat) (soundEntry : Nat)
    (h : hasFile (filename ++ sbeSuffix) = true) (hb : q._subtitlesFlag &&& 2 ≠ 0) :
    sub.load K hasFile q filename soundEntry
      = ({ sub with _filename := filename ++ sbeSuffix, _sound := some soundEntry },
          q.addSubtitle sub.addr) := by
  simp [SubtitleEntry.load, h, SoundQueue.addSubtitle, hb]

theorem SubtitleEntry.load_present_free (K : SoundConstants) (hasFile : List Nat → Bool)
    (sub : SubtitleEntry) (q : SoundQueue) (filename : List Nat) (soundEntry : Nat)
    (h : hasFile (filename ++ sbeSuffix) = true) (hb : q._subtitlesFlag &&& 2 = 0) :
    sub.load K hasFile q filename soundEntry
      = ({ sub with _filename := filename ++ sbeSuffix, _sound := some soundEntry,
                    _data := true },
          { q.addSubtitle sub.addr with
            _subtitlesFlag := q._subtitlesFlag ||| 2, _currentSubtitle := some sub.addr }) := by
  simp [SubtitleEntry.load, h, SoundQueue.addSubtitle, hb, SubtitleEntry.loadData]

theorem and_eq_zero_of_or_and_eq_zero (x y m : Nat) (h : (x ||| y) &&& m = 0) :
    x &&& m = 0 := by
  apply Nat.eq_of_testBit_eq
  intro i
  have h1 := congrArg (fun z => z.testBit i) h
  simp only [Nat.testBit_and, Nat.testBit_or, Nat.zero_testBit] at h1
  simp only [Nat.testBit_and, Nat.zero_testBit]
  revert h1
  cases x.testBit i <;> cases y.testBit i <;> cases m.testBit i <;> simp

theorem or_and_ne_zero_of_and_ne_zero (x y m : Nat) (h : x &&& m ≠ 0) :
    (x ||| y) &&& m ≠ 0 := by
  intro hc
  exact h (and_eq_zero_of_or_and_eq_zero x y m hc)

theorem or_and_eq_of_disjoint (x y m : Nat) (h : y &&& m = 0) :
    (x ||| y) &&& m = x &&& m := by
  apply Nat.eq_of_testBit_eq
  intro i
  have h1 := congrArg (fun z => z.testBit i) h
  simp only [Nat.testBit_and, Nat.zero_testBit] at h1
  simp only [Nat.testBit_and, Nat.testBit_or]
  revert h1
  cases x.testBit i <;> cases y.testBit i <;> cases m.testBit i <;> simp

/-- The status `setupStatus` derives from a flag word. -/
theorem SoundEntry.setupStatus_status (K : SoundConstants) (hV : K.kVolumeNone = 0)
    (hML : K.kSoundFlagMuteRequested &&& K.kSoundFlagLooped = 0) (e : SoundEntry)
    (flag : Nat) :
    (e.setupStatus K flag)._status
      = (flag ||| (if flag &&& K.kSoundVolumeMask = 0 then K.kSoundFlagMuteRequested else 0))
        ||| (if flag &&& K.kSoundFlagLooped = 0 then K.kSoundFlagCloseOnDataEnd else 0) := by
  unfold SoundEntry.setupStatus
  simp only [hV]
  by_cases h1 : flag &&& K.kSoundVolumeMask = 0
  · have h2 : (flag ||| K.kSoundFlagMuteRequested) &&& K.kSoundFlagLooped
        = flag &&& K.kSoundFlagLooped := or_and_eq_of_disjoint _ _ _ hML
    simp only [h1, if_true, h2]
    by_cases h3 : flag &&& K.kSoundFlagLooped = 0 <;> simp [h3]
  · simp only [h1, if_false, Nat.or_zero]
    by_cases h3 : flag &&& K.kSoundFlagLooped = 0 <;> simp [h3]

theorem filter_ne_append_self (l : List Nat) (a : Nat) (h : a ∉ l) :
    (l ++ [a]).filter (fun x => x != a) = l := by
  rw [List.filter_append]
  have h1 : l.filter (fun x => x != a) = l := by
    rw [List.filter_eq_self]
    intro x hx
    have : x ≠ a := fun hc => h (hc ▸ hx)
    simpa using this
  simp [h1]

/-- What `draw` does to the coordinator. -/
theorem SubtitleEntry.draw_spec (sub : SubtitleEntry) (q : SoundQueue) :
    sub.addr ∉ (sub.draw q).1._subtitles ∧
    (sub.draw q).1._subtitles = q._subtitles.filter (fun a => a != sub.addr) ∧
    (q._currentSubtitle ≠ some sub.addr →
      (sub.draw q).1._currentSubtitle = q._currentSubtitle ∧
      (sub.draw q).1._subtitlesFlag = q._subtitlesFlag ∧
      (sub.draw q).2 = []) ∧
    (q._currentSubtitle = some sub.addr →
      (sub.draw q).1._currentSubtitle = none ∧
      (sub.draw q).1._subtitlesFlag = 0) := by
  have hl : (sub.draw q).1._subtitles = q._subtitles.filter (fun a => a != sub.addr) := by
    unfold SubtitleEntry.draw SubtitleEntry.drawOnScreen SoundQueue.removeSubtitle
    by_cases hc : q._currentSubtitle = some sub.addr <;> by_cases hd : sub._data = true <;>
      simp [hc, hd]
  refine ⟨?_, hl, ?_, ?_⟩
  · rw [hl]
    simp
  · intro hc
    unfold SubtitleEntry.draw SoundQueue.removeSubtitle
    simp [hc]
  · intro hc
    unfold SubtitleEntry.draw SubtitleEntry.drawOnScreen SoundQueue.removeSubtitle
    by_cases hd : sub._data = true <;> simp [hc, hd]

/-! ## Claims -/

/-- C1 (the code at the input where the claim fails): starting from an empty pool, two
opens of the walla category leave two entries in the pool that both hold kSoundType11,
the type open assigns to a new walla entry: the walla case looks up kSoundType3, which
no entry ever receives from it. -/
theorem C1_two_walla_entries_share_type (K : SoundConstants) (hK : K.LabelsDistinct)
    (hT : K.kSoundType3 ≠ K.kSoundType11) (getArchive : List Nat → Option Nat)
    (currentType queueFlag : Nat) (r1 r2 : OpenRequest)
    (h1 : r1.flag &&& K.kSoundTypeMask = K.kSoundTypeWalla)
    (h2 : r2.flag &&& K.kSoundTypeMask = K.kSoundTypeWalla) :
    ((SoundQueue.empty currentType queueFlag).openAll K getArchive [r1, r2])._soundList.map
        (·._type)
      = [K.kSoundType11, K.kSoundType11] := by
  have e1 := SoundQueue.openEntry_walla_types K hK getArchive
    (SoundQueue.empty currentType queueFlag) r1.name r1.flag r1.priority h1 rfl
  have hn : ((SoundQueue.empty currentType queueFlag).openEntry K getArchive
      r1.name r1.flag r1.priority).getEntry K.kSoundType3 = none := by
    unfold SoundQueue.getEntry
    rw [firstIndex_map (fun e : SoundEntry => e._type) (fun x => x == K.kSoundType3), e1]
    simp [SoundQueue.empty, firstIndex, Ne.symm hT]
  have e2 := SoundQueue.openEntry_walla_types K hK getArchive _ r2.name r2.flag r2.priority
    h2 hn
  simp only [SoundQueue.openAll]
  rw [e2, e1]
  simp [SoundQueue.empty]

/-- C1, run on the sample constants: two walla requests for "A" on an empty pool. -/
theorem C1_two_walla_entries_share_type_witness :
    sampleConstants.LabelsDistinct ∧
    sampleWallaRequest.flag &&& sampleConstants.kSoundTypeMask
      = sampleConstants.kSoundTypeWalla ∧
    ((SoundQueue.empty 16 0).openAll sampleConstants sampleArchive
        [sampleWallaRequest, sampleWallaRequest])._soundList.map (·._type) = [11, 11] :=
  ⟨by decide, by decide,
    C1_two_walla_entries_share_type sampleConstants (by decide) (by decide) sampleArchive
      16 0 sampleWallaRequest sampleWallaRequest (by decide) (by decide)⟩

/-- C2: for an open whose category is ambient, walla, link, NIS, intro or menu, if some
pool entry holds the type looked up for that category (kSoundType1, 3, 7, 9, 11, 13),
then when open returns the first such entry in pool order holds the paired type
(kSoundType2, 4, 8, 10, 14, 14), every other position of the pool holds the type it held
before, and the pool has the same entries in number. -/
theorem C2_open_demotes_first_holder (K : SoundConstants) (hK : K.LabelsDistinct)
    (getArchive : List Nat → Option Nat) (q : SoundQueue) (self : SoundEntry)
    (name : List Nat) (flag priority : Nat) (cat active inactive : Nat)
    (hcat : (cat, active, inactive) ∈
      [(K.kSoundTypeAmbient, K.kSoundType1, K.kSoundType2),
       (K.kSoundTypeWalla, K.kSoundType3, K.kSoundType4),
       (K.kSoundTypeLink, K.kSoundType7, K.kSoundType8),
       (K.kSoundTypeNIS, K.kSoundType9, K.kSoundType10),
       (K.kSoundTypeIntro, K.kSoundType11, K.kSoundType14),
       (K.kSoundTypeMenu, K.kSoundType13, K.kSoundType14)])
    (hflag : flag &&& K.kSoundTypeMask = cat)
    (hold : ∃ p, p ∈ q._soundList ∧ p._type = active) :
    ∃ i : Nat,
      ((q._soundList)[i]?).map (·._type) = some active ∧
      (∀ j : Nat, j < i → ((q._soundList)[j]?).map (·._type) ≠ some active) ∧
      (((self.open K getArchive q name flag priority).1._soundList)[i]?).map (·._type)
        = some inactive ∧
      (∀ j : Nat, j ≠ i →
        (((self.open K getArchive q name flag priority).1._soundList)[j]?).map (·._type)
          = ((q._soundList)[j]?).map (·._type)) ∧
      (self.open K getArchive q name flag priority).1._soundList.length
        = q._soundList.length := by
  rw [SoundEntry.open_queue]
  simp only [List.mem_cons, Prod.mk.injEq, List.mem_singleton, List.not_mem_nil,
    or_false] at hcat
  rcases hcat with h | h | h | h | h | h <;> obtain ⟨rfl, rfl, rfl⟩ := h
  · rw [SoundEntry.setType_ambient K q _ flag hflag]
    obtain ⟨i, h1, h2, h3, h4, h5⟩ := SoundQueue.demote_first_holder K (q.ambientFirst K)
      K.kSoundType1 K.kSoundType2 true (SoundQueue.ambientFirst_holder K q _ hold)
    refine ⟨i, ?_, ?_, h3, ?_, ?_⟩
    · rw [← SoundQueue.ambientFirst_getElem?_type K q i]; exact h1
    · intro j hj
      rw [← SoundQueue.ambientFirst_getElem?_type K q j]; exact h2 j hj
    · intro j hj
      rw [← SoundQueue.ambientFirst_getElem?_type K q j]; exact h4 j hj
    · rw [← SoundQueue.ambientFirst_length K q]; exact h5
  · rw [SoundEntry.setType_walla K hK q _ flag hflag]
    exact SoundQueue.demote_first_holder K q _ _ _ hold
  · rw [SoundEntry.setType_link K hK q _ flag hflag]
    exact SoundQueue.demote_first_holder K q _ _ _ hold
  · rw [SoundEntry.setType_nis K hK q _ flag hflag]
    exact SoundQueue.demote_first_holder K q _ _ _ hold
  · rw [SoundEntry.setType_intro K hK q _ flag hflag]
    exact SoundQueue.demote_first_holder K q _ _ _ hold
  · rw [SoundEntry.setType_menu K hK q _ flag hflag]
    exact SoundQueue.demote_first_holder K q _ _ _ hold

/-- C2, run on the sample constants: an ambient open on the pool left by one ambient
open demotes the entry at position 0. -/
theorem C2_open_demotes_first_holder_witness :
    ∃ i : Nat,
      (((SoundQueue.empty 16 0).openAll sampleConstants sampleArchive
          [sampleAmbientRequest])._soundList[i]?).map (·._type) = some 1 ∧
      (∀ j : Nat, j < i →
        (((SoundQueue.empty 16 0).openAll sampleConstants sampleArchive
          [sampleAmbientRequest])._soundList[j]?).map (·._type) ≠ some 1) ∧
      ((((SoundEntry.new sampleConstants).open sampleConstants sampleArchive
          ((SoundQueue.empty 16 0).openAll sampleConstants sampleArchive
            [sampleAmbientRequest]) [65] 0x1000010 30).1._soundList)[i]?).map (·._type)
        = some 2 ∧
      (∀ j : Nat, j ≠ i →
        ((((SoundEntry.new sampleConstants).open sampleConstants sampleArchive
          ((SoundQueue.empty 16 0).openAll sampleConstants sampleArchive
            [sampleAmbientRequest]) [65] 0x1000010 30).1._soundList)[j]?).map (·._type)
          = (((SoundQueue.empty 16 0).openAll sampleConstants sampleArchive
              [sampleAmbientRequest])._soundList[j]?).map (·._type)) ∧
      ((SoundEntry.new sampleConstants).open sampleConstants sampleArchive
          ((SoundQueue.empty 16 0).openAll sampleConstants sampleArchive
            [sampleAmbientRequest]) [65] 0x1000010 30).1._soundList.length
        = ((SoundQueue.empty 16 0).openAll sampleConstants sampleArchive
            [sampleAmbientRequest])._soundList.length :=
  C2_open_demotes_first_holder sampleConstants (by decide) sampleArchive
    ((SoundQueue.empty 16 0).openAll sampleConstants sampleArchive [sampleAmbientRequest])
    (SoundEntry.new sampleConstants) [65] 0x1000010 30
    sampleConstants.kSoundTypeAmbient sampleConstants.kSoundType1 sampleConstants.kSoundType2
    (by simp) (by decide) ⟨_, List.mem_singleton.mpr rfl, by decide⟩

/-- C3 (the code at the input where the claim fails): the entry "NISSND1" is saved as a
68-byte record; load mode run on that record into a newly constructed entry reads no
byte of it and leaves the new entry as constructed, because the filter is applied to the
new entry's own, still empty, secondary name: status, type, time, category, priority
and both names of the saved entry are not reproduced. -/
theorem C3_load_into_new_entry_reads_nothing :
    ∃ record : List Nat, record.length = 68 ∧
      sampleNisEntry.saveLoadWithSerializer sampleConstants 5 [] [] ⟨false, []⟩
        = .ok (sampleNisEntry, ⟨false, record⟩) ∧
      (SoundEntry.new sampleConstants).saveLoadWithSerializer sampleConstants 5 [] []
          ⟨true, record⟩
        = .ok (SoundEntry.new sampleConstants, ⟨true, record⟩) ∧
      (SoundEntry.new sampleConstants)._status ≠ sampleNisEntry._status ∧
      (SoundEntry.new sampleConstants)._type ≠ sampleNisEntry._type ∧
      (SoundEntry.new sampleConstants)._time ≠ sampleNisEntry._time ∧
      (SoundEntry.new sampleConstants)._entity ≠ sampleNisEntry._entity ∧
      (SoundEntry.new sampleConstants)._priority ≠ sampleNisEntry._priority ∧
      (SoundEntry.new sampleConstants)._name1 ≠ sampleNisEntry._name1 ∧
      (SoundEntry.new sampleConstants)._name2 ≠ sampleNisEntry._name2 := by
  refine ⟨_, ?_, SoundEntry.save_matching sampleConstants 5 [] [] sampleNisEntry []
    (by decide) (by decide) (by decide) (by decide) (by decide),
    SoundEntry.saveLoad_new _ _ _ _ _,
    by decide, by decide, by decide, by decide, by decide, by decide, by decide⟩
  decide

/-- C4 (the code at the input where the claim fails): saving the entry with names "A" and
"NISSND1" while the local arrays lie on stack bytes 0xCC writes 68 bytes, the nine
integers in the stated order, and two 16-byte name fields in which the name and its
terminating zero are followed by the bytes 0xCC the arrays held, not by zero padding. -/
theorem C4_name_fields_keep_stack_bytes :
    sampleNisEntry.saveLoadWithSerializer sampleConstants 5 sampleStack sampleStack
        ⟨false, []⟩
      = .ok (sampleNisEntry, ⟨false,
          [0x10, 0x08, 0x00, 0x04,  9, 0, 0, 0,  0, 0, 0, 0,  100, 0, 0, 0,  0, 0, 0, 0,
           0, 0, 0, 0,  3, 0, 0, 0,  45, 0, 0, 0,  30, 0, 0, 0,
           65, 0, 0xCC, 0xCC, 0xCC, 0xCC, 0xCC, 0xCC,
           0xCC, 0xCC, 0xCC, 0xCC, 0xCC, 0xCC, 0xCC, 0xCC,
           78, 73, 83, 83, 78, 68, 49, 0,
           0xCC, 0xCC, 0xCC, 0xCC, 0xCC, 0xCC, 0xCC, 0xCC]⟩) := by
  rw [SoundEntry.save_matching sampleConstants 5 sampleStack sampleStack sampleNisEntry []
    (by decide) (by decide) (by decide) (by decide) (by decide)]
  rfl

/-- C6: whatever the state of the entry, after reset() the raw stream handle is absent,
isFinished() answers true, and play() ends in the fatal error "stream has been disposed"
without any call on the stream or the streaming handle. -/
theorem C6_reset_disposes (K : SoundConstants) (e : SoundEntry) (streamFinished : Bool) :
    (e.reset K).1._stream = none ∧
    (e.reset K).1.isFinished streamFinished = true ∧
    (e.reset K).1.play K = .error "[SoundEntry::play] stream has been disposed" ∧
    ((e.reset K).1.playTimes K 1).2 = [] := by
  have h := SoundEntry.reset_stream K e
  refine ⟨h, ?_, ?_, ?_⟩
  · simp [SoundEntry.isFinished, h]
  · simp [SoundEntry.play, h]
  · simp [SoundEntry.playTimes, SoundEntry.play, h]

/-- C7: for an entry that holds a stream and is not queued, the first play() seeks the
stream to 0 and calls load once, the second play() only calls setFilterId with
(status & kSoundVolumeMask); and over any number of play() calls on any entry, load is
called at most once (and so is seek). -/
theorem C7_play_loads_once (K : SoundConstants) (e : SoundEntry) (stream : Nat)
    (hs : e._stream = some stream) (hq : e._queued = false) :
    e.play K = .ok ({ e with _soundStream := true, _queued := true },
      [Effect.streamSeek stream 0,
        Effect.soundStreamLoad stream (e._status &&& K.kSoundVolumeMask)]) ∧
    ({ e with _soundStream := true, _queued := true } : SoundEntry).play K
      = .ok ({ e with _soundStream := true, _queued := true },
          [Effect.soundStreamSetFilterId (e._status &&& K.kSoundVolumeMask)]) ∧
    (∀ (n : Nat) (e0 : SoundEntry),
      (e0.playTimes K n).2.countP Effect.isLoad ≤ 1
        ∧ (e0.playTimes K n).2.countP Effect.isSeek ≤ 1) := by
  refine ⟨?_, ?_, fun n e0 => SoundEntry.playTimes_loads K n e0⟩
  · simp [SoundEntry.play, hs, hq]
  · simp [SoundEntry.play, hs]

/-- C7, run on an entry holding stream 7 with volume bits 0x10. -/
theorem C7_play_loads_once_witness :
    sampleLoadedEntry._stream = some 7 ∧ sampleLoadedEntry._queued = false ∧
    sampleLoadedEntry.play sampleConstants
      = .ok ({ sampleLoadedEntry with _soundStream := true, _queued := true },
          [Effect.streamSeek 7 0, Effect.soundStreamLoad 7 0x10]) ∧
    (sampleLoadedEntry.playTimes sampleConstants 3).2.countP Effect.isLoad ≤ 1 :=
  ⟨rfl, rfl,
    (C7_play_loads_once sampleConstants sampleLoadedEntry 7 rfl rfl).1,
    ((C7_play_loads_once sampleConstants sampleLoadedEntry 7 rfl rfl).2.2 3
      sampleLoadedEntry).1⟩

/-- C8: for every entry state (those produced by open and play() among them) and every
sequence of close() and reset() calls, the raw stream is released at most once, counting
both the direct release and the release of the streaming handle that owns it, the
streaming handle is stopped at most once and released at most once; and a reset() after
a reset() changes nothing and makes no call. -/
theorem C8_release_at_most_once (K : SoundConstants) (ops : List EntryOp) (q : SoundQueue)
    (e : SoundEntry) :
    (SoundEntry.runOps K ops q e).2.2.countP Effect.releasesStream ≤ 1 ∧
    (SoundEntry.runOps K ops q e).2.2.count Effect.soundStreamStop ≤ 1 ∧
    (SoundEntry.runOps K ops q e).2.2.count Effect.deleteSoundStream ≤ 1 ∧
    (e.reset K).1.reset K = ((e.reset K).1, []) :=
  ⟨(SoundEntry.runOps_counts K ops q e).1, (SoundEntry.runOps_counts K ops q e).2.1,
    (SoundEntry.runOps_counts K ops q e).2.2, SoundEntry.reset_reset K e⟩

/-- C9 as the claim states it fails: on an entry whose fading flag is already set while
the pending-volume field holds 5, update(0) returns at once and the field is still 5. -/
theorem C9_counterexample :
    (sampleFadingEntry.update sampleConstants 0 0)._status
        &&& sampleConstants.kSoundFlagFading ≠ 0 ∧
    (sampleFadingEntry.update sampleConstants 0 0)._field_3C = 5 := by
  decide

/-- C9, amended: after update(0) the fading flag is set; the pending-volume field is
zero when the fading flag was clear before the call (when it was set the entry is left
as it was); update(v) on a state whose fading flag is set changes no field; and
update(0) twice is update(0) once. -/
theorem C9_update_zero_fades (K : SoundConstants) (hF : K.kSoundFlagFading ≠ 0)
    (queueFlag : Nat) (e : SoundEntry) :
    (e.update K queueFlag 0)._status &&& K.kSoundFlagFading ≠ 0 ∧
    (e._status &&& K.kSoundFlagFading = 0 → (e.update K queueFlag 0)._field_3C = 0) ∧
    (∀ (v fl : Nat) (e2 : SoundEntry), e2._status &&& K.kSoundFlagFading ≠ 0 →
      e2.update K fl v = e2) ∧
    (e.update K queueFlag 0).update K queueFlag 0 = e.update K queueFlag 0 := by
  have hset : (e.update K queueFlag 0)._status &&& K.kSoundFlagFading ≠ 0 := by
    by_cases h : e._status &&& K.kSoundFlagFading = 0
    · rw [SoundEntry.update_zero_of_clear K queueFlag e h]
      simp only []
      rw [or_and_right_self]
      exact hF
    · rw [SoundEntry.update_of_fading K queueFlag e 0 h]
      exact h
  refine ⟨hset, ?_, ?_, ?_⟩
  · intro h
    rw [SoundEntry.update_zero_of_clear K queueFlag e h]
  · intro v fl e2 h
    exact SoundEntry.update_of_fading K fl e2 v h
  · exact SoundEntry.update_of_fading K queueFlag _ 0 hset

/-- C9 amended, run on the sample constants and a newly constructed entry. -/
theorem C9_update_zero_fades_witness :
    sampleConstants.kSoundFlagFading ≠ 0 ∧
    ((SoundEntry.new sampleConstants).update sampleConstants 0 0)._status
        &&& sampleConstants.kSoundFlagFading ≠ 0 ∧
    ((SoundEntry.new sampleConstants).update sampleConstants 0 0).update sampleConstants 0 0
      = (SoundEntry.new sampleConstants).update sampleConstants 0 0 :=
  ⟨by decide,
    (C9_update_zero_fades sampleConstants (by decide) 0 (SoundEntry.new sampleConstants)).1,
    (C9_update_zero_fades sampleConstants (by decide) 0
      (SoundEntry.new sampleConstants)).2.2.2⟩

/-- C11: open always returns; the opened entry holds the stream of the requested name
when the archive has it, else the stream of "DEFAULT.SND" when the archive has that,
else no stream and a status that is exactly close-requested; in all three cases its
secondary name is the requested name. -/
theorem C11_open_resolves_stream (K : SoundConstants) (getArchive : List Nat → Option Nat)
    (q : SoundQueue) (self : SoundEntry) (name : List Nat) (flag priority : Nat) :
    (self.open K getArchive q name flag priority).2._name2 = name ∧
    (∀ st, getArchive name = some st →
      (self.open K getArchive q name flag priority).2._stream = some st) ∧
    (∀ st, getArchive name = none → getArchive defaultSndName = some st →
      (self.open K getArchive q name flag priority).2._stream = some st) ∧
    (getArchive name = none → getArchive defaultSndName = none →
      (self.open K getArchive q name flag priority).2._stream = none ∧
      (self.open K getArchive q name flag priority).2._status = K.kSoundFlagCloseRequested ∧
      (self.open K getArchive q name flag priority).2._status &&& K.kSoundFlagCloseRequested
        = K.kSoundFlagCloseRequested) := by
  rw [SoundEntry.open_entry]
  obtain ⟨h1, h2, h3, h4⟩ := SoundEntry.loadStream_spec K getArchive
    (({ self with _priority := priority }.setType K q flag).2.setupStatus K flag) name
  refine ⟨h1, fun st hs => (h2 st hs).1, fun st hn hs => (h3 st hn hs).1, ?_⟩
  intro hn hd
  obtain ⟨h5, h6⟩ := h4 hn hd
  exact ⟨h5, h6, by rw [h6, Nat.and_self]⟩

/-- C11, run on an archive that has "A" and neither "Z" nor "DEFAULT.SND". -/
theorem C11_open_resolves_stream_witness :
    sampleArchive [65] = some 7 ∧ sampleArchive [90] = none ∧
    sampleArchive defaultSndName = none ∧
    ((SoundEntry.new sampleConstants).open sampleConstants sampleArchive
      (SoundQueue.empty 16 0) [65] 0x10 30).2._stream = some 7 ∧
    ((SoundEntry.new sampleConstants).open sampleConstants sampleArchive
      (SoundQueue.empty 16 0) [90] 0x10 30).2._stream = none ∧
    ((SoundEntry.new sampleConstants).open sampleConstants sampleArchive
      (SoundQueue.empty 16 0) [90] 0x10 30).2._status = 0x200 :=
  ⟨by decide, by decide, by decide,
    (C11_open_resolves_stream sampleConstants sampleArchive (SoundQueue.empty 16 0)
      (SoundEntry.new sampleConstants) [65] 0x10 30).2.1 7 (by decide),
    ((C11_open_resolves_stream sampleConstants sampleArchive (SoundQueue.empty 16 0)
      (SoundEntry.new sampleConstants) [90] 0x10 30).2.2.2 (by decide) (by decide)).1,
    ((C11_open_resolves_stream sampleConstants sampleArchive (SoundQueue.empty 16 0)
      (SoundEntry.new sampleConstants) [90] 0x10 30).2.2.2 (by decide) (by decide)).2.1⟩

/-- C12 as the claim states it fails: after open(A, ambient), open(B, ambient) and
B.close() on an empty pool, the lookup of kSoundType1 finds the entry at position 1,
the closed B. -/
theorem C12_counterexample :
    (((SoundQueue.empty 16 0).openAll sampleConstants sampleArchive
        [sampleAmbientRequest, sampleAmbientRequestB]).closeEntry sampleConstants 1).1.getEntry
      sampleConstants.kSoundType1 = some 1 := by
  decide

/-- C12, amended: starting from a pool without a holder of kSoundType1, after
open(A, ambient), open(B, ambient) and B.close(), B is still in the pool, holds
kSoundType1 and has close-requested set, so the lookup of kSoundType1 finds B; A holds
kSoundType2. -/
theorem C12_closed_entry_keeps_slot (K : SoundConstants)
    (h12 : K.kSoundType1 ≠ K.kSoundType2) (getArchive : List Nat → Option Nat)
    (q : SoundQueue) (rA rB : OpenRequest)
    (hq : q.getEntry K.kSoundType1 = none)
    (hA : rA.flag &&& K.kSoundTypeMask = K.kSoundTypeAmbient)
    (hB : rB.flag &&& K.kSoundTypeMask = K.kSoundTypeAmbient) :
    ((q.openAll K getArchive [rA, rB]).closeEntry K (q._soundList.length + 1)).1.getEntry
        K.kSoundType1 = some (q._soundList.length + 1) ∧
    (∃ b : SoundEntry,
      (((q.openAll K getArchive [rA, rB]).closeEntry K
          (q._soundList.length + 1)).1._soundList)[q._soundList.length + 1]? = some b ∧
      b._type = K.kSoundType1 ∧
      b._status &&& K.kSoundFlagCloseRequested = K.kSoundFlagCloseRequested) ∧
    ((((q.openAll K getArchive [rA, rB]).closeEntry K
        (q._soundList.length + 1)).1._soundList)[q._soundList.length]?).map (·._type)
      = some K.kSoundType2 := by
  have hT : ∀ x, x ∈ q._soundList.map (·._type) → (x == K.kSoundType1) = false := by
    rw [SoundQueue.getEntry_types] at hq
    exact (firstIndex_eq_none_iff _ _).mp hq
  have hlenT : (q._soundList.map (·._type)).length = q._soundList.length := by simp
  have t1 := SoundQueue.openEntry_ambient_types K getArchive q rA.name rA.flag rA.priority hA
  rw [hq] at t1
  have g1 : (q.openEntry K getArchive rA.name rA.flag rA.priority).getEntry K.kSoundType1
      = some q._soundList.length := by
    rw [SoundQueue.getEntry_types, t1, firstIndex_append_of_none _ _ _ hT]
    simp [firstIndex]
  have t2 := SoundQueue.openEntry_ambient_types K getArchive
    (q.openEntry K getArchive rA.name rA.flag rA.priority) rB.name rB.flag rB.priority hB
  rw [g1, t1] at t2
  have hset : (q._soundList.map (·._type) ++ [K.kSoundType1]).set q._soundList.length
      K.kSoundType2 = q._soundList.map (·._type) ++ [K.kSoundType2] := by
    have h := List.set_length_append_singleton (q._soundList.map (·._type))
      K.kSoundType1 K.kSoundType2
    rwa [hlenT] at h
  simp only [] at t2
  rw [hset] at t2
  have hall : q.openAll K getArchive [rA, rB]
      = (q.openEntry K getArchive rA.name rA.flag rA.priority).openEntry K getArchive
          rB.name rB.flag rB.priority := rfl
  rw [hall]
  obtain ⟨c1, c2⟩ := SoundQueue.closeEntry_spec K
    ((q.openEntry K getArchive rA.name rA.flag rA.priority).openEntry K getArchive
      rB.name rB.flag rB.priority) (q._soundList.length + 1)
  rw [t2] at c1
  have hlen2 : ((q.openEntry K getArchive rA.name rA.flag rA.priority).openEntry K
      getArchive rB.name rB.flag rB.priority)._soundList.length
        = q._soundList.length + 2 := by
    have := congrArg List.length t2
    simpa using this
  obtain ⟨e, he⟩ : ∃ e, (((q.openEntry K getArchive rA.name rA.flag rA.priority).openEntry K
      getArchive rB.name rB.flag rB.priority)._soundList)[q._soundList.length + 1]?
        = some e := ⟨_, List.getElem?_eq_getElem (by omega)⟩
  have hety : e._type = K.kSoundType1 := by
    have h := congrArg (fun l => l[q._soundList.length + 1]?) t2
    simp only [List.getElem?_map, he, Option.map_some'] at h
    rw [List.append_assoc, List.getElem?_append_right (by simp)] at h
    simpa using h
  refine ⟨?_, ⟨_, c2 e he, hety, ?_⟩, ?_⟩
  · rw [SoundQueue.getEntry_types, c1, List.append_assoc,
      firstIndex_append_of_none _ _ _ hT]
    have hne : (K.kSoundType2 == K.kSoundType1) = false := by
      simpa using Ne.symm h12
    simp [firstIndex, hne, Nat.add_comm]
  · exact or_and_right_self _ _
  · have h := congrArg (fun l => l[q._soundList.length]?) c1
    simp only [List.getElem?_map] at h
    rw [h, List.append_assoc, List.getElem?_append_right (by simp)]
    simp

/-- C12 amended, run on an empty pool and two ambient requests. -/
theorem C12_closed_entry_keeps_slot_witness :
    (SoundQueue.empty 16 0).getEntry sampleConstants.kSoundType1 = none ∧
    (((SoundQueue.empty 16 0).openAll sampleConstants sampleArchive
        [sampleAmbientRequest, sampleAmbientRequestB]).closeEntry sampleConstants
          ((SoundQueue.empty 16 0)._soundList.length + 1)).1.getEntry
      sampleConstants.kSoundType1 = some ((SoundQueue.empty 16 0)._soundList.length + 1) :=
  ⟨by decide,
    (C12_closed_entry_keeps_slot sampleConstants (by decide) sampleArchive
      (SoundQueue.empty 16 0) sampleAmbientRequest sampleAmbientRequestB (by decide)
      (by decide) (by decide)).1⟩

/-- C13 as the claim states it fails: with threshold 50 and clock 0xFFFFFFFF the
threshold is below the clock, and the delta written into the record is 51, not 0. -/
theorem C13_counterexample :
    sampleNisEntry._field_48 < 0xFFFFFFFF ∧
    persistedDelta sampleNisEntry._field_48 0xFFFFFFFF = 51 ∧
    sampleNisEntry.saveLoadWithSerializer sampleConstants 0xFFFFFFFF [] [] ⟨false, []⟩
      = .ok (sampleNisEntry, ⟨false,
          [0x10, 0x08, 0x00, 0x04,  9, 0, 0, 0,  0, 0, 0, 0,  100, 0, 0, 0,  0, 0, 0, 0,
           0, 0, 0, 0,  3, 0, 0, 0,  51, 0, 0, 0,  30, 0, 0, 0,
           65, 0, 0, 0, 0, 0, 0, 0, 0, 0, 0, 0, 0, 0, 0, 0,
           78, 73, 83, 83, 78, 68, 49, 0, 0, 0, 0, 0, 0, 0, 0, 0]⟩) := by
  refine ⟨by decide, by decide, ?_⟩
  rw [SoundEntry.save_matching sampleConstants 0xFFFFFFFF [] [] sampleNisEntry []
    (by decide) (by decide) (by decide) (by decide) (by decide)]
  rfl

/-- C13, amended: for 32-bit threshold t and clock c the delta written into the record
is t - c when c <= t and t - c <= 0x8000000, is 0 when c <= t and t - c > 0x8000000, is 0
when t < c and c - t < 0xF8000000, and is the wrapped difference t + 2^32 - c when t < c
and c - t >= 0xF8000000; in every case it is at most 0x8000000; when the primary name is
shorter than 16 bytes, so that a record is written, it is the eighth integer of the
record. -/
theorem C13_persisted_delta (K : SoundConstants) (data2 : Nat) (stack1 stack2 : List Nat)
    (e : SoundEntry) (out : List Nat)
    (ht : e._field_48 < 2 ^ 32) (hc : data2 < 2 ^ 32)
    (h1 : e._name1.length ≤ 16) (h2 : e._name2.length ≤ 16)
    (hm : (cstr e._name2).length = 7 ∧ (cstr e._name2).take 6 = [78, 73, 83, 83, 78, 68])
    (hs : e._status &&& K.kSoundTypeMask ≠ K.kSoundTypeMenu) :
    ((cstr e._name1).length < 16 →
      ∃ before after : List Nat, before.length = 28 ∧ after.length = 36 ∧
        e.saveLoadWithSerializer K data2 stack1 stack2 ⟨false, out⟩
          = .ok (e, ⟨false, out ++ (before ++ uint32LE (persistedDelta e._field_48 data2)
              ++ after)⟩)) ∧
    (e._field_48 < data2 → data2 - e._field_48 < 0xF8000000 →
      persistedDelta e._field_48 data2 = 0) ∧
    (e._field_48 < data2 → 0xF8000000 ≤ data2 - e._field_48 →
      persistedDelta e._field_48 data2 = e._field_48 + 2 ^ 32 - data2) ∧
    (data2 ≤ e._field_48 → e._field_48 - data2 ≤ 0x8000000 →
      persistedDelta e._field_48 data2 = e._field_48 - data2) ∧
    (data2 ≤ e._field_48 → 0x8000000 < e._field_48 - data2 →
      persistedDelta e._field_48 data2 = 0) ∧
    persistedDelta e._field_48 data2 ≤ 0x8000000 := by
  refine ⟨?_, persistedDelta_cases e._field_48 data2 ht hc⟩
  intro h1c
  refine ⟨uint32LE e._status ++ uint32LE e._type ++ uint32LE e._blockCount
      ++ uint32LE e._time ++ uint32LE e._field_34 ++ uint32LE e._field_38
      ++ uint32LE e._entity,
    uint32LE e._priority ++ (strcpy (charArray16 stack1) e._name1).take 16
      ++ (strcpy (charArray16 stack2) e._name2).take 16, ?_, ?_, ?_⟩
  · simp only [List.length_append, uint32LE_length]
  · simp only [List.length_append, uint32LE_length, strcpy_take_length _ _ h1,
      strcpy_take_length _ _ h2]
  · rw [SoundEntry.save_matching K data2 stack1 stack2 e out h1 h2 h1c
      ((matchString_nisSnd _).mpr hm) hs]
    simp only [List.append_assoc]

/-- C13 amended, run on threshold 50 and clock 5 for an entry with primary name "A". -/
theorem C13_persisted_delta_witness :
    sampleNisEntry._field_48 < 2 ^ 32 ∧ (5 : Nat) ≤ sampleNisEntry._field_48 ∧
    (cstr sampleNisEntry._name1).length < 16 ∧
    (∃ before after : List Nat, before.length = 28 ∧ after.length = 36 ∧
      sampleNisEntry.saveLoadWithSerializer sampleConstants 5 [] [] ⟨false, []⟩
        = .ok (sampleNisEntry,
            ⟨false, [] ++ (before ++ uint32LE (persistedDelta sampleNisEntry._field_48 5)
              ++ after)⟩)) ∧
    persistedDelta sampleNisEntry._field_48 5 = sampleNisEntry._field_48 - 5 ∧
    persistedDelta sampleNisEntry._field_48 5 ≤ 0x8000000 :=
  ⟨by decide, by decide, by decide,
    (C13_persisted_delta sampleConstants 5 [] [] sampleNisEntry [] (by decide) (by decide)
      (by decide) (by decide) (by decide) (by decide)).1 (by decide),
    (C13_persisted_delta sampleConstants 5 [] [] sampleNisEntry [] (by decide) (by decide)
      (by decide) (by decide) (by decide) (by decide)).2.2.2.1 (by decide) (by decide),
    (C13_persisted_delta sampleConstants 5 [] [] sampleNisEntry [] (by decide) (by decide)
      (by decide) (by decide) (by decide) (by decide)).2.2.2.2.2⟩

/-- C15 as the claim states it fails: a link open on a pool whose only entry holds
kSoundType7 demotes that entry to kSoundType8 and leaves its status as it was, with the
fading flag clear. -/
theorem C15_counterexample :
    sampleLinkQueue._soundList.map (fun e => (e._type, e._status)) = [(7, 0x3000810)] ∧
    ((SoundEntry.new sampleConstants).open sampleConstants sampleArchive sampleLinkQueue
        [65] 0x3000010 30).1._soundList.map
        (fun e => (e._type, e._status, e._status &&& sampleConstants.kSoundFlagFading))
      = [(8, 0x3000810, 0)] := by
  decide

/-- C15, amended: when an ambient open finds a holder of kSoundType1, or a walla open a
holder of kSoundType3, the entry at that position on return is exactly the entry found
there with the paired type assigned and update(0) applied to it, so that its fading flag
is set (for the ambient open the entry found is the one of the pool after the update of
the kSoundType2 holder, which is the entry of the original pool when kSoundType1 and
kSoundType2 differ); when a link, NIS, intro or menu open finds a holder of the type it
looks up, that entry gets the paired type and nothing else: its status and
pending-volume field are those it had, update is not called. -/
theorem C15_demoted_entry_update (K : SoundConstants) (hK : K.LabelsDistinct)
    (hF : K.kSoundFlagFading ≠ 0) (getArchive : List Nat → Option Nat) (q : SoundQueue)
    (self : SoundEntry) (name : List Nat) (flag priority : Nat) (i : Nat) :
    (flag &&& K.kSoundTypeMask = K.kSoundTypeAmbient → q.getEntry K.kSoundType1 = some i →
      ∃ p0 : SoundEntry, ((q.ambientFirst K)._soundList)[i]? = some p0 ∧
        (K.kSoundType1 ≠ K.kSoundType2 → (q._soundList)[i]? = some p0) ∧
        ((self.open K getArchive q name flag priority).1._soundList)[i]?
          = some ((p0.setTypeTo K.kSoundType2).update K q._flag 0) ∧
        ((p0.setTypeTo K.kSoundType2).update K q._flag 0)._type = K.kSoundType2 ∧
        ((p0.setTypeTo K.kSoundType2).update K q._flag 0)._status
          &&& K.kSoundFlagFading ≠ 0) ∧
    (flag &&& K.kSoundTypeMask = K.kSoundTypeWalla → q.getEntry K.kSoundType3 = some i →
      ∃ p0 : SoundEntry, (q._soundList)[i]? = some p0 ∧
        ((self.open K getArchive q name flag priority).1._soundList)[i]?
          = some ((p0.setTypeTo K.kSoundType4).update K q._flag 0) ∧
        ((p0.setTypeTo K.kSoundType4).update K q._flag 0)._type = K.kSoundType4 ∧
        ((p0.setTypeTo K.kSoundType4).update K q._flag 0)._status
          &&& K.kSoundFlagFading ≠ 0) ∧
    (∀ cat active inactive : Nat,
      (cat, active, inactive) ∈
        [(K.kSoundTypeLink, K.kSoundType7, K.kSoundType8),
         (K.kSoundTypeNIS, K.kSoundType9, K.kSoundType10),
         (K.kSoundTypeIntro, K.kSoundType11, K.kSoundType14),
         (K.kSoundTypeMenu, K.kSoundType13, K.kSoundType14)] →
      flag &&& K.kSoundTypeMask = cat → q.getEntry active = some i →
      ∃ p : SoundEntry, (q._soundList)[i]? = some p ∧
        ((self.open K getArchive q name flag priority).1._soundList)[i]?
          = some { p with _type := inactive }) := by
  rw [SoundEntry.open_queue]
  refine ⟨?_, ?_, ?_⟩
  · intro hflag hi
    rw [SoundEntry.setType_ambient K q _ flag hflag]
    have hg : (q.ambientFirst K).getEntry K.kSoundType1 = some i :=
      (SoundQueue.getEntry_congr _ _ (SoundQueue.ambientFirst_types K q) _).trans hi
    obtain ⟨p, hp, _⟩ := SoundQueue.getEntry_some_getElem? _ _ _ hg
    obtain ⟨p1, hp1, ht1⟩ := SoundQueue.getEntry_some_getElem? _ _ _ hi
    refine ⟨p, hp, ?_, ?_, ?_, ?_⟩
    · intro hne
      rw [← hp, SoundQueue.ambientFirst_getElem?]
      cases h2 : q.getEntry K.kSoundType2 with
      | none => rfl
      | some i2 =>
        obtain ⟨p2, hp2, ht2⟩ := SoundQueue.getEntry_some_getElem? _ _ _ h2
        have hii : i ≠ i2 := by
          intro hEq
          rw [hEq, hp2] at hp1
          cases hp1
          exact hne (ht1.symm.trans ht2)
        simp only [if_neg hii]
    · rw [SoundQueue.demote_getElem?_of_some K _ _ _ _ i hg i]
      simp [hp, SoundQueue.ambientFirst_flag]
    · rw [SoundEntry.update_type]; rfl
    · exact SoundEntry.update_zero_sets_fading K hF _ _
  · intro hflag hi
    rw [SoundEntry.setType_walla K hK q _ flag hflag]
    obtain ⟨p, hp, _⟩ := SoundQueue.getEntry_some_getElem? _ _ _ hi
    refine ⟨p, hp, ?_, ?_, ?_⟩
    · rw [SoundQueue.demote_getElem?_of_some K _ _ _ _ i hi i]
      simp [hp]
    · rw [SoundEntry.update_type]; rfl
    · exact SoundEntry.update_zero_sets_fading K hF _ _
  · intro cat active inactive hcat hflag hi
    simp only [List.mem_cons, Prod.mk.injEq, List.mem_singleton, List.not_mem_nil,
      or_false] at hcat
    obtain ⟨p, hp, _⟩ := SoundQueue.getEntry_some_getElem? _ _ _ hi
    refine ⟨p, hp, ?_⟩
    rcases hcat with h | h | h | h <;> obtain ⟨rfl, rfl, rfl⟩ := h
    · rw [SoundEntry.setType_link K hK q _ flag hflag,
        SoundQueue.demote_getElem?_of_some K _ _ _ _ i hi i]
      simp [hp, SoundEntry.setTypeTo]
    · rw [SoundEntry.setType_nis K hK q _ flag hflag,
        SoundQueue.demote_getElem?_of_some K _ _ _ _ i hi i]
      simp [hp, SoundEntry.setTypeTo]
    · rw [SoundEntry.setType_intro K hK q _ flag hflag,
        SoundQueue.demote_getElem?_of_some K _ _ _ _ i hi i]
      simp [hp, SoundEntry.setTypeTo]
    · rw [SoundEntry.setType_menu K hK q _ flag hflag,
        SoundQueue.demote_getElem?_of_some K _ _ _ _ i hi i]
      simp [hp, SoundEntry.setTypeTo]

/-- C15 amended, run on an ambient open after one ambient open. -/
theorem C15_demoted_entry_update_witness :
    ((SoundQueue.empty 16 0).openAll sampleConstants sampleArchive
      [sampleAmbientRequest]).getEntry sampleConstants.kSoundType1 = some 0 ∧
    ∃ p0 : SoundEntry,
      ((((SoundQueue.empty 16 0).openAll sampleConstants sampleArchive
        [sampleAmbientRequest]).ambientFirst sampleConstants)._soundList)[0]? = some p0 ∧
      (sampleConstants.kSoundType1 ≠ sampleConstants.kSoundType2 →
        (((SoundQueue.empty 16 0).openAll sampleConstants sampleArchive
          [sampleAmbientRequest])._soundList)[0]? = some p0) ∧
      (((SoundEntry.new sampleConstants).open sampleConstants sampleArchive
        ((SoundQueue.empty 16 0).openAll sampleConstants sampleArchive
          [sampleAmbientRequest]) [66] 0x1000010 30).1._soundList)[0]?
        = some ((p0.setTypeTo sampleConstants.kSoundType2).update sampleConstants
            ((SoundQueue.empty 16 0).openAll sampleConstants sampleArchive
              [sampleAmbientRequest])._flag 0) ∧
      ((p0.setTypeTo sampleConstants.kSoundType2).update sampleConstants
          ((SoundQueue.empty 16 0).openAll sampleConstants sampleArchive
            [sampleAmbientRequest])._flag 0)._type = sampleConstants.kSoundType2 ∧
      ((p0.setTypeTo sampleConstants.kSoundType2).update sampleConstants
          ((SoundQueue.empty 16 0).openAll sampleConstants sampleArchive
            [sampleAmbientRequest])._flag 0)._status
        &&& sampleConstants.kSoundFlagFading ≠ 0 :=
  ⟨by decide,
    (C15_demoted_entry_update sampleConstants (by decide) (by decide) sampleArchive
      ((SoundQueue.empty 16 0).openAll sampleConstants sampleArchive [sampleAmbientRequest])
      (SoundEntry.new sampleConstants) [66] 0x1000010 30 0).1 (by decide) (by decide)⟩

/-- C16 as the claim states it fails: an ambient open on a pool without a holder of
kSoundType1 whose only entry holds kSoundType2 changes that entry: its status gains
volume-changing and fading and its pending-volume field goes from 5 to 0. -/
theorem C16_counterexample :
    sampleDemotedAmbientQueue.getEntry sampleConstants.kSoundType1 = none ∧
    sampleDemotedAmbientQueue._soundList.map (fun e => (e._type, e._status, e._field_3C))
      = [(2, 0x1000810, 5)] ∧
    ((SoundEntry.new sampleConstants).open sampleConstants sampleArchive
        sampleDemotedAmbientQueue [65] 0x1000010 30).1._soundList.map
        (fun e => (e._type, e._status, e._field_3C))
      = [(2, 0x1300810, 0)] := by
  decide

/-- C16, amended: a walla, link, NIS, intro or menu open on a pool without a holder of
the type it looks up leaves the coordinator and every pool entry as they were; an
ambient open on a pool without a holder of kSoundType1 changes no type and leaves every
entry as it was except the first holder of kSoundType2, if there is one, which receives
update(0). -/
theorem C16_no_holder_no_demotion (K : SoundConstants) (hK : K.LabelsDistinct)
    (getArchive : List Nat → Option Nat) (q : SoundQueue) (self : SoundEntry)
    (name : List Nat) (flag priority : Nat) :
    (∀ cat active : Nat,
      (cat, active) ∈
        [(K.kSoundTypeWalla, K.kSoundType3), (K.kSoundTypeLink, K.kSoundType7),
         (K.kSoundTypeNIS, K.kSoundType9), (K.kSoundTypeIntro, K.kSoundType11),
         (K.kSoundTypeMenu, K.kSoundType13)] →
      flag &&& K.kSoundTypeMask = cat → q.getEntry active = none →
      (self.open K getArchive q name flag priority).1 = q) ∧
    (flag &&& K.kSoundTypeMask = K.kSoundTypeAmbient → q.getEntry K.kSoundType1 = none →
      (self.open K getArchive q name flag priority).1._soundList.map (·._type)
        = q._soundList.map (·._type) ∧
      (q.getEntry K.kSoundType2 = none →
        (self.open K getArchive q name flag priority).1 = q) ∧
      (∀ i : Nat, q.getEntry K.kSoundType2 = some i → ∀ j : Nat,
        ((self.open K getArchive q name flag priority).1._soundList)[j]?
          = if j = i then ((q._soundList)[j]?).map (fun p => p.update K q._flag 0)
            else (q._soundList)[j]?)) := by
  rw [SoundEntry.open_queue]
  constructor
  · intro cat active hcat hflag hn
    simp only [List.mem_cons, Prod.mk.injEq, List.mem_singleton, List.not_mem_nil,
      or_false] at hcat
    rcases hcat with h | h | h | h | h <;> obtain ⟨rfl, rfl⟩ := h
    · rw [SoundEntry.setType_walla K hK q _ flag hflag, SoundQueue.demote_of_none K q _ _ _ hn]
    · rw [SoundEntry.setType_link K hK q _ flag hflag, SoundQueue.demote_of_none K q _ _ _ hn]
    · rw [SoundEntry.setType_nis K hK q _ flag hflag, SoundQueue.demote_of_none K q _ _ _ hn]
    · rw [SoundEntry.setType_intro K hK q _ flag hflag, SoundQueue.demote_of_none K q _ _ _ hn]
    · rw [SoundEntry.setType_menu K hK q _ flag hflag, SoundQueue.demote_of_none K q _ _ _ hn]
  · intro hflag hn
    have hg : (q.ambientFirst K).getEntry K.kSoundType1 = none :=
      (SoundQueue.getEntry_congr _ _ (SoundQueue.ambientFirst_types K q) _).trans hn
    rw [SoundEntry.setType_ambient K q _ flag hflag, SoundQueue.demote_of_none K _ _ _ _ hg]
    refine ⟨SoundQueue.ambientFirst_types K q, ?_, ?_⟩
    · intro h2
      simp [SoundQueue.ambientFirst, h2]
    · intro i h2 j
      rw [SoundQueue.ambientFirst_getElem?, h2]

/-- C16 amended, run on a walla open on an empty pool. -/
theorem C16_no_holder_no_demotion_witness :
    (SoundQueue.empty 16 0).getEntry sampleConstants.kSoundType3 = none ∧
    ((SoundEntry.new sampleConstants).open sampleConstants sampleArchive
      (SoundQueue.empty 16 0) [65] 0x2000010 30).1 = SoundQueue.empty 16 0 :=
  ⟨by decide,
    (C16_no_holder_no_demotion sampleConstants (by decide) sampleArchive
      (SoundQueue.empty 16 0) (SoundEntry.new sampleConstants) [65] 0x2000010 30).1
      sampleConstants.kSoundTypeWalla sampleConstants.kSoundType3 (by simp) (by decide)
      (by decide)⟩

/-- C17: for a non-zero flag that fits inside the volume mask and a 32-bit status: in
variant mode (coordinator flag bit 0x20) on an entry whose type is neither kSoundType9
nor kSoundType7, updateEntryFlag(flag) is update(flag); otherwise only the status
changes, its volume bits become flag and its bits outside kSoundVolumeMask stay. -/
theorem C17_updateEntryFlag_nonzero (K : SoundConstants) (queueFlag : Nat) (e : SoundEntry)
    (flag : Nat) (hnz : flag ≠ 0) (hf : flag < 2 ^ 32) (hs : e._status < 2 ^ 32)
    (hfit : flag &&& bitNot32 K.kSoundVolumeMask = 0) :
    ((queueFlag &&& 0x20 ≠ 0 ∧ e._type ≠ K.kSoundType9 ∧ e._type ≠ K.kSoundType7) →
      e.updateEntryFlag K queueFlag flag = e.update K queueFlag flag) ∧
    (¬ (queueFlag &&& 0x20 ≠ 0 ∧ e._type ≠ K.kSoundType9 ∧ e._type ≠ K.kSoundType7) →
      ∃ status : Nat,
        e.updateEntryFlag K queueFlag flag = { e with _status := status } ∧
        status &&& K.kSoundVolumeMask = flag ∧
        status &&& bitNot32 K.kSoundVolumeMask
          = e._status &&& bitNot32 K.kSoundVolumeMask) := by
  obtain ⟨v1, v2, v3⟩ := volume_overwrite flag e._status K.kSoundVolumeMask hf hs hfit
  constructor
  · intro hc
    unfold SoundEntry.updateEntryFlag
    rw [if_pos hnz, if_pos hc]
  · intro hc
    refine ⟨(flag + (e._status &&& bitNot32 K.kSoundVolumeMask)) % 2 ^ 32, ?_, ?_, ?_⟩
    · unfold SoundEntry.updateEntryFlag
      rw [if_pos hnz, if_neg hc]
    · rw [v1]; exact v2
    · rw [v1]; exact v3

/-- C17, run on volume 5 written over an entry at volume 0x10, outside variant mode. -/
theorem C17_updateEntryFlag_nonzero_witness :
    (5 : Nat) &&& bitNot32 sampleConstants.kSoundVolumeMask = 0 ∧
    ∃ status : Nat,
      sampleEntityEntry.updateEntryFlag sampleConstants 0 5
        = { sampleEntityEntry with _status := status } ∧
      status &&& sampleConstants.kSoundVolumeMask = 5 ∧
      status &&& bitNot32 sampleConstants.kSoundVolumeMask
        = sampleEntityEntry._status &&& bitNot32 sampleConstants.kSoundVolumeMask :=
  ⟨by decide,
    (C17_updateEntryFlag_nonzero sampleConstants 0 sampleEntityEntry 5 (by decide)
      (by decide) (by decide) (by decide)).2 (by decide)⟩

/-- C18 as the claim states it fails: in variant mode update(0x40000000) leaves
-2147483647 in the pending-volume field, the 32-bit value of val * 2 + 1 stored in an
int, and not 2 * 0x40000000 + 1; update(0x80000000) leaves 1 there and -2147483648, not
0x80000000, in the variant field. -/
theorem C18_counterexample :
    (SoundEntry.new sampleConstants)._status &&& sampleConstants.kSoundFlagFading = 0 ∧
    ((SoundEntry.new sampleConstants).update sampleConstants 0x20 0x40000000)._field_3C
      = -2147483647 ∧
    ((SoundEntry.new sampleConstants).update sampleConstants 0x20 0x40000000)._field_3C
      ≠ 2 * 0x40000000 + 1 ∧
    ((SoundEntry.new sampleConstants).update sampleConstants 0x20 0x80000000)._field_3C = 1 ∧
    ((SoundEntry.new sampleConstants).update sampleConstants 0x20 0x80000000)._variant
      = -2147483648 ∧
    ((SoundEntry.new sampleConstants).update sampleConstants 0x20 0x80000000)._variant
      ≠ 0x80000000 := by
  decide

/-- C18, amended: on an entry whose fading flag is clear, update(v) with v non-zero sets
volume-changing and leaves fading clear; in variant mode (coordinator flag bit 0x20) the
pending-volume field is 2*v + 1 reduced modulo 2^32 and read as a signed 32-bit value,
which is 2*v + 1 when v < 2^30, and the variant field is v read as a signed 32-bit
value, which is v when v < 2^31; outside variant mode the pending-volume field is v read
as a signed 32-bit value, which is v when v < 2^31, and the variant field is
unchanged. -/
theorem C18_update_nonzero (K : SoundConstants)
    (hVF : K.kSoundFlagVolumeChanging &&& K.kSoundFlagFading = 0)
    (queueFlag : Nat) (e : SoundEntry) (v : Nat)
    (hclear : e._status &&& K.kSoundFlagFading = 0) (hv : v ≠ 0) :
    (e.update K queueFlag v)._status &&& K.kSoundFlagVolumeChanging
      = K.kSoundFlagVolumeChanging ∧
    (e.update K queueFlag v)._status &&& K.kSoundFlagFading = 0 ∧
    (queueFlag &&& 0x20 ≠ 0 →
      (e.update K queueFlag v)._field_3C = toInt32 ((2 * v + 1) % 2 ^ 32) ∧
      (v < 2 ^ 30 → (e.update K queueFlag v)._field_3C = 2 * (v : Int) + 1) ∧
      (e.update K queueFlag v)._variant = toInt32 v ∧
      (v < 2 ^ 31 → (e.update K queueFlag v)._variant = (v : Int))) ∧
    (queueFlag &&& 0x20 = 0 →
      (e.update K queueFlag v)._field_3C = toInt32 v ∧
      (v < 2 ^ 31 → (e.update K queueFlag v)._field_3C = (v : Int)) ∧
      (e.update K queueFlag v)._variant = e._variant) := by
  have hst : (e.update K queueFlag v)._status = e._status ||| K.kSoundFlagVolumeChanging := by
    unfold SoundEntry.update
    by_cases hq : queueFlag &&& 32 = 0 <;> simp [hclear, hv, hq]
  have hsmall : ∀ w : Nat, w < 2 ^ 31 → toInt32 w = (w : Int) := by
    intro w hw
    unfold toInt32
    have hm : w % 2 ^ 32 = w := Nat.mod_eq_of_lt (by omega)
    rw [hm, if_pos hw]
  refine ⟨?_, ?_, ?_, ?_⟩
  · rw [hst]; exact or_and_right_self _ _
  · rw [hst]; exact or_and_of_and_eq_zero _ _ _ hclear hVF
  · intro hq
    have hf : (e.update K queueFlag v)._field_3C = toInt32 ((2 * v + 1) % 2 ^ 32) := by
      unfold SoundEntry.update
      simp [hclear, hv, hq, Nat.mul_comm]
    have hvar : (e.update K queueFlag v)._variant = toInt32 v := by
      unfold SoundEntry.update
      simp [hclear, hv, hq]
    refine ⟨hf, ?_, hvar, ?_⟩
    · intro hlt
      have hm : (2 * v + 1) % 2 ^ 32 = 2 * v + 1 := Nat.mod_eq_of_lt (by omega)
      rw [hf, hm, hsmall _ (by omega)]
      push_cast
      rfl
    · intro hlt
      rw [hvar, hsmall _ hlt]
  · intro hq
    have hf : (e.update K queueFlag v)._field_3C = toInt32 v := by
      unfold SoundEntry.update
      simp [hclear, hv, hq]
    refine ⟨hf, ?_, ?_⟩
    · intro hlt
      rw [hf, hsmall _ hlt]
    · unfold SoundEntry.update
      simp [hclear, hv, hq]

/-- C18 amended, run on update(5) in variant mode on a newly constructed entry. -/
theorem C18_update_nonzero_witness :
    sampleConstants.kSoundFlagVolumeChanging &&& sampleConstants.kSoundFlagFading = 0 ∧
    (SoundEntry.new sampleConstants)._status &&& sampleConstants.kSoundFlagFading = 0 ∧
    ((SoundEntry.new sampleConstants).update sampleConstants 0x20 5)._field_3C
      = 2 * ((5 : Nat) : Int) + 1 ∧
    ((SoundEntry.new sampleConstants).update sampleConstants 0x20 5)._variant
      = ((5 : Nat) : Int) :=
  ⟨by decide, by decide,
    ((C18_update_nonzero sampleConstants (by decide) 0x20 (SoundEntry.new sampleConstants) 5
      (by decide) (by decide)).2.2.1 (by decide)).2.1 (by decide),
    ((C18_update_nonzero sampleConstants (by decide) 0x20 (SoundEntry.new sampleConstants) 5
      (by decide) (by decide)).2.2.1 (by decide)).2.2.2 (by decide)⟩

/-- C19 as the claim states it fails: for the two-character name "AB" the first n - 4
characters are none, but updateSound hands the whole name to showSubtitle: the subtitle
it creates is backed by "AB.SBE". -/
theorem C19_counterexample :
    sampleDelayedEntry._name2.take (sampleDelayedEntry._name2.length - 4) = [] ∧
    ∃ (q : SoundQueue) (r : SoundEntry) (fx : List Effect),
      sampleDelayedEntry.updateSound sampleConstants 0 (fun _ => 0) (fun _ => true) 100 200
          (SoundQueue.empty 16 0)
        = .ok (true, q, r, fx) ∧
      r._subtitle.map (·._filename) = some [65, 66, 46, 83, 66, 69] :=
  ⟨by decide, _, _, _, rfl, by decide⟩

/-- C19, amended: for a non-closed entry with delayed-activate set, a secondary name of
fewer than 16 bytes and a clock that has reached _field_48, updateSound returns true
after setting play-requested, clearing delayed-activate and calling showSubtitle with
the stored name cut to its first n - 4 characters when it has more than four characters,
and with the whole name when it has at most four; on return delayed-activate is clear
and play-requested is set. (A name of 16 bytes does not fit the local sub[16] with its
terminator.) -/
theorem C19_delayed_activation (K : SoundConstants)
    (hPR : K.kSoundFlagPlayRequested < 2 ^ 32) (hDA : K.kSoundFlagDelayedActivate < 2 ^ 32)
    (hPD : K.kSoundFlagPlayRequested &&& K.kSoundFlagDelayedActivate = 0)
    (hHD : K.kSoundFlagHasSubtitles &&& K.kSoundFlagDelayedActivate = 0)
    (data2 : Nat) (getSoundFlag : Nat → Nat) (hasFile : List Nat → Bool)
    (subAddr thisAddr : Nat) (q : SoundQueue) (e : SoundEntry)
    (hn : e._name2.length < 16)
    (hclosed : e._status &&& K.kSoundFlagClosed = 0)
    (hdelayed : e._status &&& K.kSoundFlagDelayedActivate ≠ 0)
    (hclock : e._field_48 ≤ data2) :
    ∃ (q1 : SoundQueue) (r : SoundEntry) (fx : List Effect),
      e.updateSound K data2 getSoundFlag hasFile subAddr thisAddr q = .ok (true, q1, r, fx) ∧
      (q1, r, fx)
        = (e.activate K).showSubtitle K hasFile subAddr thisAddr q
            (if 4 < (cstr e._name2).length
              then (cstr e._name2).take ((cstr e._name2).length - 4)
              else cstr e._name2) ∧
      r._status &&& K.kSoundFlagDelayedActivate = 0 ∧
      r._status &&& K.kSoundFlagPlayRequested = K.kSoundFlagPlayRequested := by
  obtain ⟨b1, b2⟩ := set_then_clear e._status K.kSoundFlagPlayRequested
    K.kSoundFlagDelayedActivate hPR hDA hPD
  have hact : (e.activate K)._status
      = (e._status ||| K.kSoundFlagPlayRequested) &&& bitNot32 K.kSoundFlagDelayedActivate :=
    rfl
  have hfit : (cstr e._name2).length < 16 :=
    Nat.lt_of_le_of_lt (cstr_length_le _) hn
  have hu := SoundEntry.updateSound_delayed K data2 getSoundFlag hasFile subAddr thisAddr q e
    (Nat.le_of_lt hn) hfit hclosed hdelayed hclock
  have hst := SoundEntry.showSubtitle_status K hasFile subAddr thisAddr q (e.activate K)
    (if 4 < (cstr e._name2).length
      then (cstr e._name2).take ((cstr e._name2).length - 4)
      else cstr e._name2)
  rw [hact] at hst
  refine ⟨_, _, _, hu, rfl, ?_, ?_⟩
  · rcases hst with h | h
    · rw [h]; exact b1
    · rw [h]; exact or_and_of_and_eq_zero _ _ _ b1 hHD
  · rcases hst with h | h
    · rw [h]; exact b2
    · rw [h]; exact or_and_of_and_eq _ _ _ b2

/-- C19 amended, run on the delayed entry "NISSND1.SND" with the clock at 0. -/
theorem C19_delayed_activation_witness :
    sampleDelayedNisEntry._name2.length < 16 ∧
    sampleDelayedNisEntry._status &&& sampleConstants.kSoundFlagDelayedActivate ≠ 0 ∧
    ∃ (q1 : SoundQueue) (r : SoundEntry) (fx : List Effect),
      sampleDelayedNisEntry.updateSound sampleConstants 0 (fun _ => 0) (fun _ => true)
          100 200 (SoundQueue.empty 16 0) = .ok (true, q1, r, fx) ∧
      (q1, r, fx)
        = (sampleDelayedNisEntry.activate sampleConstants).showSubtitle sampleConstants
            (fun _ => true) 100 200 (SoundQueue.empty 16 0)
            (if 4 < (cstr sampleDelayedNisEntry._name2).length
              then (cstr sampleDelayedNisEntry._name2).take
                ((cstr sampleDelayedNisEntry._name2).length - 4)
              else cstr sampleDelayedNisEntry._name2) ∧
      r._status &&& sampleConstants.kSoundFlagDelayedActivate = 0 ∧
      r._status &&& sampleConstants.kSoundFlagPlayRequested
        = sampleConstants.kSoundFlagPlayRequested :=
  ⟨by decide, by decide,
    C19_delayed_activation sampleConstants (by decide) (by decide) (by decide) (by decide)
      0 (fun _ => 0) (fun _ => true) 100 200 (SoundQueue.empty 16 0) sampleDelayedNisEntry
      (by decide) (by decide) (by decide) (by decide)⟩

/-- C20 as the claim states it fails: an entry of the player category (entity 0, below
0x80) is left unchanged by updateSound although updateEntryFlag with the category's
volume 5 would change its status; and an entry whose secondary name has 17 bytes does
not return true, the call ends in the assert. -/
theorem C20_counterexample :
    samplePlayerEntry._entity < 0x80 ∧
    samplePlayerEntry.updateSound sampleConstants 0 (fun _ => 5) (fun _ => true) 100 200
        (SoundQueue.empty 16 0)
      = .ok (true, SoundQueue.empty 16 0, samplePlayerEntry, []) ∧
    samplePlayerEntry.updateEntryFlag sampleConstants 0 5 ≠ samplePlayerEntry ∧
    sampleOverlongEntry.updateSound sampleConstants 0 (fun _ => 5) (fun _ => true) 100 200
        (SoundQueue.empty 16 0)
      = .error "assert(_name2.size() <= 16)" :=
  ⟨by decide, rfl, by decide, rfl⟩

/-- C20, amended: for an entry that is not closed and not delayed-activate and whose
secondary name has at most 16 bytes: if coordinator flag bit 0x20 is clear, the entry
does not have fixed-volume and its category (entity) is non-zero and below 0x80, then
updateSound returns true and leaves the entry in the state updateEntryFlag(v) produces,
v being the collaborator's volume flag for that category; if any of these conditions
fails, updateSound returns true and leaves the entry unchanged. The coordinator is
unchanged and no collaborator is called in both cases. -/
theorem C20_volume_tick (K : SoundConstants) (data2 : Nat) (getSoundFlag : Nat → Nat)
    (hasFile : List Nat → Bool) (subAddr thisAddr : Nat) (q : SoundQueue) (e : SoundEntry)
    (hn : e._name2.length ≤ 16)
    (hclosed : e._status &&& K.kSoundFlagClosed = 0)
    (hdelayed : e._status &&& K.kSoundFlagDelayedActivate = 0) :
    ((q._flag &&& 0x20 = 0 ∧ e._status &&& K.kSoundFlagFixedVolume = 0
        ∧ e._entity ≠ 0 ∧ e._entity < 0x80) →
      e.updateSound K data2 getSoundFlag hasFile subAddr thisAddr q
        = .ok (true, q, e.updateEntryFlag K q._flag (getSoundFlag e._entity), [])) ∧
    (¬ (q._flag &&& 0x20 = 0 ∧ e._status &&& K.kSoundFlagFixedVolume = 0
        ∧ e._entity ≠ 0 ∧ e._entity < 0x80) →
      e.updateSound K data2 getSoundFlag hasFile subAddr thisAddr q
        = .ok (true, q, e, [])) := by
  constructor
  · rintro ⟨c1, c2, c3, c4⟩
    unfold SoundEntry.updateSound
    simp only [hn, not_true_eq_false, if_false, hclosed, ne_eq, hdelayed, if_true, c1, c2,
      c3, not_false_eq_true, c4]
  · intro hc
    unfold SoundEntry.updateSound
    simp only [hn, not_true_eq_false, if_false, hclosed, ne_eq, hdelayed]
    by_cases c1 : q._flag &&& 0x20 = 0
    · by_cases c2 : e._status &&& K.kSoundFlagFixedVolume = 0
      · by_cases c3 : e._entity = 0
        · simp [c1, c2, c3]
        · by_cases c4 : e._entity < 0x80
          · exact absurd ⟨c1, c2, c3, c4⟩ hc
          · simp [c1, c2, c3, c4]
      · simp [c1, c2]
    · simp [c1]

/-- C20 amended, run on an entry of category 3 with category volume 5. -/
theorem C20_volume_tick_witness :
    sampleEntityEntry._name2.length ≤ 16 ∧
    sampleEntityEntry._entity ≠ 0 ∧ sampleEntityEntry._entity < 0x80 ∧
    sampleEntityEntry.updateSound sampleConstants 0 (fun _ => 5) (fun _ => true) 100 200
        (SoundQueue.empty 16 0)
      = .ok (true, SoundQueue.empty 16 0,
          sampleEntityEntry.updateEntryFlag sampleConstants (SoundQueue.empty 16 0)._flag
            ((fun _ => 5) sampleEntityEntry._entity), []) :=
  ⟨by decide, by decide, by decide,
    (C20_volume_tick sampleConstants 0 (fun _ => 5) (fun _ => true) 100 200
      (SoundQueue.empty 16 0) sampleEntityEntry (by decide) (by decide) (by decide)).1
      ⟨by decide, by decide, by decide, by decide⟩⟩

/-- C21: close() sets close-requested, and after the final draw of an attached subtitle
it signals by category: steam restarts looping sound 2 and pushes no event; a category
other than player, steam and train pushes exactly one end-of-sound event from the player
to that category; player and train signal nothing. -/
theorem C21_close_signals (K : SoundConstants) (hP : K.kEntityPlayer = 0)
    (hS : K.kEntitySteam ≠ 0) (hST : K.kEntitySteam ≠ K.kEntityTrain)
    (q : SoundQueue) (e : SoundEntry) :
    (e.close K q).2.1._status &&& K.kSoundFlagCloseRequested = K.kSoundFlagCloseRequested ∧
    ∃ drawFx : List Effect,
      (∀ x, x ∈ drawFx → ∃ a, x = Effect.graphicsDraw a) ∧
      (e._entity = K.kEntitySteam →
        (e.close K q).2.2 = drawFx ++ [Effect.playLoopingSound 2]) ∧
      (e._entity ≠ K.kEntityPlayer → e._entity ≠ K.kEntitySteam →
        e._entity ≠ K.kEntityTrain →
        (e.close K q).2.2
          = drawFx ++ [Effect.savePointsPush K.kEntityPlayer e._entity K.kActionEndSound]) ∧
      ((e._entity = K.kEntityPlayer ∨ e._entity = K.kEntityTrain) →
        (e.close K q).2.2 = drawFx) := by
  constructor
  · rw [(SoundEntry.close_fields K q e).2.1]
    exact or_and_right_self _ _
  · cases hsub : e._subtitle with
    | none =>
      refine ⟨[], by simp, ?_, ?_, ?_⟩
      · intro h1
        simp [SoundEntry.close, hsub, h1, hS]
      · intro h1 h2 h3
        rw [hP] at h1
        simp [SoundEntry.close, hsub, h1, h2, h3]
      · rintro (h1 | h1)
        · rw [hP] at h1
          simp [SoundEntry.close, hsub, h1]
        · have h2 : ¬ K.kEntityTrain = K.kEntitySteam := fun h => hST h.symm
          simp [SoundEntry.close, hsub, h1, h2]
    | some sub =>
      refine ⟨(sub.draw q).2, ?_, ?_, ?_, ?_⟩
      · intro x hx
        exact ⟨_, SubtitleEntry.draw_effects sub q x hx⟩
      · intro h1
        simp [SoundEntry.close, hsub, h1, hS]
      · intro h1 h2 h3
        rw [hP] at h1
        simp [SoundEntry.close, hsub, h1, h2, h3]
      · rintro (h1 | h1)
        · rw [hP] at h1
          simp [SoundEntry.close, hsub, h1]
        · have h2 : ¬ K.kEntityTrain = K.kEntitySteam := fun h => hST h.symm
          simp [SoundEntry.close, hsub, h1, h2]

/-- C21, run on an entry of the steam category without subtitle. -/
theorem C21_close_signals_witness :
    sampleConstants.kEntityPlayer = 0 ∧
    sampleSteamEntry._entity = sampleConstants.kEntitySteam ∧
    (sampleSteamEntry.close sampleConstants (SoundQueue.empty 16 0)).2.1._status
        &&& sampleConstants.kSoundFlagCloseRequested
      = sampleConstants.kSoundFlagCloseRequested ∧
    ∃ drawFx : List Effect,
      (∀ x, x ∈ drawFx → ∃ a, x = Effect.graphicsDraw a) ∧
      (sampleSteamEntry._entity = sampleConstants.kEntitySteam →
        (sampleSteamEntry.close sampleConstants (SoundQueue.empty 16 0)).2.2
          = drawFx ++ [Effect.playLoopingSound 2]) :=
  ⟨by decide, by decide,
    (C21_close_signals sampleConstants (by decide) (by decide) (by decide)
      (SoundQueue.empty 16 0) sampleSteamEntry).1,
    (C21_close_signals sampleConstants (by decide) (by decide) (by decide)
      (SoundQueue.empty 16 0) sampleSteamEntry).2.imp
      (fun _ h => ⟨h.1, h.2.1⟩)⟩

/-- C23: draw() removes the subtitle from the active list (and no other); when the
subtitle is not the coordinator's current subtitle the current-subtitle reference and
the subtitle flag are unchanged and nothing is rendered; when it is, the
current-subtitle reference is empty and the subtitle flag is 0 afterwards. -/
theorem C23_subtitle_draw (sub : SubtitleEntry) (q : SoundQueue) :
    sub.addr ∉ (sub.draw q).1._subtitles ∧
    (sub.draw q).1._subtitles = q._subtitles.filter (fun a => a != sub.addr) ∧
    (q._currentSubtitle ≠ some sub.addr →
      (sub.draw q).1._currentSubtitle = q._currentSubtitle ∧
      (sub.draw q).1._subtitlesFlag = q._subtitlesFlag ∧
      (sub.draw q).2 = []) ∧
    (q._currentSubtitle = some sub.addr →
      (sub.draw q).1._currentSubtitle = none ∧
      (sub.draw q).1._subtitlesFlag = 0) :=
  SubtitleEntry.draw_spec sub q

/-- C23, run on the current subtitle 100 of a coordinator with subtitle flag 3. -/
theorem C23_subtitle_draw_witness :
    sampleSubtitleQueue._currentSubtitle = some sampleSubtitle.addr ∧
    (sampleSubtitle.draw sampleSubtitleQueue).1._subtitles = [101] ∧
    (sampleSubtitle.draw sampleSubtitleQueue).1._currentSubtitle = none ∧
    (sampleSubtitle.draw sampleSubtitleQueue).1._subtitlesFlag = 0 :=
  ⟨rfl, (C23_subtitle_draw sampleSubtitle sampleSubtitleQueue).2.1,
    ((C23_subtitle_draw sampleSubtitle sampleSubtitleQueue).2.2.2 rfl).1,
    ((C23_subtitle_draw sampleSubtitle sampleSubtitleQueue).2.2.2 rfl).2⟩

/-- C24: load registers the subtitle in the active list and sets its backing filename to
filename + ".SBE"; when that file does not exist the subtitle's status becomes closed,
no data is loaded and the subtitle flag and current subtitle are unchanged; when it
exists and the subtitle flag has the bit of value 2 set, no data is loaded and flag and
current subtitle are unchanged; when it exists and that bit is clear, the data is
loaded, the bit is set and this subtitle becomes the current subtitle. -/
theorem C24_subtitle_load (K : SoundConstants) (hasFile : List Nat → Bool)
    (sub : SubtitleEntry) (q : SoundQueue) (filename : List Nat) (soundEntry : Nat) :
    (sub.load K hasFile q filename soundEntry).1._filename = filename ++ sbeSuffix ∧
    (sub.load K hasFile q filename soundEntry).2._subtitles = q._subtitles ++ [sub.addr] ∧
    sub.addr ∈ (sub.load K hasFile q filename soundEntry).2._subtitles ∧
    (hasFile (filename ++ sbeSuffix) = false →
      (sub.load K hasFile q filename soundEntry).1._status = K.kSoundFlagClosed ∧
      (sub.load K hasFile q filename soundEntry).1._data = sub._data ∧
      (sub.load K hasFile q filename soundEntry).2._subtitlesFlag = q._subtitlesFlag ∧
      (sub.load K hasFile q filename soundEntry).2._currentSubtitle = q._currentSubtitle) ∧
    (hasFile (filename ++ sbeSuffix) = true → q._subtitlesFlag &&& 2 ≠ 0 →
      (sub.load K hasFile q filename soundEntry).1._status = sub._status ∧
      (sub.load K hasFile q filename soundEntry).1._data = sub._data ∧
      (sub.load K hasFile q filename soundEntry).2._subtitlesFlag = q._subtitlesFlag ∧
      (sub.load K hasFile q filename soundEntry).2._currentSubtitle = q._currentSubtitle) ∧
    (hasFile (filename ++ sbeSuffix) = true → q._subtitlesFlag &&& 2 = 0 →
      (sub.load K hasFile q filename soundEntry).1._status = sub._status ∧
      (sub.load K hasFile q filename soundEntry).1._data = true ∧
      (sub.load K hasFile q filename soundEntry).2._subtitlesFlag = q._subtitlesFlag ||| 2 ∧
      (sub.load K hasFile q filename soundEntry).2._subtitlesFlag &&& 2 = 2 ∧
      (sub.load K hasFile q filename soundEntry).2._currentSubtitle = some sub.addr) := by
  have hcases : hasFile (filename ++ sbeSuffix) = false
      ∨ (hasFile (filename ++ sbeSuffix) = true ∧ q._subtitlesFlag &&& 2 ≠ 0)
      ∨ (hasFile (filename ++ sbeSuffix) = true ∧ q._subtitlesFlag &&& 2 = 0) := by
    cases hasFile (filename ++ sbeSuffix) with
    | false => exact Or.inl rfl
    | true =>
      by_cases hb : q._subtitlesFlag &&& 2 = 0
      · exact Or.inr (Or.inr ⟨rfl, hb⟩)
      · exact Or.inr (Or.inl ⟨rfl, hb⟩)
  rcases hcases with h | ⟨h, hb⟩ | ⟨h, hb⟩
  · rw [SubtitleEntry.load_missing K hasFile sub q filename soundEntry h]
    refine ⟨rfl, rfl, by simp [SoundQueue.addSubtitle], fun _ => ⟨rfl, rfl, rfl, rfl⟩, ?_, ?_⟩
    · intro h2; rw [h] at h2; cases h2
    · intro h2; rw [h] at h2; cases h2
  · rw [SubtitleEntry.load_present_busy K hasFile sub q filename soundEntry h hb]
    refine ⟨rfl, rfl, by simp [SoundQueue.addSubtitle], ?_, fun _ _ => ⟨rfl, rfl, rfl, rfl⟩, ?_⟩
    · intro h2; rw [h] at h2; cases h2
    · intro _ h3; exact absurd h3 hb
  · rw [SubtitleEntry.load_present_free K hasFile sub q filename soundEntry h hb]
    refine ⟨rfl, rfl, by simp [SoundQueue.addSubtitle], ?_, ?_,
      fun _ _ => ⟨rfl, rfl, rfl, or_and_right_self _ _, rfl⟩⟩
    · intro h2; rw [h] at h2; cases h2
    · intro _ h3; exact absurd hb h3

/-- C24, run on a new subtitle for "A" while "A.SBE" exists and the flag is 0. -/
theorem C24_subtitle_load_witness :
    sampleHasFile ([65] ++ sbeSuffix) = true ∧
    ((SubtitleEntry.new 100).load sampleConstants sampleHasFile (SoundQueue.empty 16 0)
      [65] 200).1._filename = [65] ++ sbeSuffix ∧
    ((SubtitleEntry.new 100).load sampleConstants sampleHasFile (SoundQueue.empty 16 0)
      [65] 200).1._data = true ∧
    ((SubtitleEntry.new 100).load sampleConstants sampleHasFile (SoundQueue.empty 16 0)
      [65] 200).2._currentSubtitle = some 100 :=
  ⟨by decide,
    (C24_subtitle_load sampleConstants sampleHasFile (SubtitleEntry.new 100)
      (SoundQueue.empty 16 0) [65] 200).1,
    ((C24_subtitle_load sampleConstants sampleHasFile (SubtitleEntry.new 100)
      (SoundQueue.empty 16 0) [65] 200).2.2.2.2.2 (by decide) (by decide)).2.1,
    ((C24_subtitle_load sampleConstants sampleHasFile (SubtitleEntry.new 100)
      (SoundQueue.empty 16 0) [65] 200).2.2.2.2.2 (by decide) (by decide)).2.2.2.2⟩

/-- C28: the status setupStatus(f) derives is f with mute-requested added when the
volume bits of f are zero and close-on-data-end added when the looped bit of f is clear;
so an entry opened with a resolvable stream has looped or close-on-data-end set, and has
mute-requested set whenever its volume bits are zero. -/
theorem C28_setupStatus (K : SoundConstants) (hV : K.kVolumeNone = 0)
    (hML : K.kSoundFlagMuteRequested &&& K.kSoundFlagLooped = 0)
    (getArchive : List Nat → Option Nat) (q : SoundQueue) (self : SoundEntry)
    (name : List Nat) (flag priority : Nat) :
    (self.setupStatus K flag)._status
      = (flag ||| (if flag &&& K.kSoundVolumeMask = 0 then K.kSoundFlagMuteRequested else 0))
        ||| (if flag &&& K.kSoundFlagLooped = 0 then K.kSoundFlagCloseOnDataEnd else 0) ∧
    ((getArchive name ≠ none ∨ getArchive defaultSndName ≠ none) →
      (self.open K getArchive q name flag priority).2._status
        = (self.setupStatus K flag)._status ∧
      ((self.open K getArchive q name flag priority).2._status &&& K.kSoundFlagLooped ≠ 0 ∨
        (self.open K getArchive q name flag priority).2._status
            &&& K.kSoundFlagCloseOnDataEnd = K.kSoundFlagCloseOnDataEnd) ∧
      ((self.open K getArchive q name flag priority).2._status &&& K.kSoundVolumeMask = 0 →
        (self.open K getArchive q name flag priority).2._status
            &&& K.kSoundFlagMuteRequested = K.kSoundFlagMuteRequested)) := by
  have hst := SoundEntry.setupStatus_status K hV hML self flag
  refine ⟨hst, ?_⟩
  intro hres
  have hopen : (self.open K getArchive q name flag priority).2._status
      = (self.setupStatus K flag)._status := by
    rw [SoundEntry.open_entry]
    obtain ⟨_, h2, h3, _⟩ := SoundEntry.loadStream_spec K getArchive
      (({ self with _priority := priority }.setType K q flag).2.setupStatus K flag) name
    have hsame : ((({ self with _priority := priority } : SoundEntry).setType K q flag).2.setupStatus
        K flag)._status = (self.setupStatus K flag)._status := by
      simp [SoundEntry.setupStatus]
    cases h1 : getArchive name with
    | some st => rw [(h2 st h1).2, hsame]
    | none =>
      cases hd : getArchive defaultSndName with
      | some st => rw [(h3 st h1 hd).2, hsame]
      | none =>
        rcases hres with hc | hc
        · exact absurd h1 hc
        · exact absurd hd hc
  refine ⟨hopen, ?_, ?_⟩
  · rw [hopen, hst]
    by_cases h3 : flag &&& K.kSoundFlagLooped = 0
    · right
      simp only [h3, if_true]
      exact or_and_right_self _ _
    · left
      simp only [h3, if_false, Nat.or_zero]
      exact or_and_ne_zero_of_and_ne_zero _ _ _ h3
  · rw [hopen, hst]
    intro hz
    have h1 : flag &&& K.kSoundVolumeMask = 0 :=
      and_eq_zero_of_or_and_eq_zero _ _ _ (and_eq_zero_of_or_and_eq_zero _ _ _ hz)
    simp only [h1, if_true]
    exact or_and_of_and_eq _ _ _ (or_and_right_self _ _)

/-- C28, run on the flag 0x1000000 (ambient, volume bits zero, not looped). -/
theorem C28_setupStatus_witness :
    sampleConstants.kVolumeNone = 0 ∧
    ((SoundEntry.new sampleConstants).setupStatus sampleConstants 0x1000000)._status
      = (0x1000000 ||| (if 0x1000000 &&& sampleConstants.kSoundVolumeMask = 0
            then sampleConstants.kSoundFlagMuteRequested else 0))
        ||| (if 0x1000000 &&& sampleConstants.kSoundFlagLooped = 0
            then sampleConstants.kSoundFlagCloseOnDataEnd else 0) ∧
    ((SoundEntry.new sampleConstants).open sampleConstants sampleArchive
        (SoundQueue.empty 16 0) [65] 0x1000000 30).2._status
      = ((SoundEntry.new sampleConstants).setupStatus sampleConstants 0x1000000)._status :=
  ⟨by decide,
    (C28_setupStatus sampleConstants (by decide) (by decide) sampleArchive
      (SoundQueue.empty 16 0) (SoundEntry.new sampleConstants) [65] 0x1000000 30).1,
    ((C28_setupStatus sampleConstants (by decide) (by decide) sampleArchive
      (SoundQueue.empty 16 0) (SoundEntry.new sampleConstants) [65] 0x1000000 30).2
      (Or.inl (by decide))).1⟩

/-- C29: with kSoundFlagClosed being the bit 0x400 showSubtitle tests: when the ".SBE"
file does not exist, after showSubtitle the entry owns no subtitle and is otherwise as it
was (has-subtitles is not set), the active list holds no reference to the destroyed
subtitle and, the new subtitle's address not having been in it, is the list it was, and
the current-subtitle reference and the subtitle flag are unchanged when the new subtitle
was not recorded as current; when the file exists the entry keeps the subtitle and
has-subtitles is set. -/
theorem C29_showSubtitle (K : SoundConstants) (hclosed : K.kSoundFlagClosed = 0x400)
    (hasFile : List Nat → Bool) (subAddr thisAddr : Nat) (q : SoundQueue) (e : SoundEntry)
    (filename : List Nat) :
    (hasFile (filename ++ sbeSuffix) = false →
      (e.showSubtitle K hasFile subAddr thisAddr q filename).2.1
        = { e with _subtitle := none } ∧
      subAddr ∉ (e.showSubtitle K hasFile subAddr thisAddr q filename).1._subtitles ∧
      (subAddr ∉ q._subtitles →
        (e.showSubtitle K hasFile subAddr thisAddr q filename).1._subtitles = q._subtitles) ∧
      (q._currentSubtitle ≠ some subAddr →
        (e.showSubtitle K hasFile subAddr thisAddr q filename).1._currentSubtitle
          = q._currentSubtitle ∧
        (e.showSubtitle K hasFile subAddr thisAddr q filename).1._subtitlesFlag
          = q._subtitlesFlag)) ∧
    (hasFile (filename ++ sbeSuffix) = true →
      (∃ sub : SubtitleEntry,
        (e.showSubtitle K hasFile subAddr thisAddr q filename).2.1._subtitle = some sub ∧
        sub.addr = subAddr ∧ sub._filename = filename ++ sbeSuffix) ∧
      (e.showSubtitle K hasFile subAddr thisAddr q filename).2.1._status
        = e._status ||| K.kSoundFlagHasSubtitles ∧
      (e.showSubtitle K hasFile subAddr thisAddr q filename).2.1._status
          &&& K.kSoundFlagHasSubtitles = K.kSoundFlagHasSubtitles) := by
  constructor
  · intro h
    have hl := SubtitleEntry.load_missing K hasFile (SubtitleEntry.new subAddr) q filename
      thisAddr h
    have hshow : e.showSubtitle K hasFile subAddr thisAddr q filename
        = ((({ SubtitleEntry.new subAddr with
              _filename := filename ++ sbeSuffix, _sound := some thisAddr,
              _status := K.kSoundFlagClosed } : SubtitleEntry).draw
              (q.addSubtitle subAddr)).1,
            { e with _subtitle := none },
            (({ SubtitleEntry.new subAddr with
              _filename := filename ++ sbeSuffix, _sound := some thisAddr,
              _status := K.kSoundFlagClosed } : SubtitleEntry).draw
              (q.addSubtitle subAddr)).2) := by
      unfold SoundEntry.showSubtitle
      simp only []
      rw [hl]
      simp [hclosed, SubtitleEntry.new]
    rw [hshow]
    obtain ⟨d1, d2, d3, _⟩ := SubtitleEntry.draw_spec
      ({ SubtitleEntry.new subAddr with
        _filename := filename ++ sbeSuffix, _sound := some thisAddr,
        _status := K.kSoundFlagClosed } : SubtitleEntry) (q.addSubtitle subAddr)
    refine ⟨rfl, d1, ?_, ?_⟩
    · intro hf
      simp only []
      rw [d2]
      exact filter_ne_append_self _ _ hf
    · intro hc
      exact ⟨(d3 hc).1, (d3 hc).2.1⟩
  · intro h
    have hnew : (SubtitleEntry.new subAddr)._status = 0 := rfl
    have hshow : e.showSubtitle K hasFile subAddr thisAddr q filename
        = (((SubtitleEntry.new subAddr).load K hasFile q filename thisAddr).2,
            { e with
              _subtitle := some ((SubtitleEntry.new subAddr).load K hasFile q filename
                thisAddr).1
              _status := e._status ||| K.kSoundFlagHasSubtitles }, []) := by
      unfold SoundEntry.showSubtitle
      have hs : ((SubtitleEntry.new subAddr).load K hasFile q filename thisAddr).1._status
          = 0 := by
        by_cases hb : q._subtitlesFlag &&& 2 = 0
        · rw [SubtitleEntry.load_present_free K hasFile _ q filename thisAddr h hb]
          rfl
        · rw [SubtitleEntry.load_present_busy K hasFile _ q filename thisAddr h hb]
          rfl
      simp [hs]
    rw [hshow]
    refine ⟨⟨_, rfl, ?_, ?_⟩, rfl, or_and_right_self _ _⟩
    · by_cases hb : q._subtitlesFlag &&& 2 = 0
      · rw [SubtitleEntry.load_present_free K hasFile _ q filename thisAddr h hb]
        rfl
      · rw [SubtitleEntry.load_present_busy K hasFile _ q filename thisAddr h hb]
        rfl
    · by_cases hb : q._subtitlesFlag &&& 2 = 0
      · rw [SubtitleEntry.load_present_free K hasFile _ q filename thisAddr h hb]
      · rw [SubtitleEntry.load_present_busy K hasFile _ q filename thisAddr h hb]

/-- C29, run on the missing file "B.SBE" and a new subtitle at address 102. -/
theorem C29_showSubtitle_witness :
    sampleConstants.kSoundFlagClosed = 0x400 ∧ sampleHasFile ([66] ++ sbeSuffix) = false ∧
    (samplePlayerEntry.showSubtitle sampleConstants sampleHasFile 102 200
        sampleSubtitleQueue [66]).2.1 = { samplePlayerEntry with _subtitle := none } ∧
    (samplePlayerEntry.showSubtitle sampleConstants sampleHasFile 102 200
        sampleSubtitleQueue [66]).1._subtitles = sampleSubtitleQueue._subtitles :=
  ⟨by decide, by decide,
    ((C29_showSubtitle sampleConstants (by decide) sampleHasFile 102 200 sampleSubtitleQueue
      samplePlayerEntry [66]).1 (by decide)).1,
    ((C29_showSubtitle sampleConstants (by decide) sampleHasFile 102 200 sampleSubtitleQueue
      samplePlayerEntry [66]).1 (by decide)).2.2.1 (by decide)⟩

end LastExpress

namespace Illusions

/-! ## Lemmas on the menu system -/

end Illusions

namespace Illusions

end Illusions

namespace Illusions

/-! ## Lemmas on activation, the timeout and hit-testing -/

/-- What `activateMenu` establishes: the active menu exists, the first visible index is
1, `_field54` is the number of items and the visible count does not exceed it. -/
theorem BaseMenuSystem.activateMenu_inv (insertText : List Nat → Nat → Option (List Nat))
    (s0 s : BaseMenuSystem) (menu : Option Nat)
    (h : s0.activateMenu insertText menu = .ok s) :
    ∃ m : BaseMenu, s.deref s._activeMenu = some m ∧ s._hoveredMenuItemIndex3 = 1 ∧
      s._field54 = m._menuItems.length ∧ s._menuItemCount ≤ m._menuItems.length := by
  unfold BaseMenuSystem.activateMenu at h
  cases menu with
  | none => simp at h
  | some i =>
    cases hm : s0.deref (some i) with
    | none => simp [hm] at h
    | some m =>
      simp only [hm] at h
      have hi : s0.menus[i]? = some m := by simpa [BaseMenuSystem.deref] using hm
      have hlt : i < s0.menus.length := by
        by_contra hc
        rw [List.getElem?_eq_none (by omega)] at hi
        cases hi
      split at h
      · cases h
      · rename_i v2 hv
        cases h
        refine ⟨{ m with _field2C18 := m.getMenuItemsCount }, ?_, rfl, rfl, ?_⟩
        · simp [BaseMenuSystem.deref, hlt]
        · simp only [BaseMenu.getMenuItemsCount]
          split_ifs <;> omega

theorem wrap16_bounds (v : Int) : -32768 ≤ wrap16 v ∧ wrap16 v ≤ 32767 := by
  unfold wrap16
  omega

/-- C26: with the timeout enabled and a non-empty menu stack, updateTimeOut, whatever
resetTimeOut, the clock and the timer test say, only marks the timeout as reached: it
notifies no thread and selects no choice, the timeout stays enabled, its start and end
times and the active flag are unchanged. -/
theorem C26_timeout_suspended (now : Nat) (isTimerExpired : Nat → Nat → Bool)
    (s : BaseMenuSystem) (resetTimeOut : Bool)
    (hen : s._isTimeOutEnabled = true) (hst : s._menuStack ≠ []) :
    ∃ s1 : BaseMenuSystem,
      s.updateTimeOut now isTimerExpired resetTimeOut = .ok (s1, []) ∧
      s1 = { s with _isTimeOutReached := true } ∧
      s1._isTimeOutEnabled = true ∧
      s1._timeOutStartTime = s._timeOutStartTime ∧
      s1._timeOutEndTime = s._timeOutEndTime ∧
      s1._isActive = s._isActive ∧ s1._menuStack = s._menuStack := by
  have hne : s._menuStack.isEmpty = false := by
    cases hs : s._menuStack with
    | nil => exact absurd hs hst
    | cons x xs => rfl
  refine ⟨{ s with _isTimeOutReached := true }, ?_, rfl, hen, rfl, rfl, rfl, rfl⟩
  unfold BaseMenuSystem.updateTimeOut
  by_cases hr : s._isTimeOutReached = true
  · cases s
    simp only at hen hne hr
    subst hen hr
    simp [hne]
  · simp [hen, hne, hr]

/-- C26, run on the sample system inside a submenu, past the deadline. -/
theorem C26_timeout_suspended_witness :
    sampleTimedSubMenuSystem._isTimeOutEnabled = true ∧
    sampleTimedSubMenuSystem._menuStack ≠ [] ∧
    ∃ s1 : BaseMenuSystem,
      sampleTimedSubMenuSystem.updateTimeOut 500 (fun _ _ => true) false = .ok (s1, []) ∧
      s1 = { sampleTimedSubMenuSystem with _isTimeOutReached := true } ∧
      s1._isTimeOutEnabled = true ∧
      s1._timeOutStartTime = sampleTimedSubMenuSystem._timeOutStartTime ∧
      s1._timeOutEndTime = sampleTimedSubMenuSystem._timeOutEndTime ∧
      s1._isActive = sampleTimedSubMenuSystem._isActive ∧
      s1._menuStack = sampleTimedSubMenuSystem._menuStack :=
  ⟨rfl, by decide,
    C26_timeout_suspended 500 (fun _ _ => true) sampleTimedSubMenuSystem false rfl
      (by decide)⟩

/-- C27: in a menu system left by activateMenu, with a row of positive height, whenever
calcMenuItemIndexAtPoint returns true for a screen point, the index it stores lies in
the visible window from the first visible index to the first visible index plus the
visible item count minus 1, is at least 1 and at most the item count of the active
menu, and handleClick on it executes the action of the item at position index - 1 of
the item list. -/
theorem C27_hit_index_in_window (getMenuById : Nat → Option Nat)
    (insertText : List Nat → Nat → Option (List Nat)) (charHeight : Nat → Int)
    (textPos : Int × Int) (textWidth : Int) (s0 s : BaseMenuSystem) (menu : Option Nat)
    (pt : Int × Int) (index : Nat)
    (hact : s0.activateMenu insertText menu = .ok s)
    (hpt : -32768 ≤ pt.2 ∧ pt.2 ≤ 32767)
    (hrow : ∀ rect : WRect, s.calcMenuItemRect charHeight textPos textWidth 1 = .ok rect →
      0 < rect.bottomRightY - rect.topLeftY)
    (hhit : s.calcMenuItemIndexAtPoint charHeight textPos textWidth pt = .ok (some index)) :
    s._hoveredMenuItemIndex3 ≤ index ∧
    index ≤ s._hoveredMenuItemIndex3 + s._menuItemCount - 1 ∧
    1 ≤ index ∧
    ∃ (m : BaseMenu) (item : MenuItem), s.deref s._activeMenu = some m ∧
      index ≤ m._menuItems.length ∧ index - 1 < m._menuItems.length ∧
      m._menuItems[index - 1]? = some item ∧
      s.handleClick getMenuById insertText index
        = item.executeAction getMenuById insertText s := by
  obtain ⟨m, hm, h3, h54, hcnt⟩ := BaseMenuSystem.activateMenu_inv insertText s0 s menu hact
  unfold BaseMenuSystem.calcMenuItemIndexAtPoint at hhit
  cases hr : s.calcMenuItemRect charHeight textPos textWidth 1 with
  | error msg => simp [hr] at hhit
  | ok rect =>
    have hpos := hrow rect hr
    have htop : -32768 ≤ rect.topLeftY ∧ rect.topLeftY ≤ 32767 := by
      unfold BaseMenuSystem.calcMenuItemRect at hr
      simp only [hm] at hr
      cases hr
      exact wrap16_bounds _
    simp only [hr] at hhit
    rw [if_neg (by omega)] at hhit
    split_ifs at hhit with hc
    · cases hhit
    simp only [not_or, not_lt, gt_iff_lt, Except.ok.injEq, Option.some.injEq] at hc hhit
    obtain ⟨hy, _, _, h54le, hwin⟩ := hc
    have hq0 : 0 ≤ (pt.2 - rect.topLeftY).tdiv (rect.bottomRightY - rect.topLeftY) :=
      Int.tdiv_nonneg (by omega) (by omega)
    have hq1 : (pt.2 - rect.topLeftY).tdiv (rect.bottomRightY - rect.topLeftY)
        ≤ pt.2 - rect.topLeftY := by
      rw [Int.tdiv_eq_ediv (by omega) (by omega)]
      exact Int.ediv_le_self _ (by omega)
    generalize (pt.2 - rect.topLeftY).tdiv (rect.bottomRightY - rect.topLeftY) = q
      at hhit h54le hwin hq0 hq1
    rw [h3] at hhit h54le hwin
    have hidx : (index : Int) = 1 + q := by
      rw [← hhit]
      have : ((1 : Nat) : Int) + q = 1 + q := by simp
      rw [this, Int.emod_eq_of_lt (by omega) (by omega)]
      exact Int.toNat_of_nonneg (by omega)
    have hone : 1 ≤ index := by omega
    have hle : index ≤ m._menuItems.length := by
      rw [← h54, ← hhit]
      exact h54le
    have hwin2 : index ≤ s._menuItemCount := by
      have h1 : index ≤ (1 + s._menuItemCount + (2 ^ 32 - 1)) % 2 ^ 32 := by
        rw [← hhit]
        exact hwin
      have h2 : (1 + s._menuItemCount + (2 ^ 32 - 1)) % 2 ^ 32 ≤ s._menuItemCount := by
        omega
      omega
    have hlt : index - 1 < m._menuItems.length := by omega
    refine ⟨by omega, by omega, hone, m, m._menuItems[index - 1], hm, hle, hlt,
      List.getElem?_eq_getElem hlt, ?_⟩
    unfold BaseMenuSystem.handleClick
    rw [if_neg (by omega)]
    simp only [hm, List.getElem?_eq_getElem hlt]

/-- C27, run on the activated sample system with rows 10 pixels high: the point (5, 15)
hits index 1. -/
theorem C27_hit_index_in_window_witness :
    sampleMenuSystem.activateMenu sampleInsertText (some 0) = .ok sampleActivatedSystem ∧
    sampleActivatedSystem.calcMenuItemIndexAtPoint sampleCharHeight (0, 0) 100 (5, 15)
      = .ok (some 1) ∧
    sampleActivatedSystem._hoveredMenuItemIndex3 ≤ 1 ∧
    1 ≤ sampleActivatedSystem._hoveredMenuItemIndex3
      + sampleActivatedSystem._menuItemCount - 1 ∧
    1 ≤ 1 ∧
    ∃ (m : BaseMenu) (item : MenuItem),
      sampleActivatedSystem.deref sampleActivatedSystem._activeMenu = some m ∧
      1 ≤ m._menuItems.length ∧ 1 - 1 < m._menuItems.length ∧
      m._menuItems[1 - 1]? = some item ∧
      sampleActivatedSystem.handleClick (fun _ => none) sampleInsertText 1
        = item.executeAction (fun _ => none) sampleInsertText sampleActivatedSystem :=
  ⟨rfl, rfl,
    C27_hit_index_in_window (fun _ => none) sampleInsertText sampleCharHeight (0, 0) 100
      sampleMenuSystem sampleActivatedSystem (some 0) (5, 15) 1 rfl (by decide)
      (by
        intro rect h
        have hr : sampleActivatedSystem.calcMenuItemRect sampleCharHeight (0, 0) 100 1
            = .ok { topLeftX := 0, topLeftY := 10, bottomRightX := 100, bottomRightY := 20 } :=
          rfl
        rw [hr] at h
        cases h
        decide)
      rfl⟩

end Illusions
